import Mathlib

/-!
# NVENC video-streaming plugin: a shallow embedding

The definitions below follow `VideoStreamingServer/Native~/NVENC` function by
function.  Conventions:

* machine integers are `Nat`/`Int`; conversions between C++ integer types are
  written out (`toUInt64`, `toInt32`, `toUInt32`);
* raw pointers and handles are `Nat`, `0` being `nullptr`;
* a byte sequence is a `List Nat`;
* the result of every call into the NVENC driver, the graphics device or the
  operating system is an explicit argument (a *reply*) of the model function
  that performs the call, and every such call is appended to the `calls` log
  of the encoder;
* fixed-size arrays are functions from the index.
-/

/-! # H264Encoder.cpp (Media Foundation encoder) -/

/-- The members of `class H264Encoder` that `ParseSpsPps` changes: the cached
parameter sets. -/
structure H264Encoder where
  m_Sps : List Nat
  m_Pps : List Nat
deriving DecidableEq, Repr

namespace H264Encoder

/-- The `HRESULT` value `S_OK`. -/
def S_OK : Int := 0

/-- The local constant `naluHeader`. -/
def naluHeader : List Nat := [0x00, 0x00, 0x00, 0x01]

def NALU_TYPE_MASK : Nat := 0x1F

def SPS_NALU_TYPE : Nat := 0x07

def PPS_NALU_TYPE : Nat := 0x08

/-- The scan of `std::search` over the elements that remain, the first of them
at index `i`: the index of the first occurrence of `pattern`, or `none` when
the algorithm returns `last`. -/
def searchFrom (pattern : List Nat) : List Nat → Nat → Option Nat
  | [], i => if pattern.isEmpty then some i else none
  | x :: xs, i => if pattern.isPrefixOf (x :: xs) then some i else searchFrom pattern xs (i + 1)

/-- The call `std::search(data.begin() + first, data.end(), pattern.begin(), pattern.end())`;
iterators are indices into `data`, `none` is `data.end()`. -/
def search (data : List Nat) (first : Nat) (pattern : List Nat) : Option Nat :=
  searchFrom pattern (data.drop first) first

/-- What the media type answers to `ParseSpsPps`: the results of `GetBlobSize`
and `GetBlob`, and the `MF_MT_MPEG_SEQUENCE_HEADER` blob, whose length is the
size reported and whose bytes are those copied. -/
structure SequenceHeaderReply where
  getBlobSizeResult : Int
  sequenceHeaderData : List Nat
  getBlobResult : Int

/-- The type dispatch of one unit: `m_Sps.swap(nalu)` for type 7,
`m_Pps.swap(nalu)` for type 8, `none` for the `return false` of the `else`. -/
def storeNalu (self : H264Encoder) (naluType : Nat) (nalu : List Nat) : Option H264Encoder :=
  if naluType == SPS_NALU_TYPE then some { self with m_Sps := nalu }
  else if naluType == PPS_NALU_TYPE then some { self with m_Pps := nalu }
  else none

/-- The method `ParseSpsPps(mediaType)`: the value returned and the object
afterwards.  The result is `none` when `firstNalu[0]` or `secondNalu[0]`
subscripts an empty vector, which has no defined behaviour. -/
def ParseSpsPps (self : H264Encoder) (r : SequenceHeaderReply) : Option (Bool × H264Encoder) :=
  if r.getBlobSizeResult != S_OK then some (false, self)
  else if r.sequenceHeaderData.length == 0 then some (false, self)
  else if r.getBlobResult != S_OK then some (false, self)
  else
    let sequenceHeaderData := r.sequenceHeaderData
    if sequenceHeaderData.length < 8 then some (false, self)
    else
      match search sequenceHeaderData 0 naluHeader with
      | none => some (false, self)
      | some firstNaluIt =>
        if sequenceHeaderData.length - firstNaluIt ≤ naluHeader.length then some (false, self)
        else
          match search sequenceHeaderData (firstNaluIt + naluHeader.length) naluHeader with
          | none => some (false, self)
          | some secondNaluIt =>
            if sequenceHeaderData.length - secondNaluIt ≤ 4 then some (false, self)
            else
              let firstNalu :=
                (sequenceHeaderData.take secondNaluIt).drop (firstNaluIt + naluHeader.length)
              let secondNalu := sequenceHeaderData.drop (secondNaluIt + naluHeader.length)
              match firstNalu.head?, secondNalu.head? with
              | some firstByte, some secondByte =>
                let firstNaluType := firstByte &&& NALU_TYPE_MASK
                let secondNaluType := secondByte &&& NALU_TYPE_MASK
                match storeNalu self firstNaluType firstNalu with
                | none => some (false, self)
                | some self1 =>
                  match storeNalu self1 secondNaluType secondNalu with
                  | none => some (false, self1)
                  | some self2 =>
                    if self2.m_Sps.isEmpty then some (false, self2)
                    else if self2.m_Pps.isEmpty then some (false, self2)
                    else some (true, self2)
              | _, _ => none

end H264Encoder

/-! # NetworkListManager (COMUtilities.h, NetworkListManager.cpp) -/

namespace NetworkListManager

/-- The `HRESULT` value `S_OK`. -/
def S_OK : Int := 0

/-- The `HRESULT` value `S_FALSE`. -/
def S_FALSE : Int := 1

/-- What `m_Enumerator.Next(Stride, m_Buffer, &m_NumFetched)` answers: the
`HRESULT`, and the items written to the start of `m_Buffer`, whose number is
the value stored through `&m_NumFetched`. -/
structure NextReply (α : Type) where
  hr : Int
  fetched : List α

/-- The method `Next(celt, ...)` of an underlying enumerator that follows the
COM convention: `S_OK` with exactly `celt` items, or `S_FALSE` with the fewer
items that remain.  An enumerator is represented by the items it has not
served yet; the second component is the enumerator after the call. -/
def Next {α : Type} (remaining : List α) (celt : Nat) : NextReply α × List α :=
  if celt ≤ remaining.length then
    ({ hr := S_OK, fetched := remaining.take celt }, remaining.drop celt)
  else ({ hr := S_FALSE, fetched := remaining }, [])

/-- The members of `struct EnumeratorWrapper<T, TEnumerator, Stride>`; an item
is the object a `T*` points to.  `released` is the log of the items on which
the private method `Release()` has called `Release()`. -/
structure EnumeratorWrapper (α : Type) where
  m_Enumerator : List α
  m_Buffer : List α
  m_NumFetched : Nat
  m_BufferIdx : Nat
  m_Done : Bool
  released : List α

namespace EnumeratorWrapper

/-- The constructor `EnumeratorWrapper(enumerator)`. -/
def new {α : Type} (Stride : Nat) (enumerator : List α) : EnumeratorWrapper α :=
  { m_Enumerator := enumerator, m_Buffer := [], m_NumFetched := 0, m_BufferIdx := Stride,
    m_Done := false, released := [] }

/-- The private method `Release()`. -/
def Release {α : Type} (w : EnumeratorWrapper α) : EnumeratorWrapper α :=
  { w with released := w.released ++ w.m_Buffer.take w.m_NumFetched }

/-- The method `GetNext()`: the pointer returned, `none` for `nullptr`, and the
wrapper afterwards. -/
def GetNext {α : Type} (Stride : Nat) (w : EnumeratorWrapper α) :
    Option α × EnumeratorWrapper α :=
  if w.m_Done then (none, w)
  else if w.m_BufferIdx ≥ w.m_NumFetched then
    let w1 := Release w
    let next := Next w1.m_Enumerator Stride
    let w2 : EnumeratorWrapper α :=
      { w1 with
        m_Enumerator := next.2
        m_Buffer := next.1.fetched ++ w1.m_Buffer.drop next.1.fetched.length
        m_NumFetched := next.1.fetched.length }
    if S_OK != next.1.hr || w2.m_NumFetched == 0 then
      (none, { w2 with m_NumFetched := 0, m_Done := true })
    else
      let w3 : EnumeratorWrapper α := { w2 with m_BufferIdx := 0 }
      (w3.m_Buffer.get? w3.m_BufferIdx, { w3 with m_BufferIdx := w3.m_BufferIdx + 1 })
  else (w.m_Buffer.get? w.m_BufferIdx, { w with m_BufferIdx := w.m_BufferIdx + 1 })

/-- The loop `while (true) { item = GetNext(); if (item == nullptr) break; ... }`
of `NLMWrapper::Refresh`: the items returned before the first `nullptr`.  The
first argument bounds the number of iterations. -/
def collect {α : Type} (Stride : Nat) : Nat → EnumeratorWrapper α → List α
  | 0, _ => []
  | n + 1, w =>
    match GetNext Stride w with
    | (none, _) => []
    | (some item, w1) => item :: collect Stride n w1

end EnumeratorWrapper

/-- The enumerators of `enum class UpdateInputFlags`, as bit patterns. -/
def UpdateInputFlags.None : Nat := 0

def UpdateInputFlags.ForceRefresh : Nat := 1 <<< 0

def UpdateInputFlags.OnlyConnectedNetworks : Nat := 1 <<< 1

/-- The enumerators of `enum class UpdateOutputFlags`. -/
def UpdateOutputFlags.None : Nat := 0

def UpdateOutputFlags.Refreshed : Nat := 1 <<< 0

/-- The members of `class NLMWrapper` that `Update` reads and writes.
`refreshCalls` is the log of the arguments `Refresh` was called with; the
enumeration that fills `m_Results` is not represented. -/
structure NLMWrapper where
  m_StateChanged : Bool
  refreshCalls : List Bool
deriving DecidableEq, Repr

namespace NLMWrapper

/-- The method `Refresh(onlyConnectedNetworks)`, which returns `Refreshed` on
every path. -/
def Refresh (self : NLMWrapper) (onlyConnectedNetworks : Bool) : Nat × NLMWrapper :=
  (UpdateOutputFlags.Refreshed, { self with refreshCalls := self.refreshCalls ++ [onlyConnectedNetworks] })

/-- The method `Update(inputFlags)`; `inputFlags` is the bit pattern of the
flag word. -/
def Update (self : NLMWrapper) (inputFlags : Nat) : Nat × NLMWrapper :=
  let forceRefresh := (inputFlags &&& UpdateInputFlags.ForceRefresh) != UpdateInputFlags.None
  let onlyConnectedNetworks :=
    (inputFlags &&& UpdateInputFlags.OnlyConnectedNetworks) != UpdateInputFlags.OnlyConnectedNetworks
  let stateHasChanged := self.m_StateChanged
  let self1 : NLMWrapper := { self with m_StateChanged := false }
  if forceRefresh || stateHasChanged then Refresh self1 onlyConnectedNetworks
  else (UpdateOutputFlags.None, self1)

end NLMWrapper

end NetworkListManager

namespace NvencPlugin

/-! ## Integer conversions -/

/-- Conversion of a signed value to `uint64_t`. -/
def toUInt64 (x : Int) : Nat := (x % (2 ^ 64 : Int)).toNat

/-- Conversion of a signed value to `uint32_t`. -/
def toUInt32 (x : Int) : Nat := (x % (2 ^ 32 : Int)).toNat

/-- Conversion of an unsigned value to `int` (two's complement, 32 bits). -/
def toInt32 (n : Nat) : Int :=
  if n % 2 ^ 32 < 2 ^ 31 then ((n % 2 ^ 32 : Nat) : Int) else ((n % 2 ^ 32 : Nat) : Int) - 2 ^ 32

/-- The status `NV_ENC_SUCCESS` of the NVENC API. -/
def NV_ENC_SUCCESS : Nat := 0

/-! ## NvencFrame.h -/

def k_BufferedFrameNum : Nat := 4

def k_GOPSize : Nat := 2

abbrev DataSequence := List Nat

structure InputFrame where
  registeredResource : Nat
  mappedResource : Nat
  bufferFormat : Nat
deriving DecidableEq, Repr

structure Frame where
  inputFrame : InputFrame
  outputFrame : Nat
  encodedFrame : DataSequence
  isEncoding : Bool
  isEncoded : Bool
deriving DecidableEq, Repr

structure EncodedFrame where
  spsSequence : DataSequence
  ppsSequence : DataSequence
  imageData : DataSequence
  timestamp : Nat
  isKeyFrame : Bool
deriving DecidableEq, Repr

/-! ## NvencEncoderSessionData.h / .cpp -/

def BitRateInKilobits : Nat := 1000

structure NvencEncoderSessionData where
  width : Int
  height : Int
  frameRate : Int
  bitRate : Int
  gopSize : Int
deriving DecidableEq, Repr

namespace NvencEncoderSessionData

/-- The default member initialisers of the struct. -/
def defaultValue : NvencEncoderSessionData :=
  { width := 0, height := 0, frameRate := 0, bitRate := 0, gopSize := 0 }

/-- The product `other.bitRate * BitRateInKilobits`, computed in `uint64_t`. -/
def scaledBitRate (other : NvencEncoderSessionData) : Nat :=
  (toUInt64 other.bitRate * BitRateInKilobits) % 2 ^ 64

/-- The copy constructor `NvencEncoderSessionData(const NvencEncoderSessionData& other)`. -/
def copy (other : NvencEncoderSessionData) : NvencEncoderSessionData :=
  { width := other.width
    height := other.height
    frameRate := other.frameRate
    bitRate := toInt32 (scaledBitRate other)
    gopSize := other.gopSize }

/-- The member `operator==`: `self == other`. -/
def eq (self other : NvencEncoderSessionData) : Bool :=
  self.width == other.width &&
  self.height == other.height &&
  self.frameRate == other.frameRate &&
  toUInt64 self.bitRate == scaledBitRate other &&
  self.gopSize == other.gopSize

/-- The member `Update(other)`; the result is the updated object. -/
def Update (_self other : NvencEncoderSessionData) : NvencEncoderSessionData :=
  { width := other.width
    height := other.height
    frameRate := other.frameRate
    bitRate := toInt32 (scaledBitRate other)
    gopSize := other.gopSize }

end NvencEncoderSessionData

/-! ## NvencEncoder.h -/

inductive ENvencStatus where
  | NotInitialized
  | Success
  | DriverNotInstalled
  | DriverVersionDoesNotSupportAPI
  | APINotFound
  | EncoderInitializationFailed
deriving DecidableEq, Repr

structure EncodedFrameDataKey where
  index : Nat
  timestamp : Nat
  isKeyFrame : Bool
deriving DecidableEq, Repr

def k_MaxWidth : Int := 3840

def k_MaxHeight : Int := 2160

def k_MaxQueueLength : Nat := 8

/-- The members of `NV_ENC_INITIALIZE_PARAMS` the plugin writes or reads. -/
structure NV_ENC_INITIALIZE_PARAMS where
  encodeWidth : Nat
  encodeHeight : Nat
  darWidth : Nat
  darHeight : Nat
  frameRateNum : Nat
  frameRateDen : Nat
  enableEncodeAsync : Nat
  enablePTD : Nat
  maxEncodeWidth : Nat
  maxEncodeHeight : Nat
deriving DecidableEq, Repr

/-- The members of `NV_ENC_CONFIG::rcParams` the plugin writes or reads. -/
structure NV_ENC_RC_PARAMS where
  averageBitRate : Nat
  maxBitRate : Nat
  vbvBufferSize : Nat
  vbvInitialDelay : Nat
  enableAQ : Nat
deriving DecidableEq, Repr

/-- The members of `NV_ENC_CONFIG` the plugin writes or reads. -/
structure NV_ENC_CONFIG where
  frameIntervalP : Nat
  gopLength : Nat
  idrPeriod : Nat
  disableSPSPPS : Nat
  repeatSPSPPS : Nat
  enableIntraRefresh : Nat
  rcParams : NV_ENC_RC_PARAMS
deriving DecidableEq, Repr

def NVENC_INFINITE_GOPLENGTH : Nat := 0xffffffff

def NV_ENC_PIC_FLAG_FORCEIDR : Nat := 0x2

def NV_ENC_PIC_FLAG_OUTPUT_SPSPPS : Nat := 0x4

def NV_ENC_BUFFER_FORMAT_NV12 : Nat := 0x1

def NV_ENC_BUFFER_FORMAT_ARGB : Nat := 0x01000000

/-- The calls the encoder makes into the NVENC driver, the graphics device and
the operating system, with the arguments that matter to the plugin. -/
inductive NvCall where
  | LoadLibrary
  | FreeLibrary
  | NvEncodeAPIGetMaxSupportedVersion
  | NvEncodeAPICreateInstance
  | GetDevice
  | nvEncOpenEncodeSessionEx
  | nvEncGetEncodeCaps
  | InitializeMultithreadingSecurity
  | newThread
  | deleteThread
  | nvEncGetEncodePresetConfig
  | nvEncInitializeEncoder (encodeWidth encodeHeight : Nat)
  | CreateEvent
  | CloseHandle (event : Nat)
  | nvEncRegisterAsyncEvent (event : Nat)
  | nvEncUnregisterAsyncEvent (event : Nat)
  | CreateDefaultTexture (width height : Nat) (forceNV12 : Bool)
  | deleteTexture (texture : Nat)
  | nvEncRegisterResource (resourceToRegister : Nat)
  | nvEncUnregisterResource (registeredResource : Nat)
  | nvEncMapInputResource (registeredResource : Nat)
  | nvEncUnmapInputResource (mappedResource : Nat)
  | nvEncCreateBitstreamBuffer
  | nvEncDestroyBitstreamBuffer (bitstreamBuffer : Nat)
  | InitializeConverter (width height : Int)
  | ConvertRGBToNV12 (dest : Nat)
  | CopyResource (dest : Nat)
  | nvEncReconfigureEncoder (reInitEncodeParams : NV_ENC_INITIALIZE_PARAMS) (forceIDR resetEncoder : Nat)
  | nvEncEncodePicture (inputBuffer outputBitstream encodePicFlags inputTimeStamp completionEvent : Nat)
  | WaitForSingleObject (event : Nat)
  | nvEncLockBitstream (outputBitstream : Nat)
  | nvEncUnlockBitstream (outputBitstream : Nat)
  | nvEncGetSequenceParams
  | nvEncDestroyEncoder
deriving DecidableEq, Repr

/-- The object state of `class NvEncoder`.  `m_FrameQueueFront` is the address
of the front element of `m_FrameQueue`: an element of a `std::queue` keeps its
address while it is in the queue; the address of an element is taken to be
the number of elements pushed before it, so the address of the front element
is the number of elements popped so far.  `calls` logs the external calls. -/
structure NvEncoder where
  m_HModule : Nat
  m_HEncoder : Nat
  m_NvEncInitializeParams : NV_ENC_INITIALIZE_PARAMS
  m_NvEncConfig : NV_ENC_CONFIG
  m_InitializationResult : ENvencStatus
  m_IsIdrFrame : Bool
  m_FrameData : NvencEncoderSessionData
  m_FrameCount : Nat
  m_GOPCount : Nat
  m_ForceNV12 : Bool
  m_RenderTextures : Nat → Nat
  m_BufferedFrames : Nat → Frame
  m_FrameQueue : List EncodedFrame
  m_FrameQueueFront : Nat
  m_vpCompletionEvent : List Nat
  m_BufferToRead : List EncodedFrameDataKey
  m_Thread : Nat
  m_IsAsync : Bool
  calls : List NvCall

/-- Assignment to one element of a fixed-size array. -/
def setAt {α : Type} (a : Nat → α) (i : Nat) (v : α) : Nat → α :=
  fun j => if j = i then v else a j

namespace NvEncoder

/-- The inline getter `IsInitialized()`. -/
def IsInitialized (e : NvEncoder) : Bool :=
  e.m_InitializationResult == ENvencStatus.Success

/-! ### Sequence parameters -/

/-- What `nvEncGetSequenceParams` leaves behind: its status, the memory seen
through `spsppsData` (offsets below 1024 are the zeroed array as written by the
driver, larger offsets are whatever follows the array) and the value stored
through `outSPSPPSPayloadSize`. -/
structure SequenceParamsReply where
  errorCode : Nat
  spsppsData : Nat → Nat
  spsppsSize : Nat

/-- The `while` loop of `GetSequenceParams` that looks for the second start
code, started with `i_sps`; `none` is the early `return` of the loop.  The
first argument bounds the number of iterations; the loop leaves as soon as
`i_sps >= spsppsSize`, so `spsppsSize + 1` iterations are never used up. -/
def findStartCode (spsppsData : Nat → Nat) (spsppsSize : Nat) : Nat → Nat → Option Nat
  | 0, _ => none
  | n + 1, i_sps =>
    if spsppsData i_sps != 0x00
        || spsppsData (i_sps + 1) != 0x00
        || spsppsData (i_sps + 2) != 0x00
        || spsppsData (i_sps + 3) != 0x01 then
      if i_sps + 1 >= spsppsSize then none
      else findStartCode spsppsData spsppsSize n (i_sps + 1)
    else some i_sps

/-- The bytes `p[first] .. p[last - 1]`, as copied by `insert(begin, &p[first], &p[last])`. -/
def byteRange (p : Nat → Nat) (first last : Nat) : DataSequence :=
  (List.range (last - first)).map (fun k => p (first + k))

/-- The method `GetSequenceParams(spsSequence, ppsSequence)`; the result is the
pair of output sequences. -/
def GetSequenceParams (r : SequenceParamsReply) : DataSequence × DataSequence :=
  if r.errorCode != NV_ENC_SUCCESS then ([], [])
  else
    match findStartCode r.spsppsData r.spsppsSize (r.spsppsSize + 1) 4 with
    | none => ([], [])
    | some i_sps =>
      let pps : Nat → Nat := fun k => r.spsppsData (i_sps + k)
      let i_pps : Nat := (r.spsppsSize + 2 ^ 32 - i_sps) % 2 ^ 32
      (byteRange r.spsppsData 4 i_sps, byteRange pps 4 i_pps)

/-! ### Encoded frame actions -/

/-- The local variable `encodedFrame` that `AddEncodedFrame` fills in and pushes. -/
def encodedFrameOf (e : NvEncoder) (frame : Nat) (timestamp : Nat) (isKeyFrame : Bool)
    (seq : SequenceParamsReply) : EncodedFrame :=
  { imageData := (e.m_BufferedFrames frame).encodedFrame
    spsSequence := (GetSequenceParams seq).1
    ppsSequence := (GetSequenceParams seq).2
    timestamp := timestamp
    isKeyFrame := isKeyFrame }

/-- The method `AddEncodedFrame(frame, timestamp, isKeyFrame)`, where `frame` is
the element `m_BufferedFrames[frame]`.  The vector `frame.encodedFrame` that is
moved from is left empty. -/
def AddEncodedFrame (e : NvEncoder) (frame : Nat) (timestamp : Nat) (isKeyFrame : Bool)
    (seq : SequenceParamsReply) : NvEncoder :=
  let slot := e.m_BufferedFrames frame
  let encodedFrame : EncodedFrame := encodedFrameOf e frame timestamp isKeyFrame seq
  let e1 : NvEncoder :=
    { e with
      m_BufferedFrames := setAt e.m_BufferedFrames frame { slot with encodedFrame := [] }
      calls := e.calls ++ [NvCall.nvEncGetSequenceParams] }
  if e1.m_FrameQueue.length < k_MaxQueueLength then
    { e1 with m_FrameQueue := e1.m_FrameQueue ++ [encodedFrame] }
  else
    { e1 with
      m_FrameQueue := e1.m_FrameQueue.tail ++ [encodedFrame]
      m_FrameQueueFront := e1.m_FrameQueueFront + 1 }

/-- The method `GetEncodedFrame()`: the address of the front element, or `none`
for `nullptr`. -/
def GetEncodedFrame (e : NvEncoder) : Option Nat :=
  if e.m_FrameQueue.length > 0 then some e.m_FrameQueueFront else none

/-- The method `RemoveEncodedFrame()`. -/
def RemoveEncodedFrame (e : NvEncoder) : Bool × NvEncoder :=
  if e.m_FrameQueue.length > 0 then
    (true, { e with m_FrameQueue := e.m_FrameQueue.tail, m_FrameQueueFront := e.m_FrameQueueFront + 1 })
  else (false, e)

/-- The method `ClearEncodedFrameQueue()`: pops until the queue is empty. -/
def ClearEncodedFrameQueue (e : NvEncoder) : NvEncoder :=
  { e with m_FrameQueue := [], m_FrameQueueFront := e.m_FrameQueueFront + e.m_FrameQueue.length }

/-- The element of `m_FrameQueue` stored at an address, if it is still in the queue. -/
def frameAt (e : NvEncoder) (address : Nat) : Option EncodedFrame :=
  if e.m_FrameQueueFront ≤ address then e.m_FrameQueue.get? (address - e.m_FrameQueueFront) else none

/-! ### Initialisation of the encoding resources -/

/-- Replies of the calls `InitEncoderResources` makes for one buffered frame. -/
structure ResourceReply where
  texture : Nat
  textureToRegister : Nat
  registerStatus : Nat
  registeredResource : Nat
  mapStatus : Nat
  mappedResource : Nat
  createStatus : Nat
  bitstreamBuffer : Nat

/-- One iteration of the loop of `InitEncoderResources`: `CreateDefaultTexture`,
`RegisterResource`, `MapResources` and `InitializeBitstreamBuffer` for slot `i`.
The statuses are only logged by the source. -/
def InitEncoderResourcesAt (e : NvEncoder) (i : Nat) (r : ResourceReply) : NvEncoder :=
  let format := if e.m_ForceNV12 then NV_ENC_BUFFER_FORMAT_NV12 else NV_ENC_BUFFER_FORMAT_ARGB
  let frame := e.m_BufferedFrames i
  let frame1 : Frame :=
    { frame with
      inputFrame :=
        { registeredResource := r.registeredResource
          mappedResource := r.mappedResource
          bufferFormat := format }
      outputFrame := r.bitstreamBuffer }
  { e with
    m_RenderTextures := setAt e.m_RenderTextures i r.texture
    m_BufferedFrames := setAt e.m_BufferedFrames i frame1
    calls := e.calls ++
      [ NvCall.CreateDefaultTexture (toUInt32 e.m_FrameData.width) (toUInt32 e.m_FrameData.height)
          e.m_ForceNV12,
        NvCall.nvEncRegisterResource r.textureToRegister,
        NvCall.nvEncMapInputResource r.registeredResource,
        NvCall.nvEncCreateBitstreamBuffer ] }

/-- The method `InitEncoderResources()`: the loop over the `k_BufferedFrameNum` slots. -/
def InitEncoderResources (e : NvEncoder) (r : Nat → ResourceReply) : NvEncoder :=
  (List.range k_BufferedFrameNum).foldl (fun acc i => InitEncoderResourcesAt acc i (r i)) e

/-- The method `InitializeAsyncResources()`; `events i` is the handle returned
by the `i`-th `CreateEvent`. -/
def InitializeAsyncResources (e : NvEncoder) (events : Nat → Nat) : NvEncoder :=
  let resized := e.m_vpCompletionEvent.take k_BufferedFrameNum ++
    List.replicate (k_BufferedFrameNum - e.m_vpCompletionEvent.length) 0
  { e with
    m_vpCompletionEvent := (List.range resized.length).map events
    calls := e.calls ++
      (List.range resized.length).flatMap
        (fun i => [NvCall.CreateEvent, NvCall.nvEncRegisterAsyncEvent (events i)]) }

/-! ### Release of the encoding resources -/

/-- The method `ReleaseFrameInputBuffer(frame)` for `m_BufferedFrames[i]`. -/
def ReleaseFrameInputBuffer (e : NvEncoder) (i : Nat) : NvEncoder :=
  if e.m_HEncoder != 0 then
    let frame := e.m_BufferedFrames i
    { e with
      m_BufferedFrames := setAt e.m_BufferedFrames i
        { frame with
          inputFrame := { frame.inputFrame with mappedResource := 0, registeredResource := 0 } }
      calls := e.calls ++
        [ NvCall.nvEncUnmapInputResource frame.inputFrame.mappedResource,
          NvCall.nvEncUnregisterResource frame.inputFrame.registeredResource ] }
  else e

/-- The body of the first loop of `ReleaseEncoderResources` for slot `i`. -/
def ReleaseEncoderResourcesAt (e : NvEncoder) (i : Nat) : NvEncoder :=
  let e1 := ReleaseFrameInputBuffer e i
  let frame := e1.m_BufferedFrames i
  { e1 with
    m_BufferedFrames := setAt e1.m_BufferedFrames i { frame with outputFrame := 0 }
    calls := e1.calls ++ [NvCall.nvEncDestroyBitstreamBuffer frame.outputFrame] }

/-- The body of the second loop of `ReleaseEncoderResources` for texture `i`. -/
def ReleaseRenderTextureAt (e : NvEncoder) (i : Nat) : NvEncoder :=
  if e.m_RenderTextures i != 0 then
    { e with
      m_RenderTextures := setAt e.m_RenderTextures i 0
      calls := e.calls ++ [NvCall.deleteTexture (e.m_RenderTextures i)] }
  else e

/-- The method `ReleaseEncoderResources()`.  The statuses returned by the
driver are only logged by the source, so they are not arguments. -/
def ReleaseEncoderResources (e : NvEncoder) : NvEncoder :=
  if e.m_InitializationResult != ENvencStatus.Success then e
  else
    let e1 := (List.range k_BufferedFrameNum).foldl ReleaseEncoderResourcesAt e
    (List.range k_BufferedFrameNum).foldl ReleaseRenderTextureAt e1

/-- The method `DestroyAsyncResources()`. -/
def DestroyAsyncResources (e : NvEncoder) : NvEncoder :=
  { e with
    m_vpCompletionEvent := []
    calls := e.calls ++
      e.m_vpCompletionEvent.flatMap
        (fun event =>
          if event != 0 then [NvCall.nvEncUnregisterAsyncEvent event, NvCall.CloseHandle event]
          else []) }

/-- The method `UnloadModule()`. -/
def UnloadModule (e : NvEncoder) : NvEncoder :=
  if e.m_HModule != 0 then { e with m_HModule := 0, calls := e.calls ++ [NvCall.FreeLibrary] }
  else e

/-- The first block of `DestroyResources()`: `if (m_IsAsync) { ... }`.
`delete m_Thread` joins the dispatcher thread and leaves the pointer as it is. -/
def stopDispatcher (e : NvEncoder) : NvEncoder :=
  if e.m_IsAsync then
    let e1 : NvEncoder := { e with m_IsAsync := false }
    let e2 : NvEncoder :=
      if e1.m_Thread != 0 then { e1 with calls := e1.calls ++ [NvCall.deleteThread] } else e1
    DestroyAsyncResources e2
  else e

/-- The block `if (m_HEncoder) { nvEncDestroyEncoder; m_HEncoder = nullptr; }` of
`DestroyResources()`. -/
def destroyEncoderSession (e : NvEncoder) : NvEncoder :=
  if e.m_HEncoder != 0 then
    { e with m_HEncoder := 0, calls := e.calls ++ [NvCall.nvEncDestroyEncoder] }
  else e

/-- The method `DestroyResources()`. -/
def DestroyResources (e : NvEncoder) : NvEncoder :=
  let e1 := stopDispatcher e
  let e2 := ReleaseEncoderResources e1
  let e3 := ClearEncodedFrameQueue e2
  let e4 := destroyEncoderSession e3
  let e5 := UnloadModule e4
  { e5 with m_InitializationResult := ENvencStatus.NotInitialized }

/-! ### Update of the settings -/

/-- The method `UpdateSettings()`; `r` holds the replies used by
`InitEncoderResources` when the size changed. -/
def UpdateSettings (e : NvEncoder) (r : Nat → ResourceReply) : NvEncoder :=
  let p0 := e.m_NvEncInitializeParams
  let frameRateChanged := p0.frameRateNum != toUInt32 e.m_FrameData.frameRate
  let p1 := if frameRateChanged then { p0 with frameRateNum := toUInt32 e.m_FrameData.frameRate } else p0
  let widthChanged := p1.encodeWidth != toUInt32 e.m_FrameData.width
  let p2 :=
    if widthChanged then
      { p1 with encodeWidth := toUInt32 e.m_FrameData.width, darWidth := toUInt32 e.m_FrameData.width }
    else p1
  let heightChanged := p2.encodeHeight != toUInt32 e.m_FrameData.height
  let p3 :=
    if heightChanged then
      { p2 with encodeHeight := toUInt32 e.m_FrameData.height, darHeight := toUInt32 e.m_FrameData.height }
    else p2
  let c0 := e.m_NvEncConfig
  let bitRateChanged := c0.rcParams.averageBitRate != toUInt32 e.m_FrameData.bitRate
  let c1 :=
    if bitRateChanged then
      { c0 with
        rcParams :=
          { c0.rcParams with
            averageBitRate := toUInt32 e.m_FrameData.bitRate
            maxBitRate := toUInt32 e.m_FrameData.bitRate } }
    else c0
  let sizeChanged := widthChanged || heightChanged
  let settingChanged := frameRateChanged || widthChanged || heightChanged || bitRateChanged
  let e1 : NvEncoder := { e with m_NvEncInitializeParams := p3, m_NvEncConfig := c1 }
  if settingChanged then
    let e2 : NvEncoder := { e1 with calls := e1.calls ++ [NvCall.nvEncReconfigureEncoder p3 1 1] }
    if sizeChanged then
      let e3 := InitEncoderResources (ReleaseEncoderResources e2) r
      { e3 with
        calls := e3.calls ++ [NvCall.InitializeConverter e3.m_FrameData.width e3.m_FrameData.height] }
    else e2
  else e1

/-- The method `UpdateEncoderSessionData(other)`. -/
def UpdateEncoderSessionData (e : NvEncoder) (other : NvencEncoderSessionData)
    (r : Nat → ResourceReply) : Bool × NvEncoder :=
  let updateData := !(NvencEncoderSessionData.eq other e.m_FrameData)
  if updateData then
    (updateData,
      UpdateSettings { e with m_FrameData := NvencEncoderSessionData.Update e.m_FrameData other } r)
  else (updateData, e)

/-! ### Encoding of a frame -/

/-- The method `GetCompletionEvent(eventIdx)`. -/
def GetCompletionEvent (e : NvEncoder) (eventIdx : Nat) : Nat :=
  if e.m_vpCompletionEvent.length == k_BufferedFrameNum then e.m_vpCompletionEvent.getD eventIdx 0
  else 0

/-- The method `CopyBufferResources(frameIndex, frameSourceData)`; `deviceResult`
is what `ConvertRGBToNV12` or `CopyResource` returns. -/
def CopyBufferResources (e : NvEncoder) (frameIndex : Nat) (frameSourceData : Nat)
    (deviceResult : Bool) : Bool × NvEncoder :=
  let destTexture := e.m_RenderTextures frameIndex
  if destTexture == 0 || frameSourceData == 0 then (false, e)
  else if e.m_ForceNV12 then
    (true, { e with calls := e.calls ++ [NvCall.ConvertRGBToNV12 destTexture] })
  else
    let e1 : NvEncoder := { e with calls := e.calls ++ [NvCall.CopyResource destTexture] }
    if !deviceResult then (false, e1) else (true, e1)

/-- Replies used by `ProcessEncodedFrame`: the status of `nvEncLockBitstream`,
the size and the bytes it reports, the status of `nvEncUnlockBitstream`, and
the reply of `nvEncGetSequenceParams`. -/
structure ProcessReply where
  lockStatus : Nat
  bitstreamSizeInBytes : Nat
  bitstreamBufferPtr : Nat → Nat
  unlockStatus : Nat
  sequenceParams : SequenceParamsReply

/-- The method `ProcessEncodedFrame(frame, timestamp, isKeyFrame)` for
`m_BufferedFrames[frame]`. -/
def ProcessEncodedFrame (e : NvEncoder) (frame : Nat) (timestamp : Nat) (isKeyFrame : Bool)
    (r : ProcessReply) : NvEncoder :=
  let slot := e.m_BufferedFrames frame
  if !slot.isEncoding then e
  else
    let slot1 : Frame := { slot with isEncoding := false }
    let slot2 : Frame :=
      if r.bitstreamSizeInBytes != 0 then
        { slot1 with encodedFrame := byteRange r.bitstreamBufferPtr 0 r.bitstreamSizeInBytes }
      else slot1
    let e1 : NvEncoder :=
      { e with
        m_BufferedFrames := setAt e.m_BufferedFrames frame slot2
        calls := e.calls ++
          [NvCall.nvEncLockBitstream slot.outputFrame, NvCall.nvEncUnlockBitstream slot.outputFrame] }
    AddEncodedFrame e1 frame timestamp isKeyFrame r.sequenceParams

/-- Replies used by `EncodeFrame`. -/
structure EncodeReply where
  deviceCopy : Bool
  encodePicture : Nat
  process : ProcessReply

/-- The method `EncodeFrame(frameSourceData, timeStamp)`. -/
def EncodeFrame (e : NvEncoder) (frameSourceData : Nat) (timeStamp : Nat) (r : EncodeReply) :
    NvEncoder :=
  if frameSourceData == 0 then e
  else
    let frameIndex := e.m_FrameCount % k_BufferedFrameNum
    let copied := CopyBufferResources e frameIndex frameSourceData r.deviceCopy
    if !copied.1 then copied.2
    else
      let e1 := copied.2
      let bufferedFrame := e1.m_BufferedFrames frameIndex
      if bufferedFrame.isEncoding then e1
      else
        let started : Frame := { bufferedFrame with isEncoded := false, isEncoding := true }
        let completionEvent :=
          if e1.m_NvEncInitializeParams.enableEncodeAsync == 1 then
            GetCompletionEvent e1 (e1.m_FrameCount % k_BufferedFrameNum)
          else 0
        let gopIndex := e1.m_GOPCount % k_GOPSize
        let isKeyFrame := gopIndex == 0
        let encodePicFlags :=
          if isKeyFrame then NV_ENC_PIC_FLAG_FORCEIDR ||| NV_ENC_PIC_FLAG_OUTPUT_SPSPPS else 0
        let e2 : NvEncoder :=
          { e1 with
            m_BufferedFrames := setAt e1.m_BufferedFrames frameIndex started
            m_GOPCount := (e1.m_GOPCount + 1) % 2 ^ 64
            calls := e1.calls ++
              [NvCall.nvEncEncodePicture started.inputFrame.mappedResource started.outputFrame
                encodePicFlags e1.m_FrameCount completionEvent] }
        if r.encodePicture != NV_ENC_SUCCESS then
          { e2 with m_BufferedFrames := setAt e2.m_BufferedFrames frameIndex { started with isEncoding := false } }
        else
          let e3 : NvEncoder :=
            if e2.m_NvEncInitializeParams.enableEncodeAsync == 1 then
              { e2 with
                m_BufferToRead := e2.m_BufferToRead ++
                  [{ index := frameIndex, timestamp := timeStamp, isKeyFrame := isKeyFrame }] }
            else
              let e4 := ProcessEncodedFrame e2 frameIndex timeStamp (gopIndex == 0) r.process
              { e4 with
                m_BufferedFrames := setAt e4.m_BufferedFrames frameIndex
                  { e4.m_BufferedFrames frameIndex with isEncoded := true } }
          { e3 with m_FrameCount := (e3.m_FrameCount + 1) % 2 ^ 64 }

def WAIT_FAILED : Nat := 0xFFFFFFFF

/-- Replies used by one iteration of the dispatcher loop. -/
structure DispatchReply where
  wait : Nat
  process : ProcessReply

/-- One iteration of the `while (encoder->m_IsAsync)` loop of
`ProcessEncodedFrameAsyncSingle`, taken as one step. -/
def ProcessEncodedFrameAsyncSingle (e : NvEncoder) (r : DispatchReply) : NvEncoder :=
  if !e.m_IsAsync then e
  else
    match e.m_BufferToRead with
    | [] => e
    | dataKey :: rest =>
      let e1 : NvEncoder :=
        { e with
          m_BufferToRead := rest
          calls := e.calls ++ [NvCall.WaitForSingleObject (e.m_vpCompletionEvent.getD dataKey.index 0)] }
      if r.wait == WAIT_FAILED then e1
      else
        let e2 := ProcessEncodedFrame e1 dataKey.index dataKey.timestamp dataKey.isKeyFrame r.process
        { e2 with
          m_BufferedFrames := setAt e2.m_BufferedFrames dataKey.index
            { e2.m_BufferedFrames dataKey.index with isEncoded := true } }

/-! ### Construction and initialisation -/

/-- The values of the members the constructor leaves uninitialised. -/
structure Uninitialized where
  initializeParams : NV_ENC_INITIALIZE_PARAMS
  inputFrames : Nat → InputFrame
  outputFrames : Nat → Nat

/-- The constructor `NvEncoder(deviceType, other, device, forceNv12)`. -/
def new (other : NvencEncoderSessionData) (forceNv12 : Bool) (u : Uninitialized) : NvEncoder :=
  { m_HModule := 0
    m_HEncoder := 0
    m_NvEncInitializeParams := u.initializeParams
    m_NvEncConfig :=
      { frameIntervalP := 0, gopLength := 0, idrPeriod := 0, disableSPSPPS := 0, repeatSPSPPS := 0,
        enableIntraRefresh := 0,
        rcParams :=
          { averageBitRate := 0, maxBitRate := 0, vbvBufferSize := 0, vbvInitialDelay := 0,
            enableAQ := 0 } }
    m_InitializationResult := ENvencStatus.NotInitialized
    m_IsIdrFrame := false
    m_FrameData := NvencEncoderSessionData.copy other
    m_FrameCount := 0
    m_GOPCount := 0
    m_ForceNV12 := forceNv12
    m_RenderTextures := fun _ => 0
    m_BufferedFrames := fun i =>
      { inputFrame := u.inputFrames i, outputFrame := u.outputFrames i, encodedFrame := [],
        isEncoding := false, isEncoded := false }
    m_FrameQueue := []
    m_FrameQueueFront := 0
    m_vpCompletionEvent := []
    m_BufferToRead := []
    m_Thread := 0
    m_IsAsync := false
    calls := [] }

/-- Replies used by `LoadCodec`; `currentVersion` is the constant
`(NVENCAPI_MAJOR_VERSION << 4) | NVENCAPI_MINOR_VERSION` of `nvEncodeAPI.h`. -/
structure LoadCodecReply where
  currentVersion : Nat
  module : Nat
  maxSupportedVersion : Nat
  createInstanceProc : Nat
  createInstanceStatus : Nat

/-- The static method `CheckDriverVersion(module)`. -/
def CheckDriverVersion (r : LoadCodecReply) : Bool :=
  if r.currentVersion > r.maxSupportedVersion then false else true

/-- The method `LoadCodec()`. -/
def LoadCodec (e : NvEncoder) (r : LoadCodecReply) : ENvencStatus × NvEncoder :=
  let e1 : NvEncoder := { e with calls := e.calls ++ [NvCall.LoadLibrary] }
  if r.module == 0 then (ENvencStatus.DriverNotInstalled, e1)
  else
    let e2 : NvEncoder :=
      { e1 with m_HModule := r.module, calls := e1.calls ++ [NvCall.NvEncodeAPIGetMaxSupportedVersion] }
    if !CheckDriverVersion r then (ENvencStatus.DriverVersionDoesNotSupportAPI, e2)
    else if r.createInstanceProc == 0 then (ENvencStatus.APINotFound, e2)
    else
      let e3 : NvEncoder := { e2 with calls := e2.calls ++ [NvCall.NvEncodeAPICreateInstance] }
      if r.createInstanceStatus != NV_ENC_SUCCESS then (ENvencStatus.APINotFound, e3)
      else (ENvencStatus.Success, e3)

/-- Replies used by `SetEncoderParameters`. -/
structure SetParametersReply where
  capsStatus : Nat
  asyncMode : Int
  multithreadingSecurity : Bool
  hardwareConcurrency : Nat
  thread : Nat
  presetStatus : Nat
  presetCfg : NV_ENC_CONFIG
  initializeStatus : Nat
  events : Nat → Nat
  resources : Nat → ResourceReply

/-- The method `SetEncoderParameters()`.  The quotient stored in
`vbvBufferSize` is computed in `uint32_t`; the C++ division has no defined
result when `frameRateNum` is zero, here it is `0`. -/
def SetEncoderParameters (e : NvEncoder) (r : SetParametersReply) : NvEncoder :=
  let p0 : NV_ENC_INITIALIZE_PARAMS :=
    { encodeWidth := toUInt32 e.m_FrameData.width
      encodeHeight := toUInt32 e.m_FrameData.height
      darWidth := toUInt32 e.m_FrameData.width
      darHeight := toUInt32 e.m_FrameData.height
      frameRateNum := toUInt32 e.m_FrameData.frameRate
      frameRateDen := 1
      enableEncodeAsync := 0
      enablePTD := 1
      maxEncodeWidth := 3840
      maxEncodeHeight := 2160 }
  let e1 : NvEncoder :=
    { e with m_NvEncInitializeParams := p0, calls := e.calls ++ [NvCall.nvEncGetEncodeCaps] }
  let e2 : NvEncoder :=
    if r.asyncMode == 1 then
      let isAsync := r.multithreadingSecurity && decide (r.hardwareConcurrency > 0)
      let e11 : NvEncoder :=
        { e1 with
          m_IsAsync := isAsync
          m_NvEncInitializeParams := { p0 with enableEncodeAsync := if isAsync then 1 else 0 }
          calls := e1.calls ++ [NvCall.InitializeMultithreadingSecurity] }
      if isAsync then { e11 with m_Thread := r.thread, calls := e11.calls ++ [NvCall.newThread] }
      else e11
    else e1
  let averageBitRate := toUInt32 e2.m_FrameData.bitRate
  let vbvBufferSize :=
    (averageBitRate * e2.m_NvEncInitializeParams.frameRateDen % 2 ^ 32) /
      e2.m_NvEncInitializeParams.frameRateNum
  let config : NV_ENC_CONFIG :=
    { r.presetCfg with
      frameIntervalP := 1
      gopLength := NVENC_INFINITE_GOPLENGTH
      idrPeriod := NVENC_INFINITE_GOPLENGTH
      disableSPSPPS := 1
      repeatSPSPPS := 1
      enableIntraRefresh := 1
      rcParams :=
        { r.presetCfg.rcParams with
          averageBitRate := averageBitRate
          maxBitRate := averageBitRate
          enableAQ := 1
          vbvBufferSize := vbvBufferSize
          vbvInitialDelay := vbvBufferSize } }
  let e3 : NvEncoder :=
    { e2 with
      m_NvEncConfig := config
      calls := e2.calls ++
        [ NvCall.nvEncGetEncodePresetConfig,
          NvCall.nvEncInitializeEncoder e2.m_NvEncInitializeParams.encodeWidth
            e2.m_NvEncInitializeParams.encodeHeight ] }
  if r.initializeStatus != NV_ENC_SUCCESS then e3
  else
    let e4 := if e3.m_IsAsync then InitializeAsyncResources e3 r.events else e3
    InitEncoderResources e4 r.resources

/-- Replies used by `InitEncoder`. -/
structure InitReply where
  loadCodec : LoadCodecReply
  device : Nat
  openSessionStatus : Nat
  hEncoder : Nat
  parameters : SetParametersReply

/-- The method `InitEncoder()`. -/
def InitEncoder (e : NvEncoder) (r : InitReply) : ENvencStatus × NvEncoder :=
  let e1 : NvEncoder :=
    if e.m_InitializationResult == ENvencStatus.NotInitialized then
      let loaded := LoadCodec e r.loadCodec
      { loaded.2 with m_InitializationResult := loaded.1 }
    else e
  if e1.m_InitializationResult != ENvencStatus.Success then (e1.m_InitializationResult, e1)
  else
    let e2 : NvEncoder := { e1 with calls := e1.calls ++ [NvCall.GetDevice] }
    if r.device == 0 then (ENvencStatus.NotInitialized, e2)
    else
      let e3 : NvEncoder :=
        { e2 with m_HEncoder := r.hEncoder, calls := e2.calls ++ [NvCall.nvEncOpenEncodeSessionEx] }
      if r.openSessionStatus != NV_ENC_SUCCESS then
        (ENvencStatus.EncoderInitializationFailed,
          { e3 with m_InitializationResult := ENvencStatus.EncoderInitializationFailed })
      else
        let e4 := SetEncoderParameters e3 r.parameters
        let e5 : NvEncoder :=
          { e4 with
            calls := e4.calls ++ [NvCall.InitializeConverter e4.m_FrameData.width e4.m_FrameData.height]
            m_InitializationResult := ENvencStatus.Success }
        (ENvencStatus.Success, e5)

end NvEncoder

/-! ## ObjectIDMap.h -/

/-- What a plugin entry point can do instead of returning: throw
`std::out_of_range` (from `std::unordered_map::at`), or dereference a pointer
to a queue element that is no longer in the queue. -/
inductive Fault where
  | out_of_range
  | invalid_pointer
deriving DecidableEq, Repr

/-- The class template `IDObjectMap<T>`: the `std::unordered_map<int, T*>` is a
finite partial function; `none` is the absence of an entry, `some none` an
entry holding `nullptr`. -/
structure IDObjectMap (α : Type) where
  map_ : Int → Option (Option α)

namespace IDObjectMap

/-- The method `Add(id, instance)`. -/
def Add {α : Type} (m : IDObjectMap α) (id : Int) (inst : Option α) : IDObjectMap α :=
  { map_ := fun k => if k = id then some inst else m.map_ k }

/-- The method `Remove(id)`. -/
def Remove {α : Type} (m : IDObjectMap α) (id : Int) : IDObjectMap α :=
  { map_ := fun k => if k = id then none else m.map_ k }

/-- The member `operator[](id)`, which is `map_.at(id)`. -/
def subscript {α : Type} (m : IDObjectMap α) (id : Int) : Except Fault (Option α) :=
  match m.map_ id with
  | some p => Except.ok p
  | none => Except.error Fault.out_of_range

/-- The method `GetInstance(id)`. -/
def GetInstance {α : Type} (m : IDObjectMap α) (id : Int) : Option α :=
  match m.map_ id with
  | some p => p
  | none => none

end IDObjectMap

/-! ## NvencPluginEvents.cpp -/

/-- An `EncodedFrame*` held by `s_EncodedFrameMap`: the address of an element of
the `m_FrameQueue` of the encoder registered under `owner`. -/
structure EncodedFramePtr where
  owner : Int
  address : Nat
deriving DecidableEq, Repr

/-- The static maps of the plugin.  An `NvEncoder*` held by `s_EncoderMap` is
represented by the object it points to. -/
structure PluginState where
  s_EncoderMap : IDObjectMap NvEncoder
  s_EncodedFrameMap : IDObjectMap EncodedFramePtr

/-- The frame a stored `EncodedFrame*` points to, if it still is in its queue. -/
def PluginState.deref (st : PluginState) (p : EncodedFramePtr) : Except Fault EncodedFrame :=
  match st.s_EncoderMap.GetInstance p.owner with
  | none => Except.error Fault.invalid_pointer
  | some encoder =>
    match encoder.frameAt p.address with
    | none => Except.error Fault.invalid_pointer
    | some frame => Except.ok frame

/-- The test `id && *id > 0` followed by `s_EncoderMap.GetInstance(*id)`. -/
def lookupEncoder (id : Option Int) (st : PluginState) : Option NvEncoder :=
  match id with
  | some i => if i > 0 then st.s_EncoderMap.GetInstance i else none
  | none => none

/-- The exported function `BeginConsume(id)`; `id` is `none` for a null pointer. -/
def BeginConsume (id : Option Int) (st : PluginState) : Bool × PluginState :=
  let encoder := lookupEncoder id st
  let currentFrame : Option EncodedFramePtr :=
    match id, encoder with
    | some i, some enc =>
      if enc.IsInitialized then (enc.GetEncodedFrame).map (fun a => { owner := i, address := a })
      else none
    | _, _ => none
  match id, currentFrame with
  | some i, some frame =>
    (true, { st with s_EncodedFrameMap := st.s_EncodedFrameMap.Add i (some frame) })
  | _, _ => (false, st)

/-- The exported function `EndConsume(id)`. -/
def EndConsume (id : Option Int) (st : PluginState) : Except Fault (Bool × PluginState) :=
  match id, lookupEncoder id st with
  | some i, some enc =>
    if enc.IsInitialized then
      match st.s_EncodedFrameMap.subscript i with
      | Except.error f => Except.error f
      | Except.ok none => Except.ok (false, st)
      | Except.ok (some _) =>
        let removed := enc.RemoveEncodedFrame
        Except.ok (removed.1,
          { s_EncodedFrameMap := st.s_EncodedFrameMap.Remove i
            s_EncoderMap := st.s_EncoderMap.Add i (some removed.2) })
    else Except.ok (false, st)
  | _, _ => Except.ok (false, st)

/-- The function `IsEncodedFrameValid(id)`. -/
def IsEncodedFrameValid (id : Option Int) (st : PluginState) : Except Fault (Option EncodedFramePtr) :=
  match id with
  | some i => if i > 0 then st.s_EncodedFrameMap.subscript i else Except.ok none
  | none => Except.ok none

/-- The common shape of the accessors: `IsEncodedFrameValid`, the value `zero`
for a null result, otherwise a member of the frame pointed to. -/
def readEncodedFrame {β : Type} (id : Option Int) (st : PluginState) (zero : β)
    (member : EncodedFrame → β) : Except Fault β :=
  match IsEncodedFrameValid id st with
  | Except.error f => Except.error f
  | Except.ok none => Except.ok zero
  | Except.ok (some p) =>
    match st.deref p with
    | Except.error f => Except.error f
    | Except.ok frame => Except.ok (member frame)

/-- The exported function `GetSps(id, spsOut)`: the returned size, and the bytes
copied to `spsOut` when it is not null. -/
def GetSps (id : Option Int) (spsOut : Bool) (st : PluginState) :
    Except Fault (Nat × Option DataSequence) :=
  readEncodedFrame id st (0, none)
    (fun f => (f.spsSequence.length % 2 ^ 32, if spsOut then some f.spsSequence else none))

/-- The exported function `GetPps(id, ppsOut)`. -/
def GetPps (id : Option Int) (ppsOut : Bool) (st : PluginState) :
    Except Fault (Nat × Option DataSequence) :=
  readEncodedFrame id st (0, none)
    (fun f => (f.ppsSequence.length % 2 ^ 32, if ppsOut then some f.ppsSequence else none))

/-- The exported function `GetEncodedData(id, dataOut)`. -/
def GetEncodedData (id : Option Int) (dataOut : Bool) (st : PluginState) :
    Except Fault (Nat × Option DataSequence) :=
  readEncodedFrame id st (0, none)
    (fun f => (f.imageData.length % 2 ^ 32, if dataOut then some f.imageData else none))

/-- The exported function `GetTimeStamp(id)`. -/
def GetTimeStamp (id : Option Int) (st : PluginState) : Except Fault Nat :=
  readEncodedFrame id st 0 (fun f => f.timestamp)

/-- The exported function `GetIsKeyFrame(id)`. -/
def GetIsKeyFrame (id : Option Int) (st : PluginState) : Except Fault Bool :=
  readEncodedFrame id st false (fun f => f.isKeyFrame)

/-! ## Call sequences -/

/-- A call of one of the three methods that change `m_FrameQueue`. -/
inductive QueueCall where
  | AddEncodedFrame (frame timestamp : Nat) (isKeyFrame : Bool) (seq : NvEncoder.SequenceParamsReply)
  | RemoveEncodedFrame
  | ClearEncodedFrameQueue

/-- The encoder after one queue call. -/
def QueueCall.run (e : NvEncoder) : QueueCall → NvEncoder
  | QueueCall.AddEncodedFrame frame timestamp isKeyFrame seq =>
    e.AddEncodedFrame frame timestamp isKeyFrame seq
  | QueueCall.RemoveEncodedFrame => e.RemoveEncodedFrame.2
  | QueueCall.ClearEncodedFrameQueue => e.ClearEncodedFrameQueue

/-- The encoder after a finite sequence of queue calls. -/
def runQueueCalls (e : NvEncoder) (calls : List QueueCall) : NvEncoder :=
  calls.foldl QueueCall.run e

/-! ## The encoding pipeline as a sequence of steps -/

/-- A step of a session: a call of `EncodeFrame` by the submission thread, or
one iteration of the loop of `ProcessEncodedFrameAsyncSingle` by the
dispatcher thread. -/
inductive PipelineStep where
  | EncodeFrame (frameSourceData timeStamp : Nat) (r : NvEncoder.EncodeReply)
  | ProcessEncodedFrameAsyncSingle (r : NvEncoder.DispatchReply)

/-- The encoder after one step. -/
def PipelineStep.run (e : NvEncoder) : PipelineStep → NvEncoder
  | PipelineStep.EncodeFrame frameSourceData timeStamp r => e.EncodeFrame frameSourceData timeStamp r
  | PipelineStep.ProcessEncodedFrameAsyncSingle r => e.ProcessEncodedFrameAsyncSingle r

/-- The encoder after a sequence of steps. -/
def runPipeline (e : NvEncoder) (steps : List PipelineStep) : NvEncoder :=
  steps.foldl PipelineStep.run e

/-- A call of `EncodeFrame` is accepted and succeeds: the source is not null,
`CopyBufferResources` returns true, the slot is not encoding and
`nvEncEncodePicture` returns `NV_ENC_SUCCESS`. -/
def NvEncoder.encodeAccepted (e : NvEncoder) (frameSourceData : Nat) (r : NvEncoder.EncodeReply) :
    Bool :=
  frameSourceData != 0 &&
    (e.CopyBufferResources (e.m_FrameCount % k_BufferedFrameNum) frameSourceData r.deviceCopy).1 &&
    !(e.m_BufferedFrames (e.m_FrameCount % k_BufferedFrameNum)).isEncoding &&
    r.encodePicture == NV_ENC_SUCCESS

/-- A step goes well: an `EncodeFrame` call is accepted and succeeds, a
dispatcher iteration does not see `WAIT_FAILED`. -/
def PipelineStep.ok (e : NvEncoder) : PipelineStep → Bool
  | PipelineStep.EncodeFrame frameSourceData _ r => e.encodeAccepted frameSourceData r
  | PipelineStep.ProcessEncodedFrameAsyncSingle r => r.wait != NvEncoder.WAIT_FAILED

/-- Every step of the sequence goes well in the state it is taken in. -/
def pipelineOk (e : NvEncoder) : List PipelineStep → Bool
  | [] => true
  | step :: rest => step.ok e && pipelineOk (step.run e) rest

/-- The timestamps passed to the `EncodeFrame` calls of a sequence, in order. -/
def submittedTimestamps : List PipelineStep → List Nat
  | [] => []
  | PipelineStep.EncodeFrame _ timeStamp _ :: rest => timeStamp :: submittedTimestamps rest
  | PipelineStep.ProcessEncodedFrameAsyncSingle _ :: rest => submittedTimestamps rest

/-- The timestamps of submissions `i`, `i + 1`, ..., each paired with the
keyframe flag of its submission index: true exactly when the index is a
multiple of `k_GOPSize`. -/
def keyFrameSchedule : Nat → List Nat → List (Nat × Bool)
  | _, [] => []
  | i, t :: ts => (t, i % k_GOPSize == 0) :: keyFrameSchedule (i + 1) ts

/-- Timestamp and keyframe flag of a queued frame. -/
def EncodedFrame.stamp (f : EncodedFrame) : Nat × Bool := (f.timestamp, f.isKeyFrame)

/-- Timestamp and keyframe flag of a pending key. -/
def EncodedFrameDataKey.stamp (k : EncodedFrameDataKey) : Nat × Bool := (k.timestamp, k.isKeyFrame)

/-- The state of a session after the accepted submissions with timestamps and
keyframe flags `submitted`: the GOP counter counts them, the asynchronous flag
of the encoder and of its parameters agree, the submissions split into those
already processed and those still pending in `m_BufferToRead`, the queue holds
the last `k_MaxQueueLength` processed ones, and every pending key designates a
slot of its own that is encoding. -/
structure PipelineInv (e : NvEncoder) (submitted : List (Nat × Bool)) : Prop where
  gop : e.m_GOPCount = submitted.length % 2 ^ 64
  asyncFlag : (e.m_NvEncInitializeParams.enableEncodeAsync == 1) = e.m_IsAsync
  split : ∃ processed : List (Nat × Bool),
    submitted = processed ++ e.m_BufferToRead.map EncodedFrameDataKey.stamp ∧
    e.m_FrameQueue.map EncodedFrame.stamp = processed.drop (processed.length - k_MaxQueueLength)
  pendingEncoding : ∀ k ∈ e.m_BufferToRead, (e.m_BufferedFrames k.index).isEncoding = true
  pendingDistinct : (e.m_BufferToRead.map EncodedFrameDataKey.index).Nodup
  syncEmpty : e.m_IsAsync = false → e.m_BufferToRead = []

/-- The consumer loop, at most `n` rounds: `BeginConsume`, and when it returns
true `GetTimeStamp` followed by `EndConsume`.  The result is the list of the
timestamps read and the plugin state reached; the loop ends at the first
`BeginConsume` that returns false. -/
def consumeTimestamps (id : Int) : Nat → PluginState → Except Fault (List Nat × PluginState)
  | 0, st => Except.ok ([], st)
  | n + 1, st =>
    match BeginConsume (some id) st with
    | (false, st1) => Except.ok ([], st1)
    | (true, st1) =>
      match GetTimeStamp (some id) st1 with
      | Except.error f => Except.error f
      | Except.ok t =>
        match EndConsume (some id) st1 with
        | Except.error f => Except.error f
        | Except.ok (_, st2) =>
          match consumeTimestamps id n st2 with
          | Except.error f => Except.error f
          | Except.ok (ts, st3) => Except.ok (t :: ts, st3)

/-! ## Concrete inputs -/

/-- The settings of the scenario of the specification: 1280x720, 30 frames per
second, 2000 kilobits per second, GOP size 2. -/
def sampleSettings : NvencEncoderSessionData :=
  { width := 1280, height := 720, frameRate := 30, bitRate := 2000, gopSize := 2 }

/-- All uninitialised members zero. -/
def zeroUninitialized : NvEncoder.Uninitialized :=
  { initializeParams :=
      { encodeWidth := 0, encodeHeight := 0, darWidth := 0, darHeight := 0, frameRateNum := 0,
        frameRateDen := 0, enableEncodeAsync := 0, enablePTD := 0, maxEncodeWidth := 0,
        maxEncodeHeight := 0 }
    inputFrames := fun _ => { registeredResource := 0, mappedResource := 0, bufferFormat := 0 }
    outputFrames := fun _ => 0 }

/-- A sequence-parameter payload `00 00 00 01 67 AA 00 00 00 01 68 BB`. -/
def sampleSequenceParams : NvEncoder.SequenceParamsReply :=
  { errorCode := 0
    spsppsData := fun i => [0, 0, 0, 1, 0x67, 0xAA, 0, 0, 0, 1, 0x68, 0xBB].getD i 0
    spsppsSize := 12 }

/-- A freshly constructed encoder. -/
def sampleEncoder : NvEncoder := NvEncoder.new sampleSettings false zeroUninitialized

/-- The call `AddEncodedFrame(m_BufferedFrames[0], t, false)`. -/
def sampleAdd (t : Nat) : QueueCall := QueueCall.AddEncodedFrame 0 t false sampleSequenceParams

/-- An encoder whose queue holds the eight frames with timestamps 1 to 8. -/
def fullEncoder : NvEncoder :=
  runQueueCalls sampleEncoder ((List.range 8).map (fun i => sampleAdd (i + 1)))

/-- Replies of a driver and a device on which every call succeeds; `asyncMode`
is the capability reported for `NV_ENC_CAPS_ASYNC_ENCODE_SUPPORT`. -/
def sampleInitReply (asyncMode : Int) : NvEncoder.InitReply :=
  { loadCodec :=
      { currentVersion := 0x91, module := 1, maxSupportedVersion := 0xC0, createInstanceProc := 1,
        createInstanceStatus := 0 }
    device := 1
    openSessionStatus := 0
    hEncoder := 7
    parameters :=
      { capsStatus := 0
        asyncMode := asyncMode
        multithreadingSecurity := true
        hardwareConcurrency := 8
        thread := 9
        presetStatus := 0
        presetCfg :=
          { frameIntervalP := 1, gopLength := 30, idrPeriod := 30, disableSPSPPS := 0,
            repeatSPSPPS := 0, enableIntraRefresh := 0,
            rcParams :=
              { averageBitRate := 0, maxBitRate := 0, vbvBufferSize := 0, vbvInitialDelay := 0,
                enableAQ := 0 } }
        initializeStatus := 0
        events := fun i => 50 + i
        resources := fun i =>
          { texture := 100 + i, textureToRegister := 200 + i, registerStatus := 0,
            registeredResource := 300 + i, mapStatus := 0, mappedResource := 400 + i,
            createStatus := 0, bitstreamBuffer := 500 + i } } }

/-- A freshly initialised session that encodes synchronously. -/
def syncSession : NvEncoder := (NvEncoder.InitEncoder sampleEncoder (sampleInitReply 0)).2

/-- A freshly initialised session that encodes asynchronously. -/
def asyncSession : NvEncoder := (NvEncoder.InitEncoder sampleEncoder (sampleInitReply 1)).2

/-- The plugin state in which `encoder` is registered under id 1 and no frame
is borrowed. -/
def pluginWith (encoder : NvEncoder) : PluginState :=
  { s_EncoderMap := { map_ := fun k => if k = 1 then some (some encoder) else none }
    s_EncodedFrameMap := { map_ := fun _ => none } }

/-- An initialised session whose queue holds two frames, with timestamps 1 and 2. -/
def twoFrameSession : NvEncoder := runQueueCalls syncSession [sampleAdd 1, sampleAdd 2]

/-- The frame pushed by `sampleAdd t` on a slot without image bytes. -/
def sampleFrame (t : Nat) : EncodedFrame :=
  { spsSequence := [0x67, 0xAA], ppsSequence := [0x68, 0xBB], imageData := [], timestamp := t,
    isKeyFrame := false }

/-- A session initialised at 1280x720, 30 frames per second and 1 kilobit per
second, so that it stores a bit rate of 1000 bits per second. -/
def lowBitRateSession : NvEncoder :=
  (NvEncoder.InitEncoder (NvEncoder.new { sampleSettings with bitRate := 1 } false zeroUninitialized)
    (sampleInitReply 0)).2

/-- Replies of a driver that locks, reports the three bytes `b`, `b + 1`,
`b + 2`, unlocks and returns the sample sequence parameters. -/
def sampleProcessReply (b : Nat) : NvEncoder.ProcessReply :=
  { lockStatus := 0, bitstreamSizeInBytes := 3, bitstreamBufferPtr := fun i => b + i,
    unlockStatus := 0, sequenceParams := sampleSequenceParams }

/-- An `EncodeFrame` call with a source texture and timestamp `t`, on a device
and a driver that succeed. -/
def sampleEncode (t : Nat) : PipelineStep :=
  PipelineStep.EncodeFrame 77 t { deviceCopy := true, encodePicture := 0, process := sampleProcessReply t }

/-- A dispatcher iteration whose wait is signalled. -/
def sampleDispatch : PipelineStep :=
  PipelineStep.ProcessEncodedFrameAsyncSingle { wait := 0, process := sampleProcessReply 0 }

/-- Five submissions, 33 time units apart. -/
def fiveFrames : List PipelineStep := (List.range 5).map (fun i => sampleEncode (33 * i))

/-- Five submissions interleaved with the dispatcher iterations that process them. -/
def fiveFramesAsync : List PipelineStep :=
  [sampleEncode 0, sampleEncode 33, sampleDispatch, sampleEncode 66, sampleDispatch, sampleDispatch,
    sampleEncode 99, sampleEncode 132, sampleDispatch, sampleDispatch]

/-- A sequence-parameter payload of 12 bytes `00 00 00 01 67 AA ...` without a
second start code. -/
def sampleSequenceParamsNoStartCode : NvEncoder.SequenceParamsReply :=
  { errorCode := 0
    spsppsData := fun i => [0, 0, 0, 1, 0x67, 0xAA, 0xBB, 0xCC, 0xDD, 0xEE, 0xFF, 0x11].getD i 0
    spsppsSize := 12 }

/-- An asynchronous session with four submissions in flight: the frame counter
is 4 and slot 0 is still encoding. -/
def ringFullSession : NvEncoder :=
  runPipeline asyncSession [sampleEncode 0, sampleEncode 33, sampleEncode 66, sampleEncode 99]

/-- Replies of a driver whose `nvEncLockBitstream` fails and reports no bytes. -/
def lockFailedReply : NvEncoder.ProcessReply :=
  { lockStatus := 8, bitstreamSizeInBytes := 0, bitstreamBufferPtr := fun _ => 0, unlockStatus := 0,
    sequenceParams := sampleSequenceParams }

/-- The calls that allocate the frame resource ring in `InitEncoderResources`. -/
def NvCall.isRingAllocation : NvCall → Bool
  | NvCall.CreateDefaultTexture _ _ _ => true
  | NvCall.nvEncRegisterResource _ => true
  | NvCall.nvEncMapInputResource _ => true
  | NvCall.nvEncCreateBitstreamBuffer => true
  | _ => false

/-- The status `LoadCodec` returns for the replies `r`: `Success` exactly when
the module loads, the driver version is supported, `NvEncodeAPICreateInstance`
is found and it succeeds. -/
def NvEncoder.LoadCodecReply.loads (r : NvEncoder.LoadCodecReply) : Bool :=
  r.module != 0 && NvEncoder.CheckDriverVersion r && r.createInstanceProc != 0 &&
    r.createInstanceStatus == NV_ENC_SUCCESS

/-- Replies of a driver whose `nvEncInitializeEncoder` fails and of a device
that is present; everything before succeeds. -/
def initializeFailedReply : NvEncoder.InitReply :=
  { sampleInitReply 0 with
    parameters := { (sampleInitReply 0).parameters with initializeStatus := 8 } }

/-- Replies of a driver that loads and of a device whose `GetDevice()` is null. -/
def nullDeviceReply : NvEncoder.InitReply := { sampleInitReply 0 with device := 0 }

/-- Settings with a width above `k_MaxWidth`. -/
def oversizeSettings : NvencEncoderSessionData :=
  { width := 4000, height := 720, frameRate := 30, bitRate := 2000, gopSize := 2 }

/-- Settings of the same stream at 1920x1080. -/
def resizedSettings : NvencEncoderSessionData := { sampleSettings with width := 1920, height := 1080 }

/-- The synchronous session after one accepted frame: the frame counter and the
GOP counter are 1. -/
def oneFrameSession : NvEncoder := (sampleEncode 0).run syncSession

/-- The session `oneFrameSession` after `UpdateEncoderSessionData` has resized
it to 1920x1080; the resources are allocated with the replies of the sample
driver. -/
def resizedSession : NvEncoder :=
  (oneFrameSession.UpdateEncoderSessionData resizedSettings (sampleInitReply 0).parameters.resources).2

/-! ### The dispatcher iteration in two parts -/

/-- The part of one iteration of the loop of `ProcessEncodedFrameAsyncSingle`
that ends with the call of `ProcessEncodedFrame`: the `dataKey` the iteration
holds afterwards (`none` when the loop condition fails or the iteration ends
with `continue`), and the encoder. -/
def NvEncoder.dispatchProcess (e : NvEncoder) (r : NvEncoder.DispatchReply) :
    Option EncodedFrameDataKey × NvEncoder :=
  if !e.m_IsAsync then (none, e)
  else
    match e.m_BufferToRead with
    | [] => (none, e)
    | dataKey :: rest =>
      let e1 : NvEncoder :=
        { e with
          m_BufferToRead := rest
          calls := e.calls ++ [NvCall.WaitForSingleObject (e.m_vpCompletionEvent.getD dataKey.index 0)] }
      if r.wait == NvEncoder.WAIT_FAILED then (none, e1)
      else
        (some dataKey,
          NvEncoder.ProcessEncodedFrame e1 dataKey.index dataKey.timestamp dataKey.isKeyFrame r.process)

/-- The store `frame.isEncoded = true` that ends the iteration, for the frame
`m_BufferedFrames[dataKey.index]`. -/
def NvEncoder.dispatchStore (e : NvEncoder) (dataKey : EncodedFrameDataKey) : NvEncoder :=
  { e with
    m_BufferedFrames := setAt e.m_BufferedFrames dataKey.index
      { e.m_BufferedFrames dataKey.index with isEncoded := true } }

/-- A session together with the local variable `dataKey` of the dispatcher
thread, when that thread stands between its call of `ProcessEncodedFrame` and
the store `frame.isEncoded = true`. -/
structure ThreadedSession where
  encoder : NvEncoder
  held : Option EncodedFrameDataKey

/-- A step of one of the two threads: a call of `EncodeFrame` by the submission
thread; or, by the dispatcher thread, the part of an iteration up to the end of
`ProcessEncodedFrame`, or the store `isEncoded = true` that follows it. -/
inductive ThreadStep where
  | EncodeFrame (frameSourceData timeStamp : Nat) (r : NvEncoder.EncodeReply)
  | ProcessEncodedFrame (r : NvEncoder.DispatchReply)
  | storeIsEncoded

/-- The session after one step.  The dispatcher thread takes its two steps in
turn: a step that is not its next one leaves the session as it is. -/
def ThreadStep.run (s : ThreadedSession) : ThreadStep → ThreadedSession
  | ThreadStep.EncodeFrame frameSourceData timeStamp r =>
    { s with encoder := s.encoder.EncodeFrame frameSourceData timeStamp r }
  | ThreadStep.ProcessEncodedFrame r =>
    match s.held with
    | some _ => s
    | none => { encoder := (s.encoder.dispatchProcess r).2, held := (s.encoder.dispatchProcess r).1 }
  | ThreadStep.storeIsEncoded =>
    match s.held with
    | some dataKey => { encoder := s.encoder.dispatchStore dataKey, held := none }
    | none => s

/-- The session after a sequence of steps of the two threads. -/
def runThreads (s : ThreadedSession) (steps : List ThreadStep) : ThreadedSession :=
  steps.foldl ThreadStep.run s

/-! ### The reads of the start-code search -/

/-- The indices of `spsppsData` read by one evaluation of the condition of the
`while` loop of `GetSequenceParams`, in order; `||` evaluates its right operand
only when the left one is false. -/
def NvEncoder.conditionReads (spsppsData : Nat → Nat) (i_sps : Nat) : List Nat :=
  if spsppsData i_sps != 0x00 then [i_sps]
  else if spsppsData (i_sps + 1) != 0x00 then [i_sps, i_sps + 1]
  else if spsppsData (i_sps + 2) != 0x00 then [i_sps, i_sps + 1, i_sps + 2]
  else [i_sps, i_sps + 1, i_sps + 2, i_sps + 3]

/-- The indices of `spsppsData` read by the `while` loop of `GetSequenceParams`
started with `i_sps`, in order; the loop is the one of `findStartCode`. -/
def NvEncoder.startCodeReads (spsppsData : Nat → Nat) (spsppsSize : Nat) : Nat → Nat → List Nat
  | 0, _ => []
  | n + 1, i_sps =>
    NvEncoder.conditionReads spsppsData i_sps ++
      (if spsppsData i_sps != 0x00
          || spsppsData (i_sps + 1) != 0x00
          || spsppsData (i_sps + 2) != 0x00
          || spsppsData (i_sps + 3) != 0x01 then
        if i_sps + 1 >= spsppsSize then []
        else NvEncoder.startCodeReads spsppsData spsppsSize n (i_sps + 1)
      else [])

/-- The size of the local array `spsppsData` of `GetSequenceParams`. -/
def NvEncoder.k_SpsPpsDataSize : Nat := 1024

/-- The memory seen through `spsppsData` after `memset` and a driver that
writes the bytes of `payload` at the start of the array: zero in the rest of
the array, and `beyond` past its end. -/
def NvEncoder.spsppsBuffer (payload : List Nat) (beyond : Nat → Nat) : Nat → Nat :=
  fun i => if i < NvEncoder.k_SpsPpsDataSize then payload.getD i 0 else beyond i

/-! ### A push while a frame is borrowed -/

/-- A call of `AddEncodedFrame` on the encoder registered under `id`, made by
`EncodeFrame` or by the dispatcher thread; the plugin maps hold pointers, so
they see the encoder as it is afterwards. -/
def PluginState.AddEncodedFrame (st : PluginState) (id : Int) (frame timestamp : Nat)
    (isKeyFrame : Bool) (seq : NvEncoder.SequenceParamsReply) : PluginState :=
  match st.s_EncoderMap.GetInstance id with
  | some encoder =>
    { st with
      s_EncoderMap := st.s_EncoderMap.Add id (some (encoder.AddEncodedFrame frame timestamp isKeyFrame seq)) }
  | none => st


/-- An initialised session whose queue is full: it holds the eight frames with
timestamps 1 to 8. -/
def fullSession : NvEncoder :=
  runQueueCalls syncSession ((List.range 8).map (fun i => sampleAdd (i + 1)))

/-- The plugin state after a successful `BeginConsume` on the full session
registered under id 1. -/
def borrowedFullSession : PluginState := (BeginConsume (some 1) (pluginWith fullSession)).2


/-- A payload of 1024 bytes: 1023 bytes `FF` followed by one byte `00`. -/
def zeroEndedPayload : List Nat := List.replicate 1023 0xFF ++ [0x00]


/-! # Properties -/

/-! ## Output queue -/

theorem AddEncodedFrame_queue (e : NvEncoder) (frame timestamp : Nat) (isKeyFrame : Bool)
    (seq : NvEncoder.SequenceParamsReply) :
    (e.AddEncodedFrame frame timestamp isKeyFrame seq).m_FrameQueue =
      (if e.m_FrameQueue.length < k_MaxQueueLength then e.m_FrameQueue else e.m_FrameQueue.tail) ++
        [e.encodedFrameOf frame timestamp isKeyFrame seq] := by
  unfold NvEncoder.AddEncodedFrame
  by_cases h : e.m_FrameQueue.length < k_MaxQueueLength <;> simp [h]

theorem QueueCall_run_length_le (e : NvEncoder) (c : QueueCall)
    (h : e.m_FrameQueue.length ≤ k_MaxQueueLength) :
    (c.run e).m_FrameQueue.length ≤ k_MaxQueueLength := by
  cases c with
  | AddEncodedFrame frame timestamp isKeyFrame seq =>
    simp only [QueueCall.run, AddEncodedFrame_queue]
    by_cases hlt : e.m_FrameQueue.length < k_MaxQueueLength
    · simp only [hlt, if_true, List.length_append, List.length_singleton]
      omega
    · simp only [hlt, if_false, List.length_append, List.length_singleton, List.length_tail]
      have : 0 < k_MaxQueueLength := by decide
      omega
  | RemoveEncodedFrame =>
    simp only [QueueCall.run, NvEncoder.RemoveEncodedFrame]
    by_cases hpos : e.m_FrameQueue.length > 0
    · simp only [hpos, if_true, List.length_tail]
      omega
    · simpa [hpos] using h
  | ClearEncodedFrameQueue =>
    simp [QueueCall.run, NvEncoder.ClearEncodedFrameQueue]

theorem runQueueCalls_length_le (calls : List QueueCall) :
    ∀ e : NvEncoder, e.m_FrameQueue.length ≤ k_MaxQueueLength →
      (runQueueCalls e calls).m_FrameQueue.length ≤ k_MaxQueueLength := by
  induction calls with
  | nil => intro e h; simpa [runQueueCalls] using h
  | cons c cs ih =>
    intro e h
    have := ih (c.run e) (QueueCall_run_length_le e c h)
    simpa [runQueueCalls] using this

/-- C1. Starting from an empty `m_FrameQueue`, after every finite sequence of
`AddEncodedFrame`, `RemoveEncodedFrame` and `ClearEncodedFrameQueue` calls the
queue holds at most `k_MaxQueueLength = 8` frames. -/
theorem C1_queue_capacity_invariant (e : NvEncoder) (calls : List QueueCall)
    (hempty : e.m_FrameQueue = []) :
    (runQueueCalls e calls).m_FrameQueue.length ≤ k_MaxQueueLength ∧ k_MaxQueueLength = 8 := by
  refine ⟨runQueueCalls_length_le calls e ?_, rfl⟩
  simp [hempty]

/-- C2. `AddEncodedFrame` on a queue `f1 .. f8` leaves `f2 .. f8` followed by
the new frame; on a queue with fewer than 8 frames it appends the new frame
and evicts nothing. -/
theorem C2_drop_oldest_overflow (e : NvEncoder) (frame timestamp : Nat) (isKeyFrame : Bool)
    (seq : NvEncoder.SequenceParamsReply) :
    (∀ f1 rest, e.m_FrameQueue = f1 :: rest → rest.length = 7 →
      (e.AddEncodedFrame frame timestamp isKeyFrame seq).m_FrameQueue =
        rest ++ [e.encodedFrameOf frame timestamp isKeyFrame seq]) ∧
    (e.m_FrameQueue.length < 8 →
      (e.AddEncodedFrame frame timestamp isKeyFrame seq).m_FrameQueue =
        e.m_FrameQueue ++ [e.encodedFrameOf frame timestamp isKeyFrame seq]) := by
  constructor
  · intro f1 rest hq hlen
    rw [AddEncodedFrame_queue, hq]
    simp [hlen, k_MaxQueueLength]
  · intro hlt
    rw [AddEncodedFrame_queue]
    simp [hlt, k_MaxQueueLength]

theorem C1_queue_capacity_invariant_witness :
    sampleEncoder.m_FrameQueue = [] ∧
      (runQueueCalls sampleEncoder
          ((List.range 10).map sampleAdd ++ [QueueCall.RemoveEncodedFrame, sampleAdd 11,
            QueueCall.ClearEncodedFrameQueue, sampleAdd 12])).m_FrameQueue.length ≤
        k_MaxQueueLength ∧ k_MaxQueueLength = 8 :=
  ⟨rfl, C1_queue_capacity_invariant sampleEncoder _ rfl⟩

theorem C2_drop_oldest_overflow_witness :
    (fullEncoder.m_FrameQueue.map (fun f => f.timestamp) = [1, 2, 3, 4, 5, 6, 7, 8] ∧
      (fullEncoder.AddEncodedFrame 0 9 true sampleSequenceParams).m_FrameQueue =
        fullEncoder.m_FrameQueue.tail ++
          [fullEncoder.encodedFrameOf 0 9 true sampleSequenceParams]) ∧
    (sampleEncoder.m_FrameQueue.length < 8 ∧
      (sampleEncoder.AddEncodedFrame 0 9 true sampleSequenceParams).m_FrameQueue =
        sampleEncoder.m_FrameQueue ++
          [sampleEncoder.encodedFrameOf 0 9 true sampleSequenceParams]) :=
  ⟨⟨by decide,
      (C2_drop_oldest_overflow fullEncoder 0 9 true sampleSequenceParams).1
        (fullEncoder.m_FrameQueue.head (by decide)) fullEncoder.m_FrameQueue.tail (by decide)
        (by decide)⟩,
    ⟨by decide,
      (C2_drop_oldest_overflow sampleEncoder 0 9 true sampleSequenceParams).2 (by decide)⟩⟩

/-! ## Consumer protocol -/

theorem frameAt_front (e : NvEncoder) (f : EncodedFrame) (rest : List EncodedFrame)
    (hq : e.m_FrameQueue = f :: rest) : e.frameAt e.m_FrameQueueFront = some f := by
  simp [NvEncoder.frameAt, hq]

theorem BeginConsume_front (st : PluginState) (id : Int) (enc : NvEncoder) (f : EncodedFrame)
    (rest : List EncodedFrame) (hid : id > 0)
    (henc : st.s_EncoderMap.GetInstance id = some enc) (hinit : enc.IsInitialized = true)
    (hq : enc.m_FrameQueue = f :: rest) :
    BeginConsume (some id) st =
      (true, { st with
        s_EncodedFrameMap :=
          st.s_EncodedFrameMap.Add id (some { owner := id, address := enc.m_FrameQueueFront }) }) := by
  simp [BeginConsume, lookupEncoder, hid, henc, hinit, NvEncoder.GetEncodedFrame, hq]

theorem readEncodedFrame_borrowed {β : Type} (st : PluginState) (id : Int) (enc : NvEncoder)
    (f : EncodedFrame) (rest : List EncodedFrame) (zero : β) (member : EncodedFrame → β)
    (hid : id > 0) (henc : st.s_EncoderMap.GetInstance id = some enc)
    (hq : enc.m_FrameQueue = f :: rest)
    (hmap : st.s_EncodedFrameMap.map_ id = some (some { owner := id, address := enc.m_FrameQueueFront })) :
    readEncodedFrame (some id) st zero member = Except.ok (member f) := by
  simp [readEncodedFrame, IsEncodedFrameValid, hid, IDObjectMap.subscript, hmap, PluginState.deref,
    henc, frameAt_front enc f rest hq]

/-- C3. For an initialised session registered under `id > 0` whose queue is
`f :: rest`: `BeginConsume` returns true; the five accessors then report the
timestamp, the keyframe flag and the sizes and bytes of the SPS, the PPS and
the image data of `f` (a size is returned as a `uint32_t`, so it is exact below
`2 ^ 32`); `EndConsume` then returns true, leaves `rest` as the queue of the
session and leaves no borrowed entry for `id`. -/
theorem C3_two_phase_consume (st : PluginState) (id : Int) (enc : NvEncoder) (f : EncodedFrame)
    (rest : List EncodedFrame) (hid : id > 0)
    (henc : st.s_EncoderMap.GetInstance id = some enc) (hinit : enc.IsInitialized = true)
    (hq : enc.m_FrameQueue = f :: rest)
    (hsps : f.spsSequence.length < 2 ^ 32) (hpps : f.ppsSequence.length < 2 ^ 32)
    (himg : f.imageData.length < 2 ^ 32) :
    ∃ st1 st2 enc2,
      BeginConsume (some id) st = (true, st1) ∧
      GetTimeStamp (some id) st1 = Except.ok f.timestamp ∧
      GetIsKeyFrame (some id) st1 = Except.ok f.isKeyFrame ∧
      GetSps (some id) true st1 = Except.ok (f.spsSequence.length, some f.spsSequence) ∧
      GetPps (some id) true st1 = Except.ok (f.ppsSequence.length, some f.ppsSequence) ∧
      GetEncodedData (some id) true st1 = Except.ok (f.imageData.length, some f.imageData) ∧
      GetSps (some id) false st1 = Except.ok (f.spsSequence.length, none) ∧
      GetPps (some id) false st1 = Except.ok (f.ppsSequence.length, none) ∧
      GetEncodedData (some id) false st1 = Except.ok (f.imageData.length, none) ∧
      EndConsume (some id) st1 = Except.ok (true, st2) ∧
      st2.s_EncoderMap.GetInstance id = some enc2 ∧
      enc2.m_FrameQueue = rest ∧
      st2.s_EncodedFrameMap.map_ id = none := by
  have hb := BeginConsume_front st id enc f rest hid henc hinit hq
  have hmap : (st.s_EncodedFrameMap.Add id
      (some { owner := id, address := enc.m_FrameQueueFront })).map_ id =
      some (some { owner := id, address := enc.m_FrameQueueFront }) := by
    simp [IDObjectMap.Add]
  have hr : ∀ {β : Type} (zero : β) (member : EncodedFrame → β),
      readEncodedFrame (some id)
        { s_EncoderMap := st.s_EncoderMap
          s_EncodedFrameMap :=
            st.s_EncodedFrameMap.Add id (some { owner := id, address := enc.m_FrameQueueFront }) }
        zero member = Except.ok (member f) :=
    fun zero member => readEncodedFrame_borrowed _ id enc f rest zero member hid henc hq hmap
  refine ⟨_,
    { s_EncodedFrameMap :=
        (st.s_EncodedFrameMap.Add id
          (some { owner := id, address := enc.m_FrameQueueFront })).Remove id
      s_EncoderMap := st.s_EncoderMap.Add id (some enc.RemoveEncodedFrame.2) },
    enc.RemoveEncodedFrame.2, hb, ?_, ?_, ?_, ?_, ?_, ?_, ?_, ?_, ?_, ?_, ?_, ?_⟩
  · exact hr _ _
  · exact hr _ _
  · simp only [GetSps, hr, Nat.mod_eq_of_lt hsps]
    simp
  · simp only [GetPps, hr, Nat.mod_eq_of_lt hpps]
    simp
  · simp only [GetEncodedData, hr, Nat.mod_eq_of_lt himg]
    simp
  · simp only [GetSps, hr, Nat.mod_eq_of_lt hsps]
    simp
  · simp only [GetPps, hr, Nat.mod_eq_of_lt hpps]
    simp
  · simp only [GetEncodedData, hr, Nat.mod_eq_of_lt himg]
    simp
  · simp [EndConsume, lookupEncoder, hid, henc, hinit, IDObjectMap.subscript, hmap,
      NvEncoder.RemoveEncodedFrame, hq]
  · simp [IDObjectMap.GetInstance, IDObjectMap.Add]
  · simp [NvEncoder.RemoveEncodedFrame, hq]
  · simp [IDObjectMap.Remove]

theorem C3_two_phase_consume_witness :
    ((1 : Int) > 0 ∧ twoFrameSession.IsInitialized = true ∧
      twoFrameSession.m_FrameQueue = sampleFrame 1 :: [sampleFrame 2]) ∧
    ∃ st1 st2 enc2,
      BeginConsume (some 1) (pluginWith twoFrameSession) = (true, st1) ∧
      GetTimeStamp (some 1) st1 = Except.ok (sampleFrame 1).timestamp ∧
      GetIsKeyFrame (some 1) st1 = Except.ok (sampleFrame 1).isKeyFrame ∧
      GetSps (some 1) true st1 =
        Except.ok ((sampleFrame 1).spsSequence.length, some (sampleFrame 1).spsSequence) ∧
      GetPps (some 1) true st1 =
        Except.ok ((sampleFrame 1).ppsSequence.length, some (sampleFrame 1).ppsSequence) ∧
      GetEncodedData (some 1) true st1 =
        Except.ok ((sampleFrame 1).imageData.length, some (sampleFrame 1).imageData) ∧
      GetSps (some 1) false st1 = Except.ok ((sampleFrame 1).spsSequence.length, none) ∧
      GetPps (some 1) false st1 = Except.ok ((sampleFrame 1).ppsSequence.length, none) ∧
      GetEncodedData (some 1) false st1 = Except.ok ((sampleFrame 1).imageData.length, none) ∧
      EndConsume (some 1) st1 = Except.ok (true, st2) ∧
      st2.s_EncoderMap.GetInstance 1 = some enc2 ∧
      enc2.m_FrameQueue = [sampleFrame 2] ∧
      st2.s_EncodedFrameMap.map_ 1 = none :=
  ⟨⟨by decide, by decide, by decide⟩,
    C3_two_phase_consume (pluginWith twoFrameSession) 1 twoFrameSession (sampleFrame 1)
      [sampleFrame 2] (by decide) rfl (by decide) (by decide) (by decide) (by decide) (by decide)⟩

/-- C8. When `id` is null, non-positive or unknown, or the session is not
initialised, or its queue is empty, `BeginConsume` returns false and returns
the plugin state (queue and borrowed-frame map) unchanged. -/
theorem C8_begin_consume_empty (st : PluginState) (id : Option Int)
    (h : id = none ∨ ∃ i, id = some i ∧
      (i ≤ 0 ∨ st.s_EncoderMap.GetInstance i = none ∨
        ∃ enc, st.s_EncoderMap.GetInstance i = some enc ∧
          (enc.IsInitialized = false ∨ enc.m_FrameQueue = []))) :
    BeginConsume id st = (false, st) := by
  rcases h with rfl | ⟨i, rfl, h⟩
  · simp [BeginConsume, lookupEncoder]
  · rcases h with h | h | ⟨enc, henc, h | h⟩
    · have : ¬ i > 0 := by omega
      simp [BeginConsume, lookupEncoder, this]
    · by_cases hi : i > 0 <;> simp [BeginConsume, lookupEncoder, hi, h]
    · by_cases hi : i > 0 <;> simp [BeginConsume, lookupEncoder, hi, henc, h]
    · by_cases hi : i > 0 <;>
        simp [BeginConsume, lookupEncoder, hi, henc, NvEncoder.GetEncodedFrame, h]

theorem C8_begin_consume_empty_witness :
    (syncSession.m_FrameQueue = [] ∧
      BeginConsume (some 1) (pluginWith syncSession) = (false, pluginWith syncSession)) ∧
    BeginConsume (some 0) (pluginWith twoFrameSession) = (false, pluginWith twoFrameSession) ∧
    BeginConsume (some 2) (pluginWith twoFrameSession) = (false, pluginWith twoFrameSession) ∧
    BeginConsume (some 1) (pluginWith sampleEncoder) = (false, pluginWith sampleEncoder) :=
  ⟨⟨by decide,
      C8_begin_consume_empty (pluginWith syncSession) (some 1)
        (Or.inr ⟨1, rfl, Or.inr (Or.inr ⟨syncSession, rfl, Or.inr (by decide)⟩)⟩)⟩,
    C8_begin_consume_empty (pluginWith twoFrameSession) (some 0)
      (Or.inr ⟨0, rfl, Or.inl (by decide)⟩),
    C8_begin_consume_empty (pluginWith twoFrameSession) (some 2)
      (Or.inr ⟨2, rfl, Or.inr (Or.inl rfl)⟩),
    C8_begin_consume_empty (pluginWith sampleEncoder) (some 1)
      (Or.inr ⟨1, rfl, Or.inr (Or.inr ⟨sampleEncoder, rfl, Or.inl (by decide)⟩)⟩)⟩

/-- C6. For an initialised session registered under `id > 0` with no entry for
`id` in the borrowed-frame map, `EndConsume` does not return false: the
subscript of `s_EncodedFrameMap` throws `std::out_of_range`. -/
theorem C6_end_consume_without_begin_throws (st : PluginState) (id : Int) (enc : NvEncoder)
    (hid : id > 0) (henc : st.s_EncoderMap.GetInstance id = some enc)
    (hinit : enc.IsInitialized = true) (hmap : st.s_EncodedFrameMap.map_ id = none) :
    EndConsume (some id) st = Except.error Fault.out_of_range := by
  simp [EndConsume, lookupEncoder, hid, henc, hinit, IDObjectMap.subscript, hmap]

theorem C6_end_consume_without_begin_throws_witness :
    ((1 : Int) > 0 ∧ twoFrameSession.IsInitialized = true ∧
      (pluginWith twoFrameSession).s_EncodedFrameMap.map_ 1 = none) ∧
    EndConsume (some 1) (pluginWith twoFrameSession) = Except.error Fault.out_of_range :=
  ⟨⟨by decide, by decide, rfl⟩,
    C6_end_consume_without_begin_throws (pluginWith twoFrameSession) 1 twoFrameSession (by decide)
      rfl (by decide) rfl⟩

/-- C7. For a positive `id` with no entry in the borrowed-frame map, each of
`GetSps`, `GetPps`, `GetEncodedData`, `GetTimeStamp` and `GetIsKeyFrame` throws
`std::out_of_range` instead of returning 0 or false. -/
theorem C7_accessors_throw_without_borrowed_frame (st : PluginState) (id : Int) (out : Bool)
    (hid : id > 0) (hmap : st.s_EncodedFrameMap.map_ id = none) :
    GetSps (some id) out st = Except.error Fault.out_of_range ∧
    GetPps (some id) out st = Except.error Fault.out_of_range ∧
    GetEncodedData (some id) out st = Except.error Fault.out_of_range ∧
    GetTimeStamp (some id) st = Except.error Fault.out_of_range ∧
    GetIsKeyFrame (some id) st = Except.error Fault.out_of_range := by
  simp [GetSps, GetPps, GetEncodedData, GetTimeStamp, GetIsKeyFrame, readEncodedFrame,
    IsEncodedFrameValid, hid, IDObjectMap.subscript, hmap]

theorem C7_accessors_throw_without_borrowed_frame_witness :
    ((1 : Int) > 0 ∧ (pluginWith twoFrameSession).s_EncodedFrameMap.map_ 1 = none) ∧
    GetSps (some 1) true (pluginWith twoFrameSession) = Except.error Fault.out_of_range ∧
    GetPps (some 1) true (pluginWith twoFrameSession) = Except.error Fault.out_of_range ∧
    GetEncodedData (some 1) true (pluginWith twoFrameSession) = Except.error Fault.out_of_range ∧
    GetTimeStamp (some 1) (pluginWith twoFrameSession) = Except.error Fault.out_of_range ∧
    GetIsKeyFrame (some 1) (pluginWith twoFrameSession) = Except.error Fault.out_of_range :=
  ⟨⟨by decide, rfl⟩,
    C7_accessors_throw_without_borrowed_frame (pluginWith twoFrameSession) 1 true (by decide) rfl⟩

/-! ## Session parameters -/

/-- C9. An encoder constructed from settings `s` with a bit rate between 1 and
2147483 kilobits per second and then given `UpdateEncoderSessionData(s)`
reports a change: the comparison `other == m_FrameData` scales the stored
bit rate, which is already in bits per second, by 1000 once more. -/
theorem C9_unchanged_settings_report_change (s : NvencEncoderSessionData) (forceNv12 : Bool)
    (u : NvEncoder.Uninitialized) (r : Nat → NvEncoder.ResourceReply)
    (hpos : 0 < s.bitRate) (hmax : s.bitRate ≤ 2147483) :
    ((NvEncoder.new s forceNv12 u).UpdateEncoderSessionData s r).1 = true := by
  obtain ⟨n, hn⟩ := Int.eq_ofNat_of_zero_le (le_of_lt hpos)
  have hn0 : 0 < n := by omega
  have hn1 : n ≤ 2147483 := by omega
  have h1 : toUInt64 s.bitRate = n := by
    rw [hn]
    unfold toUInt64
    have : ((n : Int) % (2 ^ 64 : Int)) = (n : Int) := by
      apply Int.emod_eq_of_lt <;> omega
    rw [this]
    simp
  have h2 : NvencEncoderSessionData.scaledBitRate s = n * 1000 := by
    unfold NvencEncoderSessionData.scaledBitRate
    rw [h1, BitRateInKilobits]
    apply Nat.mod_eq_of_lt
    omega
  have h3 : toInt32 (n * 1000) = ((n * 1000 : Nat) : Int) := by
    unfold toInt32
    have hm : n * 1000 % 2 ^ 32 = n * 1000 := by
      apply Nat.mod_eq_of_lt
      omega
    rw [hm]
    have : n * 1000 < 2 ^ 31 := by omega
    rw [if_pos this]
  have h4 : toUInt64 ((n * 1000 : Nat) : Int) = n * 1000 := by
    unfold toUInt64
    have : (((n * 1000 : Nat) : Int) % (2 ^ 64 : Int)) = ((n * 1000 : Nat) : Int) := by
      apply Int.emod_eq_of_lt <;> omega
    rw [this]
    exact Int.toNat_natCast _
  have h5 : NvencEncoderSessionData.scaledBitRate (NvencEncoderSessionData.copy s) =
      n * 1000 * 1000 := by
    unfold NvencEncoderSessionData.scaledBitRate NvencEncoderSessionData.copy
    simp only [h2, h3, h4, BitRateInKilobits]
    apply Nat.mod_eq_of_lt
    omega
  have hne : (toUInt64 s.bitRate == NvencEncoderSessionData.scaledBitRate
      (NvencEncoderSessionData.copy s)) = false := by
    rw [h1, h5]
    simp
    omega
  simp [NvEncoder.UpdateEncoderSessionData, NvEncoder.new, NvencEncoderSessionData.eq, hne]

theorem C9_unchanged_settings_report_change_witness :
    ((0 : Int) < sampleSettings.bitRate ∧ sampleSettings.bitRate ≤ 2147483) ∧
    ((NvEncoder.new sampleSettings false zeroUninitialized).UpdateEncoderSessionData
      sampleSettings (sampleInitReply 0).parameters.resources).1 = true :=
  ⟨by decide,
    C9_unchanged_settings_report_change sampleSettings false zeroUninitialized
      (sampleInitReply 0).parameters.resources (by decide) (by decide)⟩

/-- C10. On every session that stores 1000 bits per second, settings that
differ from the current ones only by asking for 1000000 kilobits per second
are taken as unchanged: `UpdateEncoderSessionData` returns false and leaves
the encoder as it is, so no reconfigure request is issued although the bit
rate differs. -/
theorem C10_bitrate_change_without_reconfigure (e : NvEncoder)
    (r : Nat → NvEncoder.ResourceReply) (hbr : e.m_FrameData.bitRate = 1000) :
    NvencEncoderSessionData.Update e.m_FrameData { e.m_FrameData with bitRate := 1000000 } ≠
      e.m_FrameData ∧
    e.UpdateEncoderSessionData { e.m_FrameData with bitRate := 1000000 } r = (false, e) := by
  constructor
  · intro h
    have hb := congrArg NvencEncoderSessionData.bitRate h
    rw [hbr] at hb
    have hv : toInt32 ((toUInt64 1000000 * BitRateInKilobits) % 2 ^ 64) = 1000000000 := by decide
    simp only [NvencEncoderSessionData.Update, NvencEncoderSessionData.scaledBitRate, hv] at hb
    exact absurd hb (by decide)
  · have heq : NvencEncoderSessionData.eq { e.m_FrameData with bitRate := 1000000 } e.m_FrameData
        = true := by
      simp only [NvencEncoderSessionData.eq, NvencEncoderSessionData.scaledBitRate, hbr]
      simp
      decide
    simp [NvEncoder.UpdateEncoderSessionData, heq]

theorem C10_bitrate_change_without_reconfigure_witness :
    (lowBitRateSession.IsInitialized = true ∧ lowBitRateSession.m_FrameData.bitRate = 1000 ∧
      lowBitRateSession.m_NvEncConfig.rcParams.averageBitRate = 1000) ∧
    NvencEncoderSessionData.Update lowBitRateSession.m_FrameData
        { lowBitRateSession.m_FrameData with bitRate := 1000000 } ≠
      lowBitRateSession.m_FrameData ∧
    lowBitRateSession.UpdateEncoderSessionData
        { lowBitRateSession.m_FrameData with bitRate := 1000000 }
        (sampleInitReply 0).parameters.resources = (false, lowBitRateSession) :=
  ⟨by decide,
    C10_bitrate_change_without_reconfigure lowBitRateSession
      (sampleInitReply 0).parameters.resources (by decide)⟩

/-! ## Pipeline order and keyframe policy -/

theorem CopyBufferResources_snd (e : NvEncoder) (i src : Nat) (d : Bool) :
    ∃ c, (e.CopyBufferResources i src d).2 = { e with calls := c } := by
  refine ⟨(e.CopyBufferResources i src d).2.calls, ?_⟩
  simp only [NvEncoder.CopyBufferResources]
  split_ifs <;> rfl

theorem encodeAccepted_iff (e : NvEncoder) (src : Nat) (r : NvEncoder.EncodeReply) :
    e.encodeAccepted src r = true ↔
      src ≠ 0 ∧ (e.CopyBufferResources (e.m_FrameCount % k_BufferedFrameNum) src r.deviceCopy).1 = true ∧
      (e.m_BufferedFrames (e.m_FrameCount % k_BufferedFrameNum)).isEncoding = false ∧
      r.encodePicture = NV_ENC_SUCCESS := by
  simp [NvEncoder.encodeAccepted, and_assoc]

theorem push_stamps (processed : List (Nat × Bool)) (q : List EncodedFrame) (f : EncodedFrame)
    (hq : q.map EncodedFrame.stamp = processed.drop (processed.length - k_MaxQueueLength)) :
    ((if q.length < k_MaxQueueLength then q else q.tail) ++ [f]).map EncodedFrame.stamp =
      (processed ++ [f.stamp]).drop ((processed ++ [f.stamp]).length - k_MaxQueueLength) := by
  have hlen : q.length = processed.length - (processed.length - k_MaxQueueLength) := by
    have := congrArg List.length hq
    simpa using this
  by_cases h : processed.length < k_MaxQueueLength
  · have h0 : processed.length - k_MaxQueueLength = 0 := by omega
    have h1 : (processed ++ [f.stamp]).length - k_MaxQueueLength = 0 := by
      simp only [List.length_append, List.length_singleton]; omega
    rw [h0] at hq hlen
    have hql : q.length < k_MaxQueueLength := by omega
    simp only [hql, if_true, h1, List.drop_zero, List.map_append, hq, List.map_cons, List.map_nil]
  · have hk : k_MaxQueueLength = 8 := rfl
    have hql : ¬ q.length < k_MaxQueueLength := by omega
    have h1 : (processed ++ [f.stamp]).length - k_MaxQueueLength =
        processed.length - k_MaxQueueLength + 1 := by
      simp only [List.length_append, List.length_singleton]; omega
    have h2 : processed.length - k_MaxQueueLength + 1 ≤ processed.length := by omega
    simp only [hql, if_false, h1, List.map_append, List.map_cons, List.map_nil,
      List.drop_append_of_le_length h2]
    rw [← List.drop_one, List.map_drop, hq, List.drop_drop]

theorem ProcessEncodedFrame_encoding (e : NvEncoder) (i ts : Nat) (key : Bool)
    (r : NvEncoder.ProcessReply) (h : (e.m_BufferedFrames i).isEncoding = true) :
    (∃ f : EncodedFrame, f.stamp = (ts, key) ∧
      (e.ProcessEncodedFrame i ts key r).m_FrameQueue =
        (if e.m_FrameQueue.length < k_MaxQueueLength then e.m_FrameQueue else e.m_FrameQueue.tail) ++
          [f]) ∧
    (e.ProcessEncodedFrame i ts key r).m_BufferToRead = e.m_BufferToRead ∧
    (e.ProcessEncodedFrame i ts key r).m_GOPCount = e.m_GOPCount ∧
    (e.ProcessEncodedFrame i ts key r).m_FrameCount = e.m_FrameCount ∧
    (e.ProcessEncodedFrame i ts key r).m_IsAsync = e.m_IsAsync ∧
    (e.ProcessEncodedFrame i ts key r).m_NvEncInitializeParams = e.m_NvEncInitializeParams ∧
    ((e.ProcessEncodedFrame i ts key r).m_BufferedFrames i).isEncoding = false ∧
    (∀ j, j ≠ i → (e.ProcessEncodedFrame i ts key r).m_BufferedFrames j = e.m_BufferedFrames j) := by
  simp only [NvEncoder.ProcessEncodedFrame, h, Bool.not_true, Bool.false_eq_true, if_false]
  refine ⟨⟨_, ?_, AddEncodedFrame_queue _ _ _ _ _⟩, ?_, ?_, ?_, ?_, ?_, ?_, ?_⟩
  · rfl
  all_goals simp only [NvEncoder.AddEncodedFrame]
  all_goals split_ifs
  all_goals simp [setAt]
  all_goals intro j hj; simp [hj]

theorem EncodeFrame_async (e : NvEncoder) (src ts : Nat) (r : NvEncoder.EncodeReply)
    (h : e.encodeAccepted src r = true) (ha : e.m_NvEncInitializeParams.enableEncodeAsync = 1) :
    (e.EncodeFrame src ts r).m_BufferToRead =
        e.m_BufferToRead ++
          [{ index := e.m_FrameCount % k_BufferedFrameNum
             timestamp := ts
             isKeyFrame := e.m_GOPCount % k_GOPSize == 0 }] ∧
      (e.EncodeFrame src ts r).m_FrameQueue = e.m_FrameQueue ∧
      (e.EncodeFrame src ts r).m_GOPCount = (e.m_GOPCount + 1) % 2 ^ 64 ∧
      (e.EncodeFrame src ts r).m_IsAsync = e.m_IsAsync ∧
      (e.EncodeFrame src ts r).m_NvEncInitializeParams = e.m_NvEncInitializeParams ∧
      (e.EncodeFrame src ts r).m_BufferedFrames =
        setAt e.m_BufferedFrames (e.m_FrameCount % k_BufferedFrameNum)
          { (e.m_BufferedFrames (e.m_FrameCount % k_BufferedFrameNum)) with
            isEncoded := false, isEncoding := true } := by
  obtain ⟨hsrc, hcopy, henc, hpic⟩ := (encodeAccepted_iff e src r).1 h
  obtain ⟨c, hc⟩ := CopyBufferResources_snd e (e.m_FrameCount % k_BufferedFrameNum) src r.deviceCopy
  simp [NvEncoder.EncodeFrame, hsrc, hcopy, hc, henc, hpic, ha]

theorem EncodeFrame_sync (e : NvEncoder) (src ts : Nat) (r : NvEncoder.EncodeReply)
    (h : e.encodeAccepted src r = true) (ha : e.m_NvEncInitializeParams.enableEncodeAsync ≠ 1) :
    (∃ f : EncodedFrame, f.stamp = (ts, e.m_GOPCount % k_GOPSize == 0) ∧
      (e.EncodeFrame src ts r).m_FrameQueue =
        (if e.m_FrameQueue.length < k_MaxQueueLength then e.m_FrameQueue else e.m_FrameQueue.tail) ++
          [f]) ∧
      (e.EncodeFrame src ts r).m_BufferToRead = e.m_BufferToRead ∧
      (e.EncodeFrame src ts r).m_GOPCount = (e.m_GOPCount + 1) % 2 ^ 64 ∧
      (e.EncodeFrame src ts r).m_IsAsync = e.m_IsAsync ∧
      (e.EncodeFrame src ts r).m_NvEncInitializeParams = e.m_NvEncInitializeParams := by
  obtain ⟨hsrc, hcopy, henc, hpic⟩ := (encodeAccepted_iff e src r).1 h
  obtain ⟨c, hc⟩ := CopyBufferResources_snd e (e.m_FrameCount % k_BufferedFrameNum) src r.deviceCopy
  simp only [NvEncoder.EncodeFrame, hsrc, hcopy, hc, henc, hpic, ha, beq_iff_eq, if_false,
    Bool.not_true, Bool.false_eq_true, bne_self_eq_false, ne_eq, not_true_eq_false, not_false_eq_true]
  refine ⟨?_, ?_, ?_, ?_, ?_⟩
  · exact (ProcessEncodedFrame_encoding _ _ _ _ _ (by simp [setAt])).1
  · exact (ProcessEncodedFrame_encoding _ _ _ _ _ (by simp [setAt])).2.1
  · exact (ProcessEncodedFrame_encoding _ _ _ _ _ (by simp [setAt])).2.2.1
  · exact (ProcessEncodedFrame_encoding _ _ _ _ _ (by simp [setAt])).2.2.2.2.1
  · exact (ProcessEncodedFrame_encoding _ _ _ _ _ (by simp [setAt])).2.2.2.2.2.1

theorem ProcessEncodedFrameAsyncSingle_idle (e : NvEncoder) (r : NvEncoder.DispatchReply)
    (h : e.m_IsAsync = false ∨ e.m_BufferToRead = []) :
    e.ProcessEncodedFrameAsyncSingle r = e := by
  rcases h with h | h
  · simp [NvEncoder.ProcessEncodedFrameAsyncSingle, h]
  · simp only [NvEncoder.ProcessEncodedFrameAsyncSingle, h]
    split_ifs <;> rfl

theorem ProcessEncodedFrameAsyncSingle_pop (e : NvEncoder) (r : NvEncoder.DispatchReply)
    (k : EncodedFrameDataKey) (rest : List EncodedFrameDataKey)
    (hasync : e.m_IsAsync = true) (hpending : e.m_BufferToRead = k :: rest)
    (hwait : r.wait ≠ NvEncoder.WAIT_FAILED)
    (henc : (e.m_BufferedFrames k.index).isEncoding = true) :
    (∃ f : EncodedFrame, f.stamp = k.stamp ∧
      (e.ProcessEncodedFrameAsyncSingle r).m_FrameQueue =
        (if e.m_FrameQueue.length < k_MaxQueueLength then e.m_FrameQueue else e.m_FrameQueue.tail) ++
          [f]) ∧
    (e.ProcessEncodedFrameAsyncSingle r).m_BufferToRead = rest ∧
    (e.ProcessEncodedFrameAsyncSingle r).m_GOPCount = e.m_GOPCount ∧
    (e.ProcessEncodedFrameAsyncSingle r).m_IsAsync = e.m_IsAsync ∧
    (e.ProcessEncodedFrameAsyncSingle r).m_NvEncInitializeParams = e.m_NvEncInitializeParams ∧
    (∀ j, j ≠ k.index →
      ((e.ProcessEncodedFrameAsyncSingle r).m_BufferedFrames j).isEncoding =
        (e.m_BufferedFrames j).isEncoding) := by
  have hw : (r.wait == NvEncoder.WAIT_FAILED) = false := by simpa using hwait
  simp only [NvEncoder.ProcessEncodedFrameAsyncSingle, hasync, hpending, hw, Bool.not_true,
    Bool.false_eq_true, if_false]
  refine ⟨?_, ?_, ?_, ?_, ?_, ?_⟩
  · exact (ProcessEncodedFrame_encoding _ _ _ _ _ (by simpa using henc)).1
  · exact (ProcessEncodedFrame_encoding _ _ _ _ _ (by simpa using henc)).2.1
  · exact (ProcessEncodedFrame_encoding _ _ _ _ _ (by simpa using henc)).2.2.1
  · exact (ProcessEncodedFrame_encoding _ _ _ _ _ (by simpa using henc)).2.2.2.2.1
  · exact (ProcessEncodedFrame_encoding _ _ _ _ _ (by simpa using henc)).2.2.2.2.2.1
  · intro j hj
    simp only [setAt, hj, if_false]
    rw [(ProcessEncodedFrame_encoding _ _ _ _ _ (by simpa using henc)).2.2.2.2.2.2.2 j hj]

theorem PipelineInv_encode (e : NvEncoder) (submitted : List (Nat × Bool)) (src ts : Nat)
    (r : NvEncoder.EncodeReply) (hinv : PipelineInv e submitted)
    (hok : e.encodeAccepted src r = true) :
    PipelineInv (e.EncodeFrame src ts r) (submitted ++ [(ts, submitted.length % k_GOPSize == 0)]) := by
  have hk : k_GOPSize = 2 := rfl
  have hflag : (e.m_GOPCount % k_GOPSize == 0) = (submitted.length % k_GOPSize == 0) := by
    rw [hinv.gop, hk]
    congr 1
    omega
  have hgop : (e.m_GOPCount + 1) % 2 ^ 64 = (submitted ++ [(ts, submitted.length % k_GOPSize == 0)]).length % 2 ^ 64 := by
    rw [hinv.gop, List.length_append, List.length_singleton]
    omega
  obtain ⟨hsrc, hcopy, henc, hpic⟩ := (encodeAccepted_iff e src r).1 hok
  obtain ⟨processed, hsplit, hqueue⟩ := hinv.split
  by_cases ha : e.m_NvEncInitializeParams.enableEncodeAsync = 1
  · obtain ⟨hb, hq, hg, hi, hp, hf⟩ := EncodeFrame_async e src ts r hok ha
    have hasync : e.m_IsAsync = true := by
      rw [← hinv.asyncFlag]; simp [ha]
    refine ⟨by rw [hg, hgop], by rw [hp, hi]; exact hinv.asyncFlag, ⟨processed, ?_, by rw [hq]; exact hqueue⟩,
      ?_, ?_, ?_⟩
    · rw [hb, List.map_append, ← List.append_assoc, ← hsplit]
      simp [EncodedFrameDataKey.stamp, hflag]
    · intro k hkmem
      rw [hb, List.mem_append, List.mem_singleton] at hkmem
      rw [hf]
      by_cases hidx : k.index = e.m_FrameCount % k_BufferedFrameNum
      · simp [setAt, hidx]
      · rcases hkmem with hkmem | hkmem
        · simp only [setAt, hidx, if_false]
          exact hinv.pendingEncoding k hkmem
        · exact absurd (by rw [hkmem]) hidx
    · rw [hb, List.map_append, List.map_cons, List.map_nil]
      refine List.Nodup.append hinv.pendingDistinct (List.nodup_singleton _) ?_
      intro i hi1 hi2
      rw [List.mem_singleton] at hi2
      obtain ⟨k, hkmem, hki⟩ := List.mem_map.1 hi1
      have := hinv.pendingEncoding k hkmem
      rw [hki, hi2, henc] at this
      exact Bool.noConfusion this
    · intro hfalse
      rw [hi, hasync] at hfalse
      exact Bool.noConfusion hfalse
  · obtain ⟨⟨f, hfs, hq⟩, hb, hg, hi, hp⟩ := EncodeFrame_sync e src ts r hok ha
    have hsync : e.m_IsAsync = false := by
      rw [← hinv.asyncFlag]; simp [ha]
    have hempty := hinv.syncEmpty hsync
    have hproc : submitted = processed := by
      rw [hsplit, hempty]; simp
    subst hproc
    refine ⟨by rw [hg, hgop], by rw [hp, hi]; exact hinv.asyncFlag, ⟨submitted ++ [f.stamp], ?_, ?_⟩,
      ?_, ?_, ?_⟩
    · rw [hb, hempty, hfs, hflag]; simp
    · rw [hq]
      exact push_stamps submitted e.m_FrameQueue f hqueue
    · intro k hkmem
      rw [hb, hempty] at hkmem
      exact absurd hkmem (List.not_mem_nil k)
    · rw [hb, hempty]; exact List.nodup_nil
    · intro _
      rw [hb, hempty]

theorem PipelineInv_dispatch (e : NvEncoder) (submitted : List (Nat × Bool))
    (r : NvEncoder.DispatchReply) (hinv : PipelineInv e submitted)
    (hwait : r.wait ≠ NvEncoder.WAIT_FAILED) :
    PipelineInv (e.ProcessEncodedFrameAsyncSingle r) submitted := by
  by_cases hasync : e.m_IsAsync = true
  · cases hpending : e.m_BufferToRead with
    | nil => rw [ProcessEncodedFrameAsyncSingle_idle e r (Or.inr hpending)]; exact hinv
    | cons k rest =>
      have hkmem : k ∈ e.m_BufferToRead := by rw [hpending]; exact List.mem_cons_self k rest
      obtain ⟨⟨f, hfs, hq⟩, hb, hg, hi, hp, hf⟩ :=
        ProcessEncodedFrameAsyncSingle_pop e r k rest hasync hpending hwait
          (hinv.pendingEncoding k hkmem)
      obtain ⟨processed, hsplit, hqueue⟩ := hinv.split
      have hnodup := hinv.pendingDistinct
      rw [hpending, List.map_cons, List.nodup_cons] at hnodup
      refine ⟨by rw [hg]; exact hinv.gop, by rw [hp, hi]; exact hinv.asyncFlag,
        ⟨processed ++ [f.stamp], ?_, ?_⟩, ?_, ?_, ?_⟩
      · rw [hsplit, hpending, hb, hfs]; simp
      · rw [hq]
        exact push_stamps processed e.m_FrameQueue f hqueue
      · intro k2 hk2
        rw [hb] at hk2
        have hne : k2.index ≠ k.index := by
          intro heq
          exact hnodup.1 (heq ▸ List.mem_map_of_mem _ hk2)
        rw [hf _ hne]
        exact hinv.pendingEncoding k2 (by rw [hpending]; exact List.mem_cons_of_mem _ hk2)
      · rw [hb]; exact hnodup.2
      · intro hfalse
        rw [hi, hasync] at hfalse
        exact Bool.noConfusion hfalse
  · have hsync : e.m_IsAsync = false := by simpa using hasync
    rw [ProcessEncodedFrameAsyncSingle_idle e r (Or.inl hsync)]; exact hinv

theorem PipelineInv_run (steps : List PipelineStep) :
    ∀ (e : NvEncoder) (submitted : List (Nat × Bool)), PipelineInv e submitted →
      pipelineOk e steps = true →
      PipelineInv (runPipeline e steps)
        (submitted ++ keyFrameSchedule submitted.length (submittedTimestamps steps)) := by
  induction steps with
  | nil =>
    intro e submitted hinv _
    simpa [runPipeline, submittedTimestamps, keyFrameSchedule] using hinv
  | cons step rest ih =>
    intro e submitted hinv hok
    simp only [pipelineOk, Bool.and_eq_true] at hok
    cases step with
    | EncodeFrame src ts r =>
      have h1 := PipelineInv_encode e submitted src ts r hinv hok.1
      have h2 := ih _ _ h1 hok.2
      simpa [runPipeline, submittedTimestamps, keyFrameSchedule, PipelineStep.run,
        List.append_assoc] using h2
    | ProcessEncodedFrameAsyncSingle r =>
      have hwait : r.wait ≠ NvEncoder.WAIT_FAILED := by
        simpa [PipelineStep.ok] using hok.1
      have h1 := PipelineInv_dispatch e submitted r hinv hwait
      have h2 := ih _ _ h1 hok.2
      simpa [runPipeline, submittedTimestamps, PipelineStep.run] using h2

theorem InitEncoderResources_fields (e : NvEncoder) (r : Nat → NvEncoder.ResourceReply) :
    (e.InitEncoderResources r).m_GOPCount = e.m_GOPCount ∧
    (e.InitEncoderResources r).m_BufferToRead = e.m_BufferToRead ∧
    (e.InitEncoderResources r).m_FrameQueue = e.m_FrameQueue ∧
    (e.InitEncoderResources r).m_IsAsync = e.m_IsAsync ∧
    (e.InitEncoderResources r).m_NvEncInitializeParams = e.m_NvEncInitializeParams ∧
    (e.InitEncoderResources r).m_InitializationResult = e.m_InitializationResult :=
  ⟨rfl, rfl, rfl, rfl, rfl, rfl⟩

theorem SetEncoderParameters_fresh (e : NvEncoder) (r : NvEncoder.SetParametersReply)
    (h : e.m_IsAsync = false) :
    (e.SetEncoderParameters r).m_GOPCount = e.m_GOPCount ∧
    (e.SetEncoderParameters r).m_BufferToRead = e.m_BufferToRead ∧
    (e.SetEncoderParameters r).m_FrameQueue = e.m_FrameQueue ∧
    ((e.SetEncoderParameters r).m_NvEncInitializeParams.enableEncodeAsync == 1) =
      (e.SetEncoderParameters r).m_IsAsync := by
  simp only [NvEncoder.SetEncoderParameters]
  split_ifs <;>
    simp_all [InitEncoderResources_fields, NvEncoder.InitializeAsyncResources]

theorem LoadCodec_fields (e : NvEncoder) (r : NvEncoder.LoadCodecReply) :
    (e.LoadCodec r).2.m_GOPCount = e.m_GOPCount ∧
    (e.LoadCodec r).2.m_BufferToRead = e.m_BufferToRead ∧
    (e.LoadCodec r).2.m_FrameQueue = e.m_FrameQueue ∧
    (e.LoadCodec r).2.m_IsAsync = e.m_IsAsync := by
  simp only [NvEncoder.LoadCodec]
  split_ifs <;> exact ⟨rfl, rfl, rfl, rfl⟩

theorem InitEncoder_success (e : NvEncoder) (r : NvEncoder.InitReply)
    (h : (e.InitEncoder r).1 = ENvencStatus.Success) (hsync : e.m_IsAsync = false) :
    (e.InitEncoder r).2.m_InitializationResult = ENvencStatus.Success ∧
    (e.InitEncoder r).2.m_GOPCount = e.m_GOPCount ∧
    (e.InitEncoder r).2.m_BufferToRead = e.m_BufferToRead ∧
    (e.InitEncoder r).2.m_FrameQueue = e.m_FrameQueue ∧
    ((e.InitEncoder r).2.m_NvEncInitializeParams.enableEncodeAsync == 1) =
      (e.InitEncoder r).2.m_IsAsync := by
  obtain ⟨hl1, hl2, hl3, hl4⟩ := LoadCodec_fields e r.loadCodec
  have he1 : ∀ e1 : NvEncoder,
      (if (e.m_InitializationResult == ENvencStatus.NotInitialized) = true then
        { (e.LoadCodec r.loadCodec).2 with m_InitializationResult := (e.LoadCodec r.loadCodec).1 }
      else e : NvEncoder) = e1 →
      e1.m_GOPCount = e.m_GOPCount ∧ e1.m_BufferToRead = e.m_BufferToRead ∧
      e1.m_FrameQueue = e.m_FrameQueue ∧ e1.m_IsAsync = false := by
    intro e1 hE
    subst hE
    split_ifs
    · exact ⟨hl1, hl2, hl3, hl4.trans hsync⟩
    · exact ⟨rfl, rfl, rfl, hsync⟩
  simp only [NvEncoder.InitEncoder] at h ⊢
  generalize hE : (if (e.m_InitializationResult == ENvencStatus.NotInitialized) = true then
        { (e.LoadCodec r.loadCodec).2 with m_InitializationResult := (e.LoadCodec r.loadCodec).1 }
      else e : NvEncoder) = e1 at h ⊢
  have he1 := he1 e1 hE
  clear hE
  obtain ⟨hg, hb, hq, ha⟩ := he1
  by_cases c1 : (e1.m_InitializationResult != ENvencStatus.Success) = true
  · rw [if_pos c1] at h
    simp only [bne_iff_ne, ne_eq] at c1
    exact absurd h c1
  · rw [if_neg c1] at h ⊢
    by_cases c2 : (r.device == 0) = true
    · rw [if_pos c2] at h
      exact absurd h (by simp)
    · rw [if_neg c2] at h ⊢
      by_cases c3 : (r.openSessionStatus != NV_ENC_SUCCESS) = true
      · rw [if_pos c3] at h
        exact absurd h (by simp)
      · rw [if_neg c3] at h ⊢
        have hs := SetEncoderParameters_fresh
          { e1 with m_HEncoder := r.hEncoder
                    calls := e1.calls ++ [NvCall.GetDevice] ++ [NvCall.nvEncOpenEncodeSessionEx] }
          r.parameters ha
        exact ⟨rfl, hs.1.trans hg, hs.2.1.trans hb, hs.2.2.1.trans hq, hs.2.2.2⟩

theorem InitEncoder_fresh (other : NvencEncoderSessionData) (forceNv12 : Bool)
    (u : NvEncoder.Uninitialized) (r : NvEncoder.InitReply)
    (h : ((NvEncoder.new other forceNv12 u).InitEncoder r).1 = ENvencStatus.Success) :
    PipelineInv ((NvEncoder.new other forceNv12 u).InitEncoder r).2 [] ∧
      ((NvEncoder.new other forceNv12 u).InitEncoder r).2.IsInitialized = true := by
  obtain ⟨h1, h2, h3, h4, h5⟩ := InitEncoder_success _ r h rfl
  have hg : ((NvEncoder.new other forceNv12 u).InitEncoder r).2.m_GOPCount = 0 := h2
  have hb : ((NvEncoder.new other forceNv12 u).InitEncoder r).2.m_BufferToRead = [] := h3
  have hq : ((NvEncoder.new other forceNv12 u).InitEncoder r).2.m_FrameQueue = [] := h4
  refine ⟨⟨by rw [hg]; rfl, h5, ⟨[], by rw [hb]; rfl, by rw [hq]; rfl⟩, ?_, ?_, fun _ => hb⟩, ?_⟩
  · intro k hk
    rw [hb] at hk
    exact absurd hk (List.not_mem_nil k)
  · rw [hb]; exact List.nodup_nil
  · simp [NvEncoder.IsInitialized, h1]

theorem AddEncodedFrame_initResult (e : NvEncoder) (i ts : Nat) (key : Bool)
    (seq : NvEncoder.SequenceParamsReply) :
    (e.AddEncodedFrame i ts key seq).m_InitializationResult = e.m_InitializationResult := by
  simp only [NvEncoder.AddEncodedFrame]
  split_ifs <;> rfl

theorem ProcessEncodedFrame_initResult (e : NvEncoder) (i ts : Nat) (key : Bool)
    (r : NvEncoder.ProcessReply) :
    (e.ProcessEncodedFrame i ts key r).m_InitializationResult = e.m_InitializationResult := by
  simp only [NvEncoder.ProcessEncodedFrame]
  split_ifs
  · rfl
  · rw [AddEncodedFrame_initResult]
  · rw [AddEncodedFrame_initResult]

theorem EncodeFrame_initResult (e : NvEncoder) (src ts : Nat) (r : NvEncoder.EncodeReply) :
    (e.EncodeFrame src ts r).m_InitializationResult = e.m_InitializationResult := by
  obtain ⟨c, hc⟩ := CopyBufferResources_snd e (e.m_FrameCount % k_BufferedFrameNum) src r.deviceCopy
  simp only [NvEncoder.EncodeFrame, hc]
  split_ifs <;> first | rfl | simp [ProcessEncodedFrame_initResult]

theorem ProcessEncodedFrameAsyncSingle_initResult (e : NvEncoder) (r : NvEncoder.DispatchReply) :
    (e.ProcessEncodedFrameAsyncSingle r).m_InitializationResult = e.m_InitializationResult := by
  by_cases ha : e.m_IsAsync = true
  · cases hp : e.m_BufferToRead with
    | nil => simp [NvEncoder.ProcessEncodedFrameAsyncSingle, ha, hp]
    | cons k rest =>
      by_cases hw : (r.wait == NvEncoder.WAIT_FAILED) = true <;>
        simp [NvEncoder.ProcessEncodedFrameAsyncSingle, ha, hp, hw, ProcessEncodedFrame_initResult]
  · simp [NvEncoder.ProcessEncodedFrameAsyncSingle, ha]

theorem runPipeline_initResult (steps : List PipelineStep) :
    ∀ e : NvEncoder, (runPipeline e steps).m_InitializationResult = e.m_InitializationResult := by
  induction steps with
  | nil => intro e; rfl
  | cons step rest ih =>
    intro e
    have h := ih (step.run e)
    cases step with
    | EncodeFrame src ts r =>
      simpa [runPipeline, PipelineStep.run, EncodeFrame_initResult] using h
    | ProcessEncodedFrameAsyncSingle r =>
      simpa [runPipeline, PipelineStep.run, ProcessEncodedFrameAsyncSingle_initResult] using h

theorem keyFrameSchedule_fst (ts : List Nat) :
    ∀ i, (keyFrameSchedule i ts).map Prod.fst = ts := by
  induction ts with
  | nil => intro i; rfl
  | cons t ts ih => intro i; simp [keyFrameSchedule, ih]

theorem keyFrameSchedule_length (ts : List Nat) (i : Nat) :
    (keyFrameSchedule i ts).length = ts.length := by
  have := congrArg List.length (keyFrameSchedule_fst ts i)
  simpa using this

theorem keyFrameSchedule_getElem? (ts : List Nat) :
    ∀ i j, (keyFrameSchedule i ts)[j]? = (ts[j]?).map (fun t => (t, (i + j) % k_GOPSize == 0)) := by
  induction ts with
  | nil => intro i j; simp [keyFrameSchedule]
  | cons t ts ih =>
    intro i j
    cases j with
    | zero => simp [keyFrameSchedule]
    | succ j =>
      simp only [keyFrameSchedule, List.getElem?_cons_succ, ih]
      have : i + 1 + j = i + (j + 1) := by omega
      rw [this]

theorem BeginConsume_empty (st : PluginState) (id : Int) (enc : NvEncoder)
    (henc : st.s_EncoderMap.GetInstance id = some enc) (hq : enc.m_FrameQueue = []) :
    BeginConsume (some id) st = (false, st) := by
  by_cases hi : id > 0 <;>
    simp [BeginConsume, lookupEncoder, hi, henc, NvEncoder.GetEncodedFrame, hq]

theorem EndConsume_borrowed (st : PluginState) (id : Int) (enc : NvEncoder) (f : EncodedFrame)
    (rest : List EncodedFrame) (p : EncodedFramePtr) (hid : id > 0)
    (henc : st.s_EncoderMap.GetInstance id = some enc) (hinit : enc.IsInitialized = true)
    (hq : enc.m_FrameQueue = f :: rest) (hmap : st.s_EncodedFrameMap.map_ id = some (some p)) :
    EndConsume (some id) st =
      Except.ok (true,
        { s_EncodedFrameMap := st.s_EncodedFrameMap.Remove id
          s_EncoderMap := st.s_EncoderMap.Add id (some enc.RemoveEncodedFrame.2) }) := by
  simp [EndConsume, lookupEncoder, hid, henc, hinit, IDObjectMap.subscript, hmap,
    NvEncoder.RemoveEncodedFrame, hq]

theorem consumeTimestamps_queue (id : Int) (hid : id > 0) (q : List EncodedFrame) :
    ∀ (st : PluginState) (enc : NvEncoder), st.s_EncoderMap.GetInstance id = some enc →
      enc.IsInitialized = true → enc.m_FrameQueue = q →
      ∃ st', consumeTimestamps id q.length st =
          Except.ok (q.map (fun f => f.timestamp), st') ∧
        (BeginConsume (some id) st').1 = false := by
  induction q with
  | nil =>
    intro st enc henc _ hq
    exact ⟨st, rfl, by rw [BeginConsume_empty st id enc henc hq]⟩
  | cons f rest ih =>
    intro st enc henc hinit hq
    have hb := BeginConsume_front st id enc f rest hid henc hinit hq
    have hmap : (st.s_EncodedFrameMap.Add id
        (some { owner := id, address := enc.m_FrameQueueFront })).map_ id =
        some (some { owner := id, address := enc.m_FrameQueueFront }) := by
      simp [IDObjectMap.Add]
    have ht : GetTimeStamp (some id)
        { s_EncoderMap := st.s_EncoderMap
          s_EncodedFrameMap :=
            st.s_EncodedFrameMap.Add id (some { owner := id, address := enc.m_FrameQueueFront }) } =
        Except.ok f.timestamp :=
      readEncodedFrame_borrowed _ id enc f rest _ _ hid henc hq hmap
    have he := EndConsume_borrowed
      { s_EncoderMap := st.s_EncoderMap
        s_EncodedFrameMap :=
          st.s_EncodedFrameMap.Add id (some { owner := id, address := enc.m_FrameQueueFront }) }
      id enc f rest _ hid henc hinit hq hmap
    obtain ⟨st', hc, hend⟩ := ih
      { s_EncodedFrameMap :=
          (st.s_EncodedFrameMap.Add id
            (some { owner := id, address := enc.m_FrameQueueFront })).Remove id
        s_EncoderMap := st.s_EncoderMap.Add id (some enc.RemoveEncodedFrame.2) }
      enc.RemoveEncodedFrame.2
      (by simp [IDObjectMap.GetInstance, IDObjectMap.Add])
      (by simpa [NvEncoder.RemoveEncodedFrame, hq, NvEncoder.IsInitialized] using hinit)
      (by simp [NvEncoder.RemoveEncodedFrame, hq])
    refine ⟨st', ?_, hend⟩
    simp only [List.length_cons, consumeTimestamps, hb, ht, he, hc, List.map_cons]

/-- C4. On a freshly initialised session, let `k` accepted and successful
`EncodeFrame` calls with `1 ≤ k ≤ 8`, interleaved in any way with dispatcher
iterations, leave no pending key (which is always so in synchronous mode).
Then `k` rounds of `BeginConsume`, `GetTimeStamp`, `EndConsume` read exactly the
submitted timestamps in submission order, and the next `BeginConsume` returns
false. -/
theorem C4_submission_order_preserved (other : NvencEncoderSessionData) (forceNv12 : Bool)
    (u : NvEncoder.Uninitialized) (r : NvEncoder.InitReply) (steps : List PipelineStep)
    (st : PluginState) (id : Int)
    (hinit : ((NvEncoder.new other forceNv12 u).InitEncoder r).1 = ENvencStatus.Success)
    (hok : pipelineOk ((NvEncoder.new other forceNv12 u).InitEncoder r).2 steps = true)
    (hk : 1 ≤ (submittedTimestamps steps).length ∧ (submittedTimestamps steps).length ≤ 8)
    (hdone : (runPipeline ((NvEncoder.new other forceNv12 u).InitEncoder r).2 steps).m_BufferToRead = [])
    (hid : id > 0)
    (hreg : st.s_EncoderMap.GetInstance id =
      some (runPipeline ((NvEncoder.new other forceNv12 u).InitEncoder r).2 steps)) :
    ∃ st', consumeTimestamps id (submittedTimestamps steps).length st =
        Except.ok (submittedTimestamps steps, st') ∧
      (BeginConsume (some id) st').1 = false := by
  obtain ⟨hfresh, hinitialized⟩ := InitEncoder_fresh other forceNv12 u r hinit
  have hinv := PipelineInv_run steps _ _ hfresh hok
  simp only [List.nil_append, List.length_nil] at hinv
  obtain ⟨processed, hsplit, hqueue⟩ := hinv.split
  rw [hdone, List.map_nil, List.append_nil] at hsplit
  subst hsplit
  have hlen : (keyFrameSchedule 0 (submittedTimestamps steps)).length - k_MaxQueueLength = 0 := by
    rw [keyFrameSchedule_length]
    have : k_MaxQueueLength = 8 := rfl
    omega
  rw [hlen, List.drop_zero] at hqueue
  have hts : (runPipeline ((NvEncoder.new other forceNv12 u).InitEncoder r).2 steps).m_FrameQueue.map
      (fun f => f.timestamp) = submittedTimestamps steps := by
    have := congrArg (List.map Prod.fst) hqueue
    rw [keyFrameSchedule_fst, List.map_map] at this
    exact this
  have hql : (runPipeline ((NvEncoder.new other forceNv12 u).InitEncoder r).2 steps).m_FrameQueue.length =
      (submittedTimestamps steps).length := by
    have := congrArg List.length hts
    simpa using this
  have hrun : (runPipeline ((NvEncoder.new other forceNv12 u).InitEncoder r).2 steps).IsInitialized =
      true := by
    simpa [NvEncoder.IsInitialized, runPipeline_initResult] using hinitialized
  obtain ⟨st', hc, hend⟩ := consumeTimestamps_queue id hid _ st _ hreg hrun rfl
  exact ⟨st', by rw [← hql, hc, hts], hend⟩

/-- C5. On a freshly initialised session, after any sequence of accepted and
successful `EncodeFrame` calls (interleaved in any way with dispatcher
iterations), the submissions, each paired with the flag "its 0-based
submission index is a multiple of `k_GOPSize = 2`", split into a processed part
and the part still pending in `m_BufferToRead`; the queue holds the last
`k_MaxQueueLength` processed ones with exactly these flags, and in synchronous
mode nothing is pending. -/
theorem C5_gop_keyframe_policy (other : NvencEncoderSessionData) (forceNv12 : Bool)
    (u : NvEncoder.Uninitialized) (r : NvEncoder.InitReply) (steps : List PipelineStep)
    (hinit : ((NvEncoder.new other forceNv12 u).InitEncoder r).1 = ENvencStatus.Success)
    (hok : pipelineOk ((NvEncoder.new other forceNv12 u).InitEncoder r).2 steps = true) :
    (∀ i, (keyFrameSchedule 0 (submittedTimestamps steps))[i]? =
      ((submittedTimestamps steps)[i]?).map (fun t => (t, i % 2 == 0))) ∧
    (∃ processed : List (Nat × Bool),
      keyFrameSchedule 0 (submittedTimestamps steps) =
        processed ++
          (runPipeline ((NvEncoder.new other forceNv12 u).InitEncoder r).2 steps).m_BufferToRead.map
            EncodedFrameDataKey.stamp ∧
      (runPipeline ((NvEncoder.new other forceNv12 u).InitEncoder r).2 steps).m_FrameQueue.map
          EncodedFrame.stamp =
        processed.drop (processed.length - k_MaxQueueLength)) ∧
    ((runPipeline ((NvEncoder.new other forceNv12 u).InitEncoder r).2 steps).m_IsAsync = false →
      (runPipeline ((NvEncoder.new other forceNv12 u).InitEncoder r).2 steps).m_FrameQueue.map
          EncodedFrame.stamp =
        (keyFrameSchedule 0 (submittedTimestamps steps)).drop
          ((submittedTimestamps steps).length - k_MaxQueueLength)) := by
  obtain ⟨hfresh, _⟩ := InitEncoder_fresh other forceNv12 u r hinit
  have hinv := PipelineInv_run steps _ _ hfresh hok
  simp only [List.nil_append, List.length_nil] at hinv
  refine ⟨?_, hinv.split, ?_⟩
  · intro i
    rw [keyFrameSchedule_getElem?]
    simp [k_GOPSize]
  · intro hsync
    obtain ⟨processed, hsplit, hqueue⟩ := hinv.split
    rw [hinv.syncEmpty hsync, List.map_nil, List.append_nil] at hsplit
    subst hsplit
    rw [hqueue, keyFrameSchedule_length]

theorem C4_submission_order_preserved_witness :
    (pipelineOk asyncSession fiveFramesAsync = true ∧
      submittedTimestamps fiveFramesAsync = [0, 33, 66, 99, 132] ∧
      (runPipeline asyncSession fiveFramesAsync).m_BufferToRead = []) ∧
    ∃ st', consumeTimestamps 1 5 (pluginWith (runPipeline asyncSession fiveFramesAsync)) =
        Except.ok ([0, 33, 66, 99, 132], st') ∧
      (BeginConsume (some 1) st').1 = false :=
  ⟨⟨by decide, by decide, by decide⟩,
    C4_submission_order_preserved sampleSettings false zeroUninitialized (sampleInitReply 1)
      fiveFramesAsync (pluginWith (runPipeline asyncSession fiveFramesAsync)) 1 (by decide)
      (by decide) (by decide) (by decide) (by decide) rfl⟩

theorem C5_gop_keyframe_policy_witness :
    (pipelineOk syncSession fiveFrames = true ∧
      (runPipeline syncSession fiveFrames).m_FrameQueue.map EncodedFrame.stamp =
        [(0, true), (33, false), (66, true), (99, false), (132, true)]) ∧
    (∀ i, (keyFrameSchedule 0 (submittedTimestamps fiveFrames))[i]? =
      ((submittedTimestamps fiveFrames)[i]?).map (fun t => (t, i % 2 == 0))) ∧
    (∃ processed : List (Nat × Bool),
      keyFrameSchedule 0 (submittedTimestamps fiveFrames) =
        processed ++ (runPipeline syncSession fiveFrames).m_BufferToRead.map
          EncodedFrameDataKey.stamp ∧
      (runPipeline syncSession fiveFrames).m_FrameQueue.map EncodedFrame.stamp =
        processed.drop (processed.length - k_MaxQueueLength)) ∧
    ((runPipeline syncSession fiveFrames).m_IsAsync = false →
      (runPipeline syncSession fiveFrames).m_FrameQueue.map EncodedFrame.stamp =
        (keyFrameSchedule 0 (submittedTimestamps fiveFrames)).drop
          ((submittedTimestamps fiveFrames).length - k_MaxQueueLength)) :=
  ⟨⟨by decide, by decide⟩,
    C5_gop_keyframe_policy sampleSettings false zeroUninitialized (sampleInitReply 0) fiveFrames
      (by decide) (by decide)⟩

/-! ## Teardown -/

theorem foldl_preserves {β : Type} (proj : NvEncoder → β) (f : NvEncoder → Nat → NvEncoder)
    (h : ∀ e i, proj (f e i) = proj e) (l : List Nat) :
    ∀ e, proj (l.foldl f e) = proj e := by
  induction l with
  | nil => intro e; rfl
  | cons i l ih => intro e; rw [List.foldl_cons, ih, h]

theorem ReleaseEncoderResourcesAt_fields (e : NvEncoder) (i : Nat) :
    (e.ReleaseEncoderResourcesAt i).m_IsAsync = e.m_IsAsync ∧
    (e.ReleaseEncoderResourcesAt i).m_GOPCount = e.m_GOPCount ∧
    (e.ReleaseEncoderResourcesAt i).m_FrameCount = e.m_FrameCount ∧
    (e.ReleaseEncoderResourcesAt i).m_InitializationResult = e.m_InitializationResult ∧
    (e.ReleaseEncoderResourcesAt i).m_NvEncInitializeParams = e.m_NvEncInitializeParams ∧
    (e.ReleaseEncoderResourcesAt i).m_FrameData = e.m_FrameData ∧
    (e.ReleaseEncoderResourcesAt i).m_FrameQueue = e.m_FrameQueue ∧
    (e.ReleaseEncoderResourcesAt i).m_BufferToRead = e.m_BufferToRead := by
  simp only [NvEncoder.ReleaseEncoderResourcesAt, NvEncoder.ReleaseFrameInputBuffer]
  split_ifs <;> exact ⟨rfl, rfl, rfl, rfl, rfl, rfl, rfl, rfl⟩

theorem ReleaseRenderTextureAt_fields (e : NvEncoder) (i : Nat) :
    (e.ReleaseRenderTextureAt i).m_IsAsync = e.m_IsAsync ∧
    (e.ReleaseRenderTextureAt i).m_GOPCount = e.m_GOPCount ∧
    (e.ReleaseRenderTextureAt i).m_FrameCount = e.m_FrameCount ∧
    (e.ReleaseRenderTextureAt i).m_InitializationResult = e.m_InitializationResult ∧
    (e.ReleaseRenderTextureAt i).m_NvEncInitializeParams = e.m_NvEncInitializeParams ∧
    (e.ReleaseRenderTextureAt i).m_FrameData = e.m_FrameData ∧
    (e.ReleaseRenderTextureAt i).m_FrameQueue = e.m_FrameQueue ∧
    (e.ReleaseRenderTextureAt i).m_BufferToRead = e.m_BufferToRead := by
  simp only [NvEncoder.ReleaseRenderTextureAt]
  split_ifs <;> exact ⟨rfl, rfl, rfl, rfl, rfl, rfl, rfl, rfl⟩

theorem ReleaseEncoderResources_preserves {β : Type} (proj : NvEncoder → β)
    (h1 : ∀ e i, proj (NvEncoder.ReleaseEncoderResourcesAt e i) = proj e)
    (h2 : ∀ e i, proj (NvEncoder.ReleaseRenderTextureAt e i) = proj e) (e : NvEncoder) :
    proj e.ReleaseEncoderResources = proj e := by
  simp only [NvEncoder.ReleaseEncoderResources]
  split_ifs
  · rfl
  · rw [foldl_preserves proj _ h2, foldl_preserves proj _ h1]

theorem stopDispatcher_async (e : NvEncoder) : e.stopDispatcher.m_IsAsync = false := by
  by_cases ha : e.m_IsAsync = true
  · simp only [NvEncoder.stopDispatcher, ha, if_true, NvEncoder.DestroyAsyncResources]
    split_ifs <;> rfl
  · simp only [NvEncoder.stopDispatcher, ha, if_false]
    simpa using ha

theorem ReleaseEncoderResources_async (e : NvEncoder) :
    e.ReleaseEncoderResources.m_IsAsync = e.m_IsAsync :=
  ReleaseEncoderResources_preserves (fun x => x.m_IsAsync)
    (fun e i => (ReleaseEncoderResourcesAt_fields e i).1)
    (fun e i => (ReleaseRenderTextureAt_fields e i).1) e

theorem destroyEncoderSession_fields (e : NvEncoder) :
    e.destroyEncoderSession.m_HEncoder = 0 ∧
    e.destroyEncoderSession.m_IsAsync = e.m_IsAsync ∧
    e.destroyEncoderSession.m_FrameQueue = e.m_FrameQueue := by
  by_cases h : (e.m_HEncoder != 0) = true
  · simp [NvEncoder.destroyEncoderSession, h]
  · simp only [NvEncoder.destroyEncoderSession, h, if_false]
    exact ⟨by simpa using h, rfl, rfl⟩

theorem UnloadModule_fields (e : NvEncoder) :
    e.UnloadModule.m_HModule = 0 ∧
    e.UnloadModule.m_HEncoder = e.m_HEncoder ∧
    e.UnloadModule.m_IsAsync = e.m_IsAsync ∧
    e.UnloadModule.m_FrameQueue = e.m_FrameQueue := by
  by_cases h : (e.m_HModule != 0) = true
  · simp [NvEncoder.UnloadModule, h]
  · simp only [NvEncoder.UnloadModule, h, if_false]
    exact ⟨by simpa using h, rfl, rfl, rfl⟩

theorem DestroyResources_fields (e : NvEncoder) :
    e.DestroyResources.m_IsAsync = false ∧
    e.DestroyResources.m_InitializationResult = ENvencStatus.NotInitialized ∧
    e.DestroyResources.m_HEncoder = 0 ∧
    e.DestroyResources.m_HModule = 0 ∧
    e.DestroyResources.m_FrameQueue = [] := by
  unfold NvEncoder.DestroyResources
  refine ⟨?_, rfl, ?_, ?_, ?_⟩
  · show (NvEncoder.UnloadModule _).m_IsAsync = false
    rw [(UnloadModule_fields _).2.2.1, (destroyEncoderSession_fields _).2.1]
    show (NvEncoder.ReleaseEncoderResources _).m_IsAsync = false
    rw [ReleaseEncoderResources_async, stopDispatcher_async]
  · show (NvEncoder.UnloadModule _).m_HEncoder = 0
    rw [(UnloadModule_fields _).2.1, (destroyEncoderSession_fields _).1]
  · exact (UnloadModule_fields _).1
  · show (NvEncoder.UnloadModule _).m_FrameQueue = []
    rw [(UnloadModule_fields _).2.2.2, (destroyEncoderSession_fields _).2.2]
    rfl

theorem DestroyResources_destroyed (d : NvEncoder) (h1 : d.m_IsAsync = false)
    (h2 : d.m_InitializationResult = ENvencStatus.NotInitialized) (h3 : d.m_HEncoder = 0)
    (h4 : d.m_HModule = 0) (h5 : d.m_FrameQueue = []) : d.DestroyResources = d := by
  obtain ⟨hm, he, p, c, ir, idr, fd, fc, gc, nv, rt, bf, fq, fqf, ev, br, th, ia, calls⟩ := d
  simp only at h1 h2 h3 h4 h5
  subst h1 h2 h3 h4 h5
  simp [NvEncoder.DestroyResources, NvEncoder.stopDispatcher, NvEncoder.ReleaseEncoderResources,
    NvEncoder.ClearEncodedFrameQueue, NvEncoder.destroyEncoderSession, NvEncoder.UnloadModule]

/-- C20. For every session state, a second `DestroyResources` returns the state
the first one left, log of external calls included: the session state is the
same and the second call issues no encoder, event or module release call. -/
theorem C20_destroy_resources_idempotent (e : NvEncoder) :
    e.DestroyResources.DestroyResources = e.DestroyResources ∧
      e.DestroyResources.DestroyResources.calls = e.DestroyResources.calls := by
  obtain ⟨h1, h2, h3, h4, h5⟩ := DestroyResources_fields e
  have h := DestroyResources_destroyed e.DestroyResources h1 h2 h3 h4 h5
  exact ⟨h, by rw [h]⟩

/-! ## Failures while encoding -/

/-- C14. When `GetSequenceParams` fails, because `nvEncGetSequenceParams` fails
or because its loop finds no second start code, `AddEncodedFrame` still
enqueues exactly one frame: the queue is the old one, without its oldest
frame when it was full, followed by one frame that carries the image bytes of
the slot, the timestamp and the keyframe flag, with empty `spsSequence` and
`ppsSequence`. -/
theorem C14_parameter_set_failure_keeps_frame (e : NvEncoder) (frame timestamp : Nat)
    (isKeyFrame : Bool) (seq : NvEncoder.SequenceParamsReply)
    (hfail : seq.errorCode ≠ NV_ENC_SUCCESS ∨
      NvEncoder.findStartCode seq.spsppsData seq.spsppsSize (seq.spsppsSize + 1) 4 = none) :
    NvEncoder.GetSequenceParams seq = ([], []) ∧
    (e.AddEncodedFrame frame timestamp isKeyFrame seq).m_FrameQueue =
      (if e.m_FrameQueue.length < k_MaxQueueLength then e.m_FrameQueue else e.m_FrameQueue.tail) ++
        [{ spsSequence := []
           ppsSequence := []
           imageData := (e.m_BufferedFrames frame).encodedFrame
           timestamp := timestamp
           isKeyFrame := isKeyFrame }] := by
  have hseq : NvEncoder.GetSequenceParams seq = ([], []) := by
    unfold NvEncoder.GetSequenceParams
    rcases hfail with h | h
    · have : (seq.errorCode != NV_ENC_SUCCESS) = true := by simpa using h
      rw [if_pos this]
    · split_ifs
      · rfl
      · rw [h]
  refine ⟨hseq, ?_⟩
  rw [AddEncodedFrame_queue]
  simp [NvEncoder.encodedFrameOf, hseq]

theorem C14_parameter_set_failure_keeps_frame_witness :
    ((sampleSequenceParamsNoStartCode.errorCode ≠ NV_ENC_SUCCESS ∨
        NvEncoder.findStartCode sampleSequenceParamsNoStartCode.spsppsData
          sampleSequenceParamsNoStartCode.spsppsSize
          (sampleSequenceParamsNoStartCode.spsppsSize + 1) 4 = none) ∧
      twoFrameSession.m_FrameQueue.length = 2) ∧
    NvEncoder.GetSequenceParams sampleSequenceParamsNoStartCode = ([], []) ∧
    (twoFrameSession.AddEncodedFrame 0 9 true sampleSequenceParamsNoStartCode).m_FrameQueue =
      (if twoFrameSession.m_FrameQueue.length < k_MaxQueueLength then twoFrameSession.m_FrameQueue
        else twoFrameSession.m_FrameQueue.tail) ++
        [{ spsSequence := []
           ppsSequence := []
           imageData := (twoFrameSession.m_BufferedFrames 0).encodedFrame
           timestamp := 9
           isKeyFrame := true }] :=
  ⟨⟨Or.inr (by decide), by decide⟩,
    C14_parameter_set_failure_keeps_frame twoFrameSession 0 9 true sampleSequenceParamsNoStartCode
      (Or.inr (by decide))⟩

theorem EncodeFrame_rejected (e : NvEncoder) (src ts : Nat) (r : NvEncoder.EncodeReply)
    (h : (e.m_BufferedFrames (e.m_FrameCount % k_BufferedFrameNum)).isEncoding = true) :
    e.EncodeFrame src ts r =
      { e with
        calls := (e.CopyBufferResources (e.m_FrameCount % k_BufferedFrameNum) src r.deviceCopy).2.calls } ∨
    e.EncodeFrame src ts r = e := by
  obtain ⟨c, hc⟩ := CopyBufferResources_snd e (e.m_FrameCount % k_BufferedFrameNum) src r.deviceCopy
  by_cases hsrc : (src == 0) = true
  · right
    simp [NvEncoder.EncodeFrame, hsrc]
  · left
    have hcalls : (e.CopyBufferResources (e.m_FrameCount % k_BufferedFrameNum) src
        r.deviceCopy).2.calls = c := by rw [hc]
    have hslot : ((e.CopyBufferResources (e.m_FrameCount % k_BufferedFrameNum) src
        r.deviceCopy).2.m_BufferedFrames (e.m_FrameCount % k_BufferedFrameNum)).isEncoding =
        true := by rw [hc]; exact h
    rw [hcalls]
    simp only [NvEncoder.EncodeFrame]
    rw [if_neg hsrc]
    by_cases hcopy : (!(e.CopyBufferResources (e.m_FrameCount % k_BufferedFrameNum) src
        r.deviceCopy).1) = true
    · rw [if_pos hcopy, hc]
    · rw [if_neg hcopy, if_pos hslot, hc]

theorem CopyBufferResources_calls (e : NvEncoder) (i src : Nat) (d : Bool) :
    (e.CopyBufferResources i src d).2.calls = e.calls ∨
    (e.CopyBufferResources i src d).2.calls =
      e.calls ++ [NvCall.ConvertRGBToNV12 (e.m_RenderTextures i)] ∨
    (e.CopyBufferResources i src d).2.calls =
      e.calls ++ [NvCall.CopyResource (e.m_RenderTextures i)] := by
  simp only [NvEncoder.CopyBufferResources]
  split_ifs
  · exact Or.inl rfl
  · exact Or.inr (Or.inl rfl)
  · exact Or.inr (Or.inr rfl)
  · exact Or.inr (Or.inr rfl)

/-- C15. When the slot at index `m_FrameCount % 4` has `isEncoding = true`,
`EncodeFrame` changes nothing but the log of external calls, to which it adds
at most the device copy or conversion made by `CopyBufferResources`: there is
no `nvEncEncodePicture`, and the frame counter, the GOP counter, every slot,
`m_BufferToRead` and `m_FrameQueue` are unchanged. -/
theorem C15_ring_full_rejection (e : NvEncoder) (frameSourceData timeStamp : Nat)
    (r : NvEncoder.EncodeReply)
    (h : (e.m_BufferedFrames (e.m_FrameCount % k_BufferedFrameNum)).isEncoding = true) :
    ∃ extra : List NvCall,
      e.EncodeFrame frameSourceData timeStamp r = { e with calls := e.calls ++ extra } ∧
      (extra = [] ∨
        extra = [NvCall.ConvertRGBToNV12 (e.m_RenderTextures (e.m_FrameCount % k_BufferedFrameNum))] ∨
        extra = [NvCall.CopyResource (e.m_RenderTextures (e.m_FrameCount % k_BufferedFrameNum))]) ∧
      (e.EncodeFrame frameSourceData timeStamp r).m_FrameCount = e.m_FrameCount ∧
      (e.EncodeFrame frameSourceData timeStamp r).m_GOPCount = e.m_GOPCount ∧
      (e.EncodeFrame frameSourceData timeStamp r).m_BufferedFrames = e.m_BufferedFrames ∧
      (e.EncodeFrame frameSourceData timeStamp r).m_BufferToRead = e.m_BufferToRead ∧
      (e.EncodeFrame frameSourceData timeStamp r).m_FrameQueue = e.m_FrameQueue := by
  rcases EncodeFrame_rejected e frameSourceData timeStamp r h with hr | hr
  · rcases CopyBufferResources_calls e (e.m_FrameCount % k_BufferedFrameNum) frameSourceData
      r.deviceCopy with hc | hc | hc
    · exact ⟨[], by rw [hr, hc]; simp, Or.inl rfl, by rw [hr], by rw [hr], by rw [hr], by rw [hr],
        by rw [hr]⟩
    · exact ⟨_, by rw [hr, hc], Or.inr (Or.inl rfl), by rw [hr], by rw [hr], by rw [hr],
        by rw [hr], by rw [hr]⟩
    · exact ⟨_, by rw [hr, hc], Or.inr (Or.inr rfl), by rw [hr], by rw [hr], by rw [hr],
        by rw [hr], by rw [hr]⟩
  · exact ⟨[], by rw [hr]; simp, Or.inl rfl, by rw [hr], by rw [hr], by rw [hr], by rw [hr],
      by rw [hr]⟩

theorem C15_ring_full_rejection_witness :
    (ringFullSession.m_FrameCount = 4 ∧
      (ringFullSession.m_BufferedFrames (ringFullSession.m_FrameCount % k_BufferedFrameNum)).isEncoding =
        true) ∧
    ∃ extra : List NvCall,
      ringFullSession.EncodeFrame 77 132
          { deviceCopy := true, encodePicture := 0, process := sampleProcessReply 132 } =
        { ringFullSession with calls := ringFullSession.calls ++ extra } ∧
      (extra = [] ∨
        extra = [NvCall.ConvertRGBToNV12
          (ringFullSession.m_RenderTextures (ringFullSession.m_FrameCount % k_BufferedFrameNum))] ∨
        extra = [NvCall.CopyResource
          (ringFullSession.m_RenderTextures (ringFullSession.m_FrameCount % k_BufferedFrameNum))]) ∧
      (ringFullSession.EncodeFrame 77 132
          { deviceCopy := true, encodePicture := 0, process := sampleProcessReply 132 }).m_FrameCount =
        ringFullSession.m_FrameCount ∧
      (ringFullSession.EncodeFrame 77 132
          { deviceCopy := true, encodePicture := 0, process := sampleProcessReply 132 }).m_GOPCount =
        ringFullSession.m_GOPCount ∧
      (ringFullSession.EncodeFrame 77 132
          { deviceCopy := true, encodePicture := 0,
            process := sampleProcessReply 132 }).m_BufferedFrames =
        ringFullSession.m_BufferedFrames ∧
      (ringFullSession.EncodeFrame 77 132
          { deviceCopy := true, encodePicture := 0,
            process := sampleProcessReply 132 }).m_BufferToRead =
        ringFullSession.m_BufferToRead ∧
      (ringFullSession.EncodeFrame 77 132
          { deviceCopy := true, encodePicture := 0, process := sampleProcessReply 132 }).m_FrameQueue =
        ringFullSession.m_FrameQueue :=
  ⟨⟨by decide, by decide⟩,
    C15_ring_full_rejection ringFullSession 77 132
      { deviceCopy := true, encodePicture := 0, process := sampleProcessReply 132 } (by decide)⟩

/-- C16. When `nvEncLockBitstream` fails during `ProcessEncodedFrame` on a slot
with `isEncoding = true`, the slot is left free, but a frame with the
timestamp and the keyframe flag of the submission is pushed onto the queue all
the same: the failure is only logged. -/
theorem C16_failed_lock_still_pushes (e : NvEncoder) (frame timestamp : Nat) (isKeyFrame : Bool)
    (r : NvEncoder.ProcessReply) (hslot : (e.m_BufferedFrames frame).isEncoding = true)
    (_hlock : r.lockStatus ≠ NV_ENC_SUCCESS) :
    ((e.ProcessEncodedFrame frame timestamp isKeyFrame r).m_BufferedFrames frame).isEncoding =
      false ∧
    ∃ f : EncodedFrame, f.timestamp = timestamp ∧ f.isKeyFrame = isKeyFrame ∧
      (e.ProcessEncodedFrame frame timestamp isKeyFrame r).m_FrameQueue =
        (if e.m_FrameQueue.length < k_MaxQueueLength then e.m_FrameQueue else e.m_FrameQueue.tail) ++
          [f] := by
  obtain ⟨⟨f, hf, hq⟩, _, _, _, _, _, hfree, _⟩ :=
    ProcessEncodedFrame_encoding e frame timestamp isKeyFrame r hslot
  have hf1 : f.timestamp = timestamp := congrArg Prod.fst hf
  have hf2 : f.isKeyFrame = isKeyFrame := congrArg Prod.snd hf
  exact ⟨hfree, f, hf1, hf2, hq⟩

theorem C16_failed_lock_still_pushes_witness :
    ((ringFullSession.m_BufferedFrames 0).isEncoding = true ∧
      lockFailedReply.lockStatus ≠ NV_ENC_SUCCESS ∧ ringFullSession.m_FrameQueue = []) ∧
    ((ringFullSession.ProcessEncodedFrame 0 0 true lockFailedReply).m_BufferedFrames 0).isEncoding =
      false ∧
    ∃ f : EncodedFrame, f.timestamp = 0 ∧ f.isKeyFrame = true ∧
      (ringFullSession.ProcessEncodedFrame 0 0 true lockFailedReply).m_FrameQueue =
        (if ringFullSession.m_FrameQueue.length < k_MaxQueueLength then
            ringFullSession.m_FrameQueue
          else ringFullSession.m_FrameQueue.tail) ++ [f] :=
  ⟨⟨by decide, by decide, by decide⟩,
    C16_failed_lock_still_pushes ringFullSession 0 0 true lockFailedReply (by decide) (by decide)⟩

/-! ## Initialisation status -/

theorem LoadCodec_status (e : NvEncoder) (r : NvEncoder.LoadCodecReply) :
    ((e.LoadCodec r).1 = ENvencStatus.Success ↔ r.loads = true) ∧
    (e.LoadCodec r).2.m_RenderTextures = e.m_RenderTextures ∧
    (e.LoadCodec r).2.m_BufferedFrames = e.m_BufferedFrames ∧
    (e.LoadCodec r).2.m_FrameData = e.m_FrameData ∧
    (e.LoadCodec r).2.m_ForceNV12 = e.m_ForceNV12 ∧
    (e.LoadCodec r).2.calls.filter NvCall.isRingAllocation =
      e.calls.filter NvCall.isRingAllocation := by
  simp only [NvEncoder.LoadCodec, NvEncoder.LoadCodecReply.loads]
  split_ifs <;> simp_all [List.filter_append, NvCall.isRingAllocation]

theorem InitEncoder_opened (e : NvEncoder) (r : NvEncoder.InitReply)
    (h0 : e.m_InitializationResult = ENvencStatus.NotInitialized)
    (hl : r.loadCodec.loads = true) (hd : r.device ≠ 0)
    (ho : r.openSessionStatus = NV_ENC_SUCCESS) :
    ∃ e3 : NvEncoder,
      e3.m_RenderTextures = e.m_RenderTextures ∧
      e3.m_BufferedFrames = e.m_BufferedFrames ∧
      e3.m_FrameData = e.m_FrameData ∧
      e3.m_ForceNV12 = e.m_ForceNV12 ∧
      e3.calls.filter NvCall.isRingAllocation = e.calls.filter NvCall.isRingAllocation ∧
      e.InitEncoder r =
        (ENvencStatus.Success,
          { (e3.SetEncoderParameters r.parameters) with
            calls := (e3.SetEncoderParameters r.parameters).calls ++
              [NvCall.InitializeConverter (e3.SetEncoderParameters r.parameters).m_FrameData.width
                (e3.SetEncoderParameters r.parameters).m_FrameData.height]
            m_InitializationResult := ENvencStatus.Success }) := by
  obtain ⟨hst, ht, hb, hf, hn, hc⟩ := LoadCodec_status e r.loadCodec
  have hst := hst.2 hl
  refine ⟨{ (e.LoadCodec r.loadCodec).2 with
      m_InitializationResult := ENvencStatus.Success
      m_HEncoder := r.hEncoder
      calls := (e.LoadCodec r.loadCodec).2.calls ++ [NvCall.GetDevice] ++
        [NvCall.nvEncOpenEncodeSessionEx] }, ht, hb, hf, hn, ?_, ?_⟩
  · simp [List.filter_append, NvCall.isRingAllocation, hc]
  · simp [NvEncoder.InitEncoder, h0, hst, hd, ho]

theorem InitEncoderResources_ring (e : NvEncoder) (r : Nat → NvEncoder.ResourceReply) (i : Nat)
    (hi : i < k_BufferedFrameNum) :
    (e.InitEncoderResources r).m_RenderTextures i = (r i).texture ∧
    ((e.InitEncoderResources r).m_BufferedFrames i).inputFrame.registeredResource =
      (r i).registeredResource ∧
    ((e.InitEncoderResources r).m_BufferedFrames i).inputFrame.mappedResource =
      (r i).mappedResource ∧
    ((e.InitEncoderResources r).m_BufferedFrames i).outputFrame = (r i).bitstreamBuffer ∧
    NvCall.CreateDefaultTexture (toUInt32 e.m_FrameData.width) (toUInt32 e.m_FrameData.height)
      e.m_ForceNV12 ∈ (e.InitEncoderResources r).calls := by
  have hk : k_BufferedFrameNum = 4 := rfl
  rw [hk] at hi
  have hcall : NvCall.CreateDefaultTexture (toUInt32 e.m_FrameData.width)
      (toUInt32 e.m_FrameData.height) e.m_ForceNV12 ∈ (e.InitEncoderResources r).calls := by
    simp [NvEncoder.InitEncoderResources, NvEncoder.InitEncoderResourcesAt, k_BufferedFrameNum,
      List.range, List.range.loop]
  interval_cases i <;> exact ⟨rfl, rfl, rfl, rfl, hcall⟩

theorem SetEncoderParameters_initialize_failed (e : NvEncoder) (r : NvEncoder.SetParametersReply)
    (h : r.initializeStatus ≠ NV_ENC_SUCCESS) :
    (e.SetEncoderParameters r).m_RenderTextures = e.m_RenderTextures ∧
    (e.SetEncoderParameters r).m_BufferedFrames = e.m_BufferedFrames ∧
    (e.SetEncoderParameters r).calls.filter NvCall.isRingAllocation =
      e.calls.filter NvCall.isRingAllocation := by
  have h' : (r.initializeStatus != NV_ENC_SUCCESS) = true := by simpa using h
  simp only [NvEncoder.SetEncoderParameters, h', if_true]
  split_ifs <;> simp [List.filter_append, NvCall.isRingAllocation]

theorem SetEncoderParameters_initialized (e : NvEncoder) (r : NvEncoder.SetParametersReply)
    (h : r.initializeStatus = NV_ENC_SUCCESS) (i : Nat) (hi : i < k_BufferedFrameNum) :
    (e.SetEncoderParameters r).m_RenderTextures i = (r.resources i).texture ∧
    ((e.SetEncoderParameters r).m_BufferedFrames i).inputFrame.registeredResource =
      (r.resources i).registeredResource ∧
    ((e.SetEncoderParameters r).m_BufferedFrames i).inputFrame.mappedResource =
      (r.resources i).mappedResource ∧
    ((e.SetEncoderParameters r).m_BufferedFrames i).outputFrame =
      (r.resources i).bitstreamBuffer ∧
    NvCall.CreateDefaultTexture (toUInt32 e.m_FrameData.width) (toUInt32 e.m_FrameData.height)
      e.m_ForceNV12 ∈ (e.SetEncoderParameters r).calls := by
  have h' : (r.initializeStatus != NV_ENC_SUCCESS) = false := by simp [h]
  simp only [NvEncoder.SetEncoderParameters, h', Bool.false_eq_true, if_false]
  split_ifs <;> exact InitEncoderResources_ring _ _ i hi

/-- C17. When the codec loads, the device is present and the session opens,
but `nvEncInitializeEncoder` fails, `InitEncoder` still returns `Success`,
although no frame resource ring was allocated: the render textures and the
buffered frames are untouched and no allocation call was made. -/
theorem C17_success_without_initialized_encoder (e : NvEncoder) (r : NvEncoder.InitReply)
    (h0 : e.m_InitializationResult = ENvencStatus.NotInitialized)
    (hl : r.loadCodec.loads = true) (hd : r.device ≠ 0)
    (ho : r.openSessionStatus = NV_ENC_SUCCESS)
    (hi : r.parameters.initializeStatus ≠ NV_ENC_SUCCESS) :
    (e.InitEncoder r).1 = ENvencStatus.Success ∧
    (e.InitEncoder r).2.m_RenderTextures = e.m_RenderTextures ∧
    (e.InitEncoder r).2.m_BufferedFrames = e.m_BufferedFrames ∧
    (e.InitEncoder r).2.calls.filter NvCall.isRingAllocation =
      e.calls.filter NvCall.isRingAllocation := by
  obtain ⟨e3, ht, hb, _, _, hc, heq⟩ := InitEncoder_opened e r h0 hl hd ho
  obtain ⟨st, sb, sc⟩ := SetEncoderParameters_initialize_failed e3 r.parameters hi
  rw [heq]
  refine ⟨rfl, st.trans ht, sb.trans hb, ?_⟩
  simp only [List.filter_append, sc, hc]
  simp [NvCall.isRingAllocation]

theorem C17_success_without_initialized_encoder_witness :
    (sampleEncoder.m_InitializationResult = ENvencStatus.NotInitialized ∧
      initializeFailedReply.loadCodec.loads = true ∧ initializeFailedReply.device ≠ 0 ∧
      initializeFailedReply.openSessionStatus = NV_ENC_SUCCESS ∧
      initializeFailedReply.parameters.initializeStatus ≠ NV_ENC_SUCCESS ∧
      (List.range 4).map sampleEncoder.m_RenderTextures = [0, 0, 0, 0] ∧
      sampleEncoder.calls = []) ∧
    (sampleEncoder.InitEncoder initializeFailedReply).1 = ENvencStatus.Success ∧
    (sampleEncoder.InitEncoder initializeFailedReply).2.m_RenderTextures =
      sampleEncoder.m_RenderTextures ∧
    (sampleEncoder.InitEncoder initializeFailedReply).2.m_BufferedFrames =
      sampleEncoder.m_BufferedFrames ∧
    (sampleEncoder.InitEncoder initializeFailedReply).2.calls.filter NvCall.isRingAllocation =
      sampleEncoder.calls.filter NvCall.isRingAllocation :=
  ⟨⟨by decide, by decide, by decide, by decide, by decide, by decide, by decide⟩,
    C17_success_without_initialized_encoder sampleEncoder initializeFailedReply (by decide)
      (by decide) (by decide) (by decide) (by decide)⟩

/-- C18. When the codec loads and `GetDevice()` is null, `InitEncoder` returns
`NotInitialized` while `m_InitializationResult` stays `Success`, so
`IsInitialized()` returns true after a call that did not return `Success`. -/
theorem C18_null_device_leaves_initialized (e : NvEncoder) (r : NvEncoder.InitReply)
    (h0 : e.m_InitializationResult = ENvencStatus.NotInitialized)
    (hl : r.loadCodec.loads = true) (hd : r.device = 0) :
    (e.InitEncoder r).1 = ENvencStatus.NotInitialized ∧
    (e.InitEncoder r).2.IsInitialized = true := by
  have hst := (LoadCodec_status e r.loadCodec).1.2 hl
  simp [NvEncoder.InitEncoder, h0, hst, hd, NvEncoder.IsInitialized]

theorem C18_null_device_leaves_initialized_witness :
    (sampleEncoder.m_InitializationResult = ENvencStatus.NotInitialized ∧
      nullDeviceReply.loadCodec.loads = true ∧ nullDeviceReply.device = 0) ∧
    (sampleEncoder.InitEncoder nullDeviceReply).1 = ENvencStatus.NotInitialized ∧
    (sampleEncoder.InitEncoder nullDeviceReply).2.IsInitialized = true :=
  ⟨⟨by decide, by decide, by decide⟩,
    C18_null_device_leaves_initialized sampleEncoder nullDeviceReply (by decide) (by decide)
      (by decide)⟩

/-- C19. For settings with a width above 3840, a height above 2160 or a
negative width or height, `InitEncoder` on a fresh encoder returns `Success`
as soon as the codec loads, the device is present and the session opens,
whatever `nvEncInitializeEncoder` answers; when that call succeeds the frame
resource ring is allocated at the out-of-range size. -/
theorem C19_out_of_range_resolution_accepted (other : NvencEncoderSessionData) (forceNv12 : Bool)
    (u : NvEncoder.Uninitialized) (r : NvEncoder.InitReply)
    (_hsize : other.width > k_MaxWidth ∨ other.height > k_MaxHeight ∨ other.width < 0 ∨
      other.height < 0)
    (hl : r.loadCodec.loads = true) (hd : r.device ≠ 0)
    (ho : r.openSessionStatus = NV_ENC_SUCCESS) :
    ((NvEncoder.new other forceNv12 u).InitEncoder r).1 = ENvencStatus.Success ∧
    (r.parameters.initializeStatus = NV_ENC_SUCCESS →
      (∀ i, i < k_BufferedFrameNum →
        ((NvEncoder.new other forceNv12 u).InitEncoder r).2.m_RenderTextures i =
          (r.parameters.resources i).texture) ∧
      NvCall.CreateDefaultTexture (toUInt32 other.width) (toUInt32 other.height) forceNv12 ∈
        ((NvEncoder.new other forceNv12 u).InitEncoder r).2.calls) := by
  obtain ⟨e3, _, _, hf, hn, _, heq⟩ :=
    InitEncoder_opened (NvEncoder.new other forceNv12 u) r rfl hl hd ho
  rw [heq]
  refine ⟨rfl, fun hi => ⟨fun i hlt => ?_, ?_⟩⟩
  · exact (SetEncoderParameters_initialized e3 r.parameters hi i hlt).1
  · have hcall := (SetEncoderParameters_initialized e3 r.parameters hi 0 (by decide)).2.2.2.2
    rw [hf, hn] at hcall
    exact List.mem_append_left _ hcall

theorem C19_out_of_range_resolution_accepted_witness :
    ((oversizeSettings.width > k_MaxWidth ∨ oversizeSettings.height > k_MaxHeight ∨
        oversizeSettings.width < 0 ∨ oversizeSettings.height < 0) ∧
      initializeFailedReply.parameters.initializeStatus ≠ NV_ENC_SUCCESS) ∧
    (((NvEncoder.new oversizeSettings false zeroUninitialized).InitEncoder
        initializeFailedReply).1 = ENvencStatus.Success ∧
      (initializeFailedReply.parameters.initializeStatus = NV_ENC_SUCCESS →
        (∀ i, i < k_BufferedFrameNum →
          ((NvEncoder.new oversizeSettings false zeroUninitialized).InitEncoder
            initializeFailedReply).2.m_RenderTextures i =
            (initializeFailedReply.parameters.resources i).texture) ∧
        NvCall.CreateDefaultTexture (toUInt32 oversizeSettings.width)
            (toUInt32 oversizeSettings.height) false ∈
          ((NvEncoder.new oversizeSettings false zeroUninitialized).InitEncoder
            initializeFailedReply).2.calls)) ∧
    (((NvEncoder.new oversizeSettings false zeroUninitialized).InitEncoder
        (sampleInitReply 0)).1 = ENvencStatus.Success ∧
      ((sampleInitReply 0).parameters.initializeStatus = NV_ENC_SUCCESS →
        (∀ i, i < k_BufferedFrameNum →
          ((NvEncoder.new oversizeSettings false zeroUninitialized).InitEncoder
            (sampleInitReply 0)).2.m_RenderTextures i =
            ((sampleInitReply 0).parameters.resources i).texture) ∧
        NvCall.CreateDefaultTexture (toUInt32 oversizeSettings.width)
            (toUInt32 oversizeSettings.height) false ∈
          ((NvEncoder.new oversizeSettings false zeroUninitialized).InitEncoder
            (sampleInitReply 0)).2.calls)) :=
  ⟨⟨by decide, by decide⟩,
    C19_out_of_range_resolution_accepted oversizeSettings false zeroUninitialized
      initializeFailedReply (by decide) (by decide) (by decide) (by decide),
    C19_out_of_range_resolution_accepted oversizeSettings false zeroUninitialized
      (sampleInitReply 0) (by decide) (by decide) (by decide) (by decide)⟩

/-! ## Reconfiguration and the keyframe schedule -/

theorem foldl_invariant {α : Type} (P : NvEncoder → Prop) (f : NvEncoder → α → NvEncoder)
    (h : ∀ e i, P e → P (f e i)) (l : List α) :
    ∀ e, P e → P (l.foldl f e) := by
  induction l with
  | nil => intro e he; exact he
  | cons i l ih => intro e he; rw [List.foldl_cons]; exact ih _ (h e i he)

theorem ReleaseEncoderResources_keeps_call (e : NvEncoder) (c : NvCall) (h : c ∈ e.calls) :
    c ∈ e.ReleaseEncoderResources.calls := by
  simp only [NvEncoder.ReleaseEncoderResources]
  split_ifs
  · exact h
  · refine foldl_invariant (fun x => c ∈ x.calls) _ ?_ _ _
      (foldl_invariant (fun x => c ∈ x.calls) _ ?_ _ _ h)
    · intro x i hx
      simp only [NvEncoder.ReleaseRenderTextureAt]
      split_ifs
      · exact List.mem_append_left _ hx
      · exact hx
    · intro x i hx
      simp only [NvEncoder.ReleaseEncoderResourcesAt, NvEncoder.ReleaseFrameInputBuffer]
      split_ifs
      · exact List.mem_append_left _ (List.mem_append_left _ hx)
      · exact List.mem_append_left _ hx

theorem InitEncoderResources_keeps_call (e : NvEncoder) (r : Nat → NvEncoder.ResourceReply)
    (c : NvCall) (h : c ∈ e.calls) : c ∈ (e.InitEncoderResources r).calls := by
  simp only [NvEncoder.InitEncoderResources]
  refine foldl_invariant (fun x => c ∈ x.calls) _ ?_ _ _ h
  intro x i hx
  exact List.mem_append_left _ hx

theorem ReleaseEncoderResources_counters (e : NvEncoder) :
    e.ReleaseEncoderResources.m_GOPCount = e.m_GOPCount ∧
    e.ReleaseEncoderResources.m_FrameCount = e.m_FrameCount ∧
    e.ReleaseEncoderResources.m_NvEncInitializeParams = e.m_NvEncInitializeParams :=
  ⟨ReleaseEncoderResources_preserves (fun x => x.m_GOPCount)
      (fun e i => (ReleaseEncoderResourcesAt_fields e i).2.1)
      (fun e i => (ReleaseRenderTextureAt_fields e i).2.1) e,
    ReleaseEncoderResources_preserves (fun x => x.m_FrameCount)
      (fun e i => (ReleaseEncoderResourcesAt_fields e i).2.2.1)
      (fun e i => (ReleaseRenderTextureAt_fields e i).2.2.1) e,
    ReleaseEncoderResources_preserves (fun x => x.m_NvEncInitializeParams)
      (fun e i => (ReleaseEncoderResourcesAt_fields e i).2.2.2.2.1)
      (fun e i => (ReleaseRenderTextureAt_fields e i).2.2.2.2.1) e⟩

theorem UpdateSettings_counters (e : NvEncoder) (r : Nat → NvEncoder.ResourceReply) :
    (e.UpdateSettings r).m_GOPCount = e.m_GOPCount ∧
    (e.UpdateSettings r).m_FrameCount = e.m_FrameCount := by
  unfold NvEncoder.UpdateSettings
  lift_lets
  intro p0 frc p1 wc p2 hc p3 c0 brc src c1 sc stc e1 e2 e3
  have hg : e3.m_GOPCount = e.m_GOPCount :=
    (InitEncoderResources_fields e2.ReleaseEncoderResources r).1.trans
      (ReleaseEncoderResources_counters e2).1
  have hinit : ∀ x : NvEncoder, (x.InitEncoderResources r).m_FrameCount = x.m_FrameCount :=
    fun _ => rfl
  have hf : e3.m_FrameCount = e.m_FrameCount :=
    (hinit e2.ReleaseEncoderResources).trans (ReleaseEncoderResources_counters e2).2.1
  split_ifs
  · exact ⟨hg, hf⟩
  · exact ⟨rfl, rfl⟩
  · exact ⟨rfl, rfl⟩

theorem UpdateSettings_reconfigures (e : NvEncoder) (r : Nat → NvEncoder.ResourceReply)
    (h : e.m_NvEncInitializeParams.encodeWidth ≠ toUInt32 e.m_FrameData.width ∨
      e.m_NvEncInitializeParams.encodeHeight ≠ toUInt32 e.m_FrameData.height) :
    NvCall.nvEncReconfigureEncoder (e.UpdateSettings r).m_NvEncInitializeParams 1 1 ∈
      (e.UpdateSettings r).calls := by
  unfold NvEncoder.UpdateSettings
  lift_lets
  intro p0 frc p1 wc p2 hc p3 c0 brc src c1 sc stc e1 e2 e3
  have hsc : sc = true := by
    rcases h with h | h
    · have : wc = true := by
        simp only [wc, p1, p0, frc]
        split_ifs <;> simpa using h
      simp [sc, this]
    · have : hc = true := by
        simp only [hc, p2, wc, p1, p0, frc]
        split_ifs <;> simpa using h
      simp [sc, this]
  have hstc : stc = true := by
    have : (wc || hc) = true := hsc
    simp only [stc]
    rcases (Bool.or_eq_true_iff).1 this with h1 | h1 <;> simp [h1]
  rw [if_pos hstc, if_pos hsc]
  have hp : e3.m_NvEncInitializeParams = p3 :=
    (InitEncoderResources_fields e2.ReleaseEncoderResources r).2.2.2.2.1.trans
      (ReleaseEncoderResources_counters e2).2.2
  have hmem2 : NvCall.nvEncReconfigureEncoder p3 1 1 ∈ e2.calls :=
    List.mem_append_right _ (List.mem_singleton_self _)
  have hmem : NvCall.nvEncReconfigureEncoder p3 1 1 ∈ e3.calls :=
    InitEncoderResources_keeps_call e2.ReleaseEncoderResources r _
      (ReleaseEncoderResources_keeps_call e2 _ hmem2)
  show NvCall.nvEncReconfigureEncoder e3.m_NvEncInitializeParams 1 1 ∈ e3.calls ++ _
  rw [hp]
  exact List.mem_append_left _ hmem

theorem EncodeFrame_submits (e : NvEncoder) (src ts : Nat) (r : NvEncoder.EncodeReply)
    (h : e.encodeAccepted src r = true) :
    ∃ inputBuffer outputBitstream completionEvent post,
      (e.EncodeFrame src ts r).calls =
        (e.CopyBufferResources (e.m_FrameCount % k_BufferedFrameNum) src r.deviceCopy).2.calls ++
          [NvCall.nvEncEncodePicture inputBuffer outputBitstream
            (if e.m_GOPCount % k_GOPSize == 0 then
              NV_ENC_PIC_FLAG_FORCEIDR ||| NV_ENC_PIC_FLAG_OUTPUT_SPSPPS else 0)
            e.m_FrameCount completionEvent] ++ post := by
  obtain ⟨hsrc, hcopy, henc, hpic⟩ := (encodeAccepted_iff e src r).1 h
  obtain ⟨c, hc⟩ := CopyBufferResources_snd e (e.m_FrameCount % k_BufferedFrameNum) src r.deviceCopy
  by_cases ha : e.m_NvEncInitializeParams.enableEncodeAsync = 1
  · refine ⟨(e.m_BufferedFrames (e.m_FrameCount % k_BufferedFrameNum)).inputFrame.mappedResource,
      (e.m_BufferedFrames (e.m_FrameCount % k_BufferedFrameNum)).outputFrame,
      NvEncoder.GetCompletionEvent e (e.m_FrameCount % k_BufferedFrameNum), [], ?_⟩
    simp [NvEncoder.EncodeFrame, hsrc, hcopy, hc, henc, hpic, ha, NvEncoder.GetCompletionEvent]
  · refine ⟨(e.m_BufferedFrames (e.m_FrameCount % k_BufferedFrameNum)).inputFrame.mappedResource,
      (e.m_BufferedFrames (e.m_FrameCount % k_BufferedFrameNum)).outputFrame, 0,
      [NvCall.nvEncLockBitstream (e.m_BufferedFrames (e.m_FrameCount % k_BufferedFrameNum)).outputFrame,
        NvCall.nvEncUnlockBitstream (e.m_BufferedFrames (e.m_FrameCount % k_BufferedFrameNum)).outputFrame,
        NvCall.nvEncGetSequenceParams], ?_⟩
    simp only [NvEncoder.EncodeFrame, hsrc, hcopy, hc, henc, hpic, ha, beq_iff_eq, if_false,
      Bool.not_true, Bool.false_eq_true, bne_self_eq_false, ne_eq, not_true_eq_false,
      not_false_eq_true, NvEncoder.ProcessEncodedFrame, NvEncoder.AddEncodedFrame, setAt, if_true]
    split_ifs <;> simp

theorem UpdateEncoderSessionData_resized (e : NvEncoder) (other : NvencEncoderSessionData)
    (r : Nat → NvEncoder.ResourceReply)
    (hdata : other.width ≠ e.m_FrameData.width ∨ other.height ≠ e.m_FrameData.height) :
    e.UpdateEncoderSessionData other r =
      (true,
        NvEncoder.UpdateSettings
          { e with m_FrameData := NvencEncoderSessionData.Update e.m_FrameData other } r) := by
  have hne : NvencEncoderSessionData.eq other e.m_FrameData = false := by
    rcases hdata with h | h <;> simp [NvencEncoderSessionData.eq, h]
  simp [NvEncoder.UpdateEncoderSessionData, hne]

/-- The first frame after a resize that is not a keyframe: the synchronous
sample session has encoded one frame, so its GOP counter is 1, and is resized
from 1280x720 to 1920x1080; the next frame is accepted, submitted with picture
flags 0 and enqueued with `isKeyFrame = false`. -/
theorem C11_resize_next_frame_not_keyframe :
    oneFrameSession.m_InitializationResult = ENvencStatus.Success ∧
    (oneFrameSession.UpdateEncoderSessionData resizedSettings
        (sampleInitReply 0).parameters.resources).1 = true ∧
    resizedSession.m_NvEncInitializeParams.encodeWidth = 1920 ∧
    resizedSession.m_NvEncInitializeParams.encodeHeight = 1080 ∧
    resizedSession.encodeAccepted 77
        { deviceCopy := true, encodePicture := 0, process := sampleProcessReply 33 } = true ∧
    (resizedSession.EncodeFrame 77 33
        { deviceCopy := true, encodePicture := 0, process := sampleProcessReply 33 }).calls.drop
      resizedSession.calls.length =
        [NvCall.CopyResource 101, NvCall.nvEncEncodePicture 401 501 0 1 0,
          NvCall.nvEncLockBitstream 501, NvCall.nvEncUnlockBitstream 501,
          NvCall.nvEncGetSequenceParams] ∧
    ((resizedSession.EncodeFrame 77 33
        { deviceCopy := true, encodePicture := 0, process := sampleProcessReply 33 }).m_FrameQueue.map
      EncodedFrame.stamp) = [(0, true), (33, false)] := by
  decide

/-- C11, amended. When `UpdateEncoderSessionData` changes the width or the
height and the new size differs from the configured encode size, it returns
true, the request passed to `nvEncReconfigureEncoder` carries `forceIDR = 1`
and `resetEncoder = 1`, and the GOP counter is left as it was.  The next frame
accepted by `EncodeFrame` is submitted with the forced-IDR picture flags, and
recorded with `isKeyFrame = true`, exactly when that GOP counter is even. -/
theorem C11_resize_keeps_gop_schedule (e : NvEncoder) (other : NvencEncoderSessionData)
    (r : Nat → NvEncoder.ResourceReply) (src ts : Nat) (er : NvEncoder.EncodeReply)
    (hdata : other.width ≠ e.m_FrameData.width ∨ other.height ≠ e.m_FrameData.height)
    (hsize : e.m_NvEncInitializeParams.encodeWidth ≠ toUInt32 other.width ∨
      e.m_NvEncInitializeParams.encodeHeight ≠ toUInt32 other.height)
    (hacc : (e.UpdateEncoderSessionData other r).2.encodeAccepted src er = true) :
    (e.UpdateEncoderSessionData other r).1 = true ∧
    NvCall.nvEncReconfigureEncoder (e.UpdateEncoderSessionData other r).2.m_NvEncInitializeParams 1 1 ∈
      (e.UpdateEncoderSessionData other r).2.calls ∧
    (e.UpdateEncoderSessionData other r).2.m_GOPCount = e.m_GOPCount ∧
    (∃ inputBuffer outputBitstream completionEvent post,
      ((e.UpdateEncoderSessionData other r).2.EncodeFrame src ts er).calls =
        ((e.UpdateEncoderSessionData other r).2.CopyBufferResources
            (e.m_FrameCount % k_BufferedFrameNum) src er.deviceCopy).2.calls ++
          [NvCall.nvEncEncodePicture inputBuffer outputBitstream
            (if e.m_GOPCount % k_GOPSize == 0 then
              NV_ENC_PIC_FLAG_FORCEIDR ||| NV_ENC_PIC_FLAG_OUTPUT_SPSPPS else 0)
            e.m_FrameCount completionEvent] ++ post) ∧
    ((e.UpdateEncoderSessionData other r).2.m_NvEncInitializeParams.enableEncodeAsync = 1 →
      ((e.UpdateEncoderSessionData other r).2.EncodeFrame src ts er).m_BufferToRead =
        (e.UpdateEncoderSessionData other r).2.m_BufferToRead ++
          [{ index := e.m_FrameCount % k_BufferedFrameNum
             timestamp := ts
             isKeyFrame := e.m_GOPCount % k_GOPSize == 0 }]) ∧
    ((e.UpdateEncoderSessionData other r).2.m_NvEncInitializeParams.enableEncodeAsync ≠ 1 →
      ∃ f : EncodedFrame, f.stamp = (ts, e.m_GOPCount % k_GOPSize == 0) ∧
        ((e.UpdateEncoderSessionData other r).2.EncodeFrame src ts er).m_FrameQueue =
          (if (e.UpdateEncoderSessionData other r).2.m_FrameQueue.length < k_MaxQueueLength then
            (e.UpdateEncoderSessionData other r).2.m_FrameQueue
          else (e.UpdateEncoderSessionData other r).2.m_FrameQueue.tail) ++ [f]) := by
  rw [UpdateEncoderSessionData_resized e other r hdata] at hacc ⊢
  have hcount := UpdateSettings_counters
    { e with m_FrameData := NvencEncoderSessionData.Update e.m_FrameData other } r
  have hG : (NvEncoder.UpdateSettings
      { e with m_FrameData := NvencEncoderSessionData.Update e.m_FrameData other } r).m_GOPCount =
        e.m_GOPCount := hcount.1
  have hF : (NvEncoder.UpdateSettings
      { e with m_FrameData := NvencEncoderSessionData.Update e.m_FrameData other } r).m_FrameCount =
        e.m_FrameCount := hcount.2
  refine ⟨rfl, UpdateSettings_reconfigures _ r hsize, hG, ?_, ?_, ?_⟩
  · have h := EncodeFrame_submits _ src ts er hacc
    rw [hG, hF] at h
    exact h
  · intro ha
    have h := (EncodeFrame_async _ src ts er hacc ha).1
    rw [hG, hF] at h
    exact h
  · intro ha
    have h := (EncodeFrame_sync _ src ts er hacc ha).1
    rw [hG] at h
    exact h

theorem C11_resize_keeps_gop_schedule_witness :
    ((resizedSettings.width ≠ oneFrameSession.m_FrameData.width ∨
        resizedSettings.height ≠ oneFrameSession.m_FrameData.height) ∧
      (oneFrameSession.m_NvEncInitializeParams.encodeWidth ≠ toUInt32 resizedSettings.width ∨
        oneFrameSession.m_NvEncInitializeParams.encodeHeight ≠ toUInt32 resizedSettings.height) ∧
      resizedSession.encodeAccepted 77
        { deviceCopy := true, encodePicture := 0, process := sampleProcessReply 33 } = true ∧
      oneFrameSession.m_GOPCount = 1) ∧
    NvCall.nvEncReconfigureEncoder
        (oneFrameSession.UpdateEncoderSessionData resizedSettings
          (sampleInitReply 0).parameters.resources).2.m_NvEncInitializeParams 1 1 ∈
      (oneFrameSession.UpdateEncoderSessionData resizedSettings
        (sampleInitReply 0).parameters.resources).2.calls ∧
    (oneFrameSession.UpdateEncoderSessionData resizedSettings
      (sampleInitReply 0).parameters.resources).2.m_GOPCount = oneFrameSession.m_GOPCount ∧
    ∃ f : EncodedFrame, f.stamp = (33, oneFrameSession.m_GOPCount % k_GOPSize == 0) ∧
      ((oneFrameSession.UpdateEncoderSessionData resizedSettings
          (sampleInitReply 0).parameters.resources).2.EncodeFrame 77 33
        { deviceCopy := true, encodePicture := 0, process := sampleProcessReply 33 }).m_FrameQueue =
        (if (oneFrameSession.UpdateEncoderSessionData resizedSettings
            (sampleInitReply 0).parameters.resources).2.m_FrameQueue.length < k_MaxQueueLength then
          (oneFrameSession.UpdateEncoderSessionData resizedSettings
            (sampleInitReply 0).parameters.resources).2.m_FrameQueue
        else
          (oneFrameSession.UpdateEncoderSessionData resizedSettings
            (sampleInitReply 0).parameters.resources).2.m_FrameQueue.tail) ++ [f] :=
  have h := C11_resize_keeps_gop_schedule oneFrameSession resizedSettings
    (sampleInitReply 0).parameters.resources 77 33
    { deviceCopy := true, encodePicture := 0, process := sampleProcessReply 33 }
    (by decide) (by decide) (by decide)
  ⟨⟨by decide, by decide, by decide, by decide⟩, h.2.1, h.2.2.1, h.2.2.2.2.2 (by decide)⟩

/-! ## Teardown -/

theorem stopDispatcher_session (e : NvEncoder) :
    e.stopDispatcher.m_InitializationResult = e.m_InitializationResult ∧
    e.stopDispatcher.m_HEncoder = e.m_HEncoder := by
  simp only [NvEncoder.stopDispatcher, NvEncoder.DestroyAsyncResources]
  split_ifs <;> exact ⟨rfl, rfl⟩

theorem ReleaseEncoderResourcesAt_slot (x : NvEncoder) (k j : Nat) (hh : x.m_HEncoder ≠ 0)
    (h : ((x.m_BufferedFrames j).inputFrame.mappedResource = 0 ∧
        (x.m_BufferedFrames j).inputFrame.registeredResource = 0 ∧
        (x.m_BufferedFrames j).outputFrame = 0) ∨ j = k) :
    (x.ReleaseEncoderResourcesAt k).m_HEncoder ≠ 0 ∧
    ((x.ReleaseEncoderResourcesAt k).m_BufferedFrames j).inputFrame.mappedResource = 0 ∧
    ((x.ReleaseEncoderResourcesAt k).m_BufferedFrames j).inputFrame.registeredResource = 0 ∧
    ((x.ReleaseEncoderResourcesAt k).m_BufferedFrames j).outputFrame = 0 := by
  have hb : (x.m_HEncoder != 0) = true := by simpa using hh
  simp only [NvEncoder.ReleaseEncoderResourcesAt, NvEncoder.ReleaseFrameInputBuffer, hb, if_true,
    setAt]
  refine ⟨hh, ?_⟩
  by_cases hjk : j = k
  · subst hjk
    simp
  · rcases h with h | h
    · simpa [hjk] using h
    · exact absurd h hjk

theorem foldl_ReleaseEncoderResourcesAt_slot (l : List Nat) (j : Nat) :
    ∀ x : NvEncoder, x.m_HEncoder ≠ 0 →
      (((x.m_BufferedFrames j).inputFrame.mappedResource = 0 ∧
          (x.m_BufferedFrames j).inputFrame.registeredResource = 0 ∧
          (x.m_BufferedFrames j).outputFrame = 0) ∨ j ∈ l) →
      ((l.foldl NvEncoder.ReleaseEncoderResourcesAt x).m_BufferedFrames j).inputFrame.mappedResource = 0 ∧
      ((l.foldl NvEncoder.ReleaseEncoderResourcesAt x).m_BufferedFrames j).inputFrame.registeredResource = 0 ∧
      ((l.foldl NvEncoder.ReleaseEncoderResourcesAt x).m_BufferedFrames j).outputFrame = 0 := by
  induction l with
  | nil =>
    intro x _ h
    rcases h with h | h
    · exact h
    · exact absurd h (List.not_mem_nil j)
  | cons k rest ih =>
    intro x hh h
    rw [List.foldl_cons]
    by_cases hjk : j = k
    · obtain ⟨h1, h2⟩ := ReleaseEncoderResourcesAt_slot x k j hh (Or.inr hjk)
      exact ih _ h1 (Or.inl h2)
    · rcases h with h | h
      · obtain ⟨h1, h2⟩ := ReleaseEncoderResourcesAt_slot x k j hh (Or.inl h)
        exact ih _ h1 (Or.inl h2)
      · have hmem : j ∈ rest := by
          rcases List.mem_cons.1 h with h' | h'
          · exact absurd h' hjk
          · exact h'
        have h1 : (x.ReleaseEncoderResourcesAt k).m_HEncoder ≠ 0 := by
          have hb : (x.m_HEncoder != 0) = true := by simpa using hh
          simpa [NvEncoder.ReleaseEncoderResourcesAt, NvEncoder.ReleaseFrameInputBuffer, hb] using hh
        exact ih _ h1 (Or.inr hmem)

theorem ReleaseRenderTextureAt_texture (x : NvEncoder) (k j : Nat)
    (h : x.m_RenderTextures j = 0 ∨ j = k) :
    (x.ReleaseRenderTextureAt k).m_RenderTextures j = 0 ∧
    (x.ReleaseRenderTextureAt k).m_BufferedFrames = x.m_BufferedFrames := by
  simp only [NvEncoder.ReleaseRenderTextureAt]
  split_ifs with hne
  · refine ⟨?_, rfl⟩
    by_cases hjk : j = k
    · simp [setAt, hjk]
    · rcases h with h | h
      · simpa [setAt, hjk] using h
      · exact absurd h hjk
  · refine ⟨?_, rfl⟩
    rcases h with h | h
    · exact h
    · subst h
      simpa using hne

theorem foldl_ReleaseRenderTextureAt_texture (l : List Nat) (j : Nat) :
    ∀ x : NvEncoder, (x.m_RenderTextures j = 0 ∨ j ∈ l) →
      (l.foldl NvEncoder.ReleaseRenderTextureAt x).m_RenderTextures j = 0 ∧
      (l.foldl NvEncoder.ReleaseRenderTextureAt x).m_BufferedFrames = x.m_BufferedFrames := by
  induction l with
  | nil =>
    intro x h
    rcases h with h | h
    · exact ⟨h, rfl⟩
    · exact absurd h (List.not_mem_nil j)
  | cons k rest ih =>
    intro x h
    rw [List.foldl_cons]
    by_cases hjk : j = k
    · obtain ⟨h1, h2⟩ := ReleaseRenderTextureAt_texture x k j (Or.inr hjk)
      obtain ⟨h3, h4⟩ := ih _ (Or.inl h1)
      exact ⟨h3, h4.trans h2⟩
    · rcases h with h | h
      · obtain ⟨h1, h2⟩ := ReleaseRenderTextureAt_texture x k j (Or.inl h)
        obtain ⟨h3, h4⟩ := ih _ (Or.inl h1)
        exact ⟨h3, h4.trans h2⟩
      · have hmem : j ∈ rest := by
          rcases List.mem_cons.1 h with h' | h'
          · exact absurd h' hjk
          · exact h'
        obtain ⟨h3, h4⟩ := ih (x.ReleaseRenderTextureAt k) (Or.inr hmem)
        refine ⟨h3, h4.trans ?_⟩
        simp only [NvEncoder.ReleaseRenderTextureAt]
        split_ifs <;> rfl

theorem ReleaseEncoderResources_released (e : NvEncoder)
    (hs : e.m_InitializationResult = ENvencStatus.Success) (hh : e.m_HEncoder ≠ 0) (i : Nat)
    (hi : i < k_BufferedFrameNum) :
    (e.ReleaseEncoderResources.m_BufferedFrames i).inputFrame.mappedResource = 0 ∧
    (e.ReleaseEncoderResources.m_BufferedFrames i).inputFrame.registeredResource = 0 ∧
    (e.ReleaseEncoderResources.m_BufferedFrames i).outputFrame = 0 ∧
    e.ReleaseEncoderResources.m_RenderTextures i = 0 := by
  have hmem : i ∈ List.range k_BufferedFrameNum := List.mem_range.2 hi
  simp only [NvEncoder.ReleaseEncoderResources, hs, bne_self_eq_false, Bool.false_eq_true, if_false]
  obtain ⟨ht, hb⟩ := foldl_ReleaseRenderTextureAt_texture (List.range k_BufferedFrameNum) i
    ((List.range k_BufferedFrameNum).foldl NvEncoder.ReleaseEncoderResourcesAt e) (Or.inr hmem)
  obtain ⟨h1, h2, h3⟩ := foldl_ReleaseEncoderResourcesAt_slot (List.range k_BufferedFrameNum) i e hh
    (Or.inr hmem)
  rw [hb]
  exact ⟨h1, h2, h3, ht⟩

theorem DestroyResources_released (e : NvEncoder)
    (hs : e.m_InitializationResult = ENvencStatus.Success) (hh : e.m_HEncoder ≠ 0) :
    (∀ i, i < k_BufferedFrameNum →
      (e.DestroyResources.m_BufferedFrames i).inputFrame.mappedResource = 0 ∧
      (e.DestroyResources.m_BufferedFrames i).inputFrame.registeredResource = 0 ∧
      (e.DestroyResources.m_BufferedFrames i).outputFrame = 0 ∧
      e.DestroyResources.m_RenderTextures i = 0) ∧
    e.DestroyResources.m_FrameQueue = [] ∧
    e.DestroyResources.m_HEncoder = 0 := by
  obtain ⟨_, _, h3, _, h5⟩ := DestroyResources_fields e
  refine ⟨fun i hi => ?_, h5, h3⟩
  obtain ⟨s1, s2⟩ := stopDispatcher_session e
  have hrel := ReleaseEncoderResources_released e.stopDispatcher (s1.trans hs)
    (by rw [s2]; exact hh) i hi
  have hb : e.DestroyResources.m_BufferedFrames =
      e.stopDispatcher.ReleaseEncoderResources.m_BufferedFrames := by
    simp only [NvEncoder.DestroyResources, NvEncoder.UnloadModule, NvEncoder.destroyEncoderSession,
      NvEncoder.ClearEncodedFrameQueue]
    split_ifs <;> rfl
  have ht : e.DestroyResources.m_RenderTextures =
      e.stopDispatcher.ReleaseEncoderResources.m_RenderTextures := by
    simp only [NvEncoder.DestroyResources, NvEncoder.UnloadModule, NvEncoder.destroyEncoderSession,
      NvEncoder.ClearEncodedFrameQueue]
    split_ifs <;> rfl
  rw [hb, ht]
  exact hrel

theorem SetEncoderParameters_handle (e : NvEncoder) (r : NvEncoder.SetParametersReply) :
    (e.SetEncoderParameters r).m_HEncoder = e.m_HEncoder := by
  have hinit : ∀ (x : NvEncoder) (rr : Nat → NvEncoder.ResourceReply),
      (x.InitEncoderResources rr).m_HEncoder = x.m_HEncoder := fun _ _ => rfl
  simp only [NvEncoder.SetEncoderParameters]
  split_ifs <;> simp [hinit, NvEncoder.InitializeAsyncResources]

theorem InitEncoder_returned_success (e : NvEncoder) (r : NvEncoder.InitReply)
    (h : (e.InitEncoder r).1 = ENvencStatus.Success) :
    (e.InitEncoder r).2.m_InitializationResult = ENvencStatus.Success ∧
    (e.InitEncoder r).2.m_HEncoder = r.hEncoder := by
  simp only [NvEncoder.InitEncoder] at h ⊢
  generalize (if (e.m_InitializationResult == ENvencStatus.NotInitialized) = true then
        { (e.LoadCodec r.loadCodec).2 with m_InitializationResult := (e.LoadCodec r.loadCodec).1 }
      else e : NvEncoder) = e1 at h ⊢
  by_cases h1 : (e1.m_InitializationResult != ENvencStatus.Success) = true
  · rw [if_pos h1] at h
    simp only at h
    rw [h] at h1
    exact absurd h1 (by decide)
  · rw [if_neg h1] at h ⊢
    by_cases h2 : (r.device == 0) = true
    · rw [if_pos h2] at h
      simp at h
    · rw [if_neg h2] at h ⊢
      by_cases h3 : (r.openSessionStatus != NV_ENC_SUCCESS) = true
      · rw [if_pos h3] at h
        simp at h
      · rw [if_neg h3]
        exact ⟨rfl, SetEncoderParameters_handle _ _⟩

theorem AddEncodedFrame_handle (e : NvEncoder) (i ts : Nat) (key : Bool)
    (seq : NvEncoder.SequenceParamsReply) :
    (e.AddEncodedFrame i ts key seq).m_HEncoder = e.m_HEncoder := by
  simp only [NvEncoder.AddEncodedFrame]
  split_ifs <;> rfl

theorem ProcessEncodedFrame_handle (e : NvEncoder) (i ts : Nat) (key : Bool)
    (r : NvEncoder.ProcessReply) :
    (e.ProcessEncodedFrame i ts key r).m_HEncoder = e.m_HEncoder := by
  simp only [NvEncoder.ProcessEncodedFrame]
  split_ifs
  · rfl
  · rw [AddEncodedFrame_handle]
  · rw [AddEncodedFrame_handle]

theorem EncodeFrame_handle (e : NvEncoder) (src ts : Nat) (r : NvEncoder.EncodeReply) :
    (e.EncodeFrame src ts r).m_HEncoder = e.m_HEncoder := by
  obtain ⟨c, hc⟩ := CopyBufferResources_snd e (e.m_FrameCount % k_BufferedFrameNum) src r.deviceCopy
  simp only [NvEncoder.EncodeFrame, hc]
  split_ifs <;> first | rfl | simp [ProcessEncodedFrame_handle]

theorem ProcessEncodedFrameAsyncSingle_handle (e : NvEncoder) (r : NvEncoder.DispatchReply) :
    (e.ProcessEncodedFrameAsyncSingle r).m_HEncoder = e.m_HEncoder := by
  by_cases ha : e.m_IsAsync = true
  · cases hp : e.m_BufferToRead with
    | nil => simp [NvEncoder.ProcessEncodedFrameAsyncSingle, ha, hp]
    | cons k rest =>
      by_cases hw : (r.wait == NvEncoder.WAIT_FAILED) = true <;>
        simp [NvEncoder.ProcessEncodedFrameAsyncSingle, ha, hp, hw, ProcessEncodedFrame_handle]
  · simp [NvEncoder.ProcessEncodedFrameAsyncSingle, ha]

theorem runPipeline_handle (steps : List PipelineStep) :
    ∀ e : NvEncoder, (runPipeline e steps).m_HEncoder = e.m_HEncoder := by
  induction steps with
  | nil => intro e; rfl
  | cons step rest ih =>
    intro e
    have h := ih (step.run e)
    cases step with
    | EncodeFrame src ts r =>
      simpa [runPipeline, PipelineStep.run, EncodeFrame_handle] using h
    | ProcessEncodedFrameAsyncSingle r =>
      simpa [runPipeline, PipelineStep.run, ProcessEncodedFrameAsyncSingle_handle] using h

/-- C21. For every session whose `InitEncoder` returned `Success` with the
encoder handle of the opened session, and after any sequence of `EncodeFrame`
calls and dispatcher iterations, `DestroyResources` leaves each of the 4 slots
with `mappedResource`, `registeredResource` and `outputFrame` null, every
render texture null, the queue empty and the encoder handle null.  The statuses
returned by the unmap, unregister and destroy calls are only logged by the
source, so the result is the same for every combination of them. -/
theorem C21_teardown_total (e0 : NvEncoder) (r : NvEncoder.InitReply) (steps : List PipelineStep)
    (hret : (e0.InitEncoder r).1 = ENvencStatus.Success) (hh : r.hEncoder ≠ 0) :
    (∀ i, i < k_BufferedFrameNum →
      ((runPipeline (e0.InitEncoder r).2 steps).DestroyResources.m_BufferedFrames
        i).inputFrame.mappedResource = 0 ∧
      ((runPipeline (e0.InitEncoder r).2 steps).DestroyResources.m_BufferedFrames
        i).inputFrame.registeredResource = 0 ∧
      ((runPipeline (e0.InitEncoder r).2 steps).DestroyResources.m_BufferedFrames i).outputFrame =
        0 ∧
      (runPipeline (e0.InitEncoder r).2 steps).DestroyResources.m_RenderTextures i = 0) ∧
    (runPipeline (e0.InitEncoder r).2 steps).DestroyResources.m_FrameQueue = [] ∧
    (runPipeline (e0.InitEncoder r).2 steps).DestroyResources.m_HEncoder = 0 := by
  obtain ⟨h1, h2⟩ := InitEncoder_returned_success e0 r hret
  exact DestroyResources_released (runPipeline (e0.InitEncoder r).2 steps)
    ((runPipeline_initResult steps _).trans h1)
    (by rw [runPipeline_handle, h2]; exact hh)

theorem C21_teardown_total_witness :
    ((sampleEncoder.InitEncoder (sampleInitReply 1)).1 = ENvencStatus.Success ∧
      (sampleInitReply 1).hEncoder ≠ 0 ∧
      ((runPipeline (sampleEncoder.InitEncoder (sampleInitReply 1)).2
        [sampleEncode 0, sampleEncode 33]).m_BufferedFrames 0).inputFrame.mappedResource = 400 ∧
      (runPipeline (sampleEncoder.InitEncoder (sampleInitReply 1)).2
        [sampleEncode 0, sampleEncode 33]).m_RenderTextures 3 = 103) ∧
    (∀ i, i < k_BufferedFrameNum →
      ((runPipeline (sampleEncoder.InitEncoder (sampleInitReply 1)).2
        [sampleEncode 0, sampleEncode 33]).DestroyResources.m_BufferedFrames
        i).inputFrame.mappedResource = 0 ∧
      ((runPipeline (sampleEncoder.InitEncoder (sampleInitReply 1)).2
        [sampleEncode 0, sampleEncode 33]).DestroyResources.m_BufferedFrames
        i).inputFrame.registeredResource = 0 ∧
      ((runPipeline (sampleEncoder.InitEncoder (sampleInitReply 1)).2
        [sampleEncode 0, sampleEncode 33]).DestroyResources.m_BufferedFrames i).outputFrame =
        0 ∧
      (runPipeline (sampleEncoder.InitEncoder (sampleInitReply 1)).2
        [sampleEncode 0, sampleEncode 33]).DestroyResources.m_RenderTextures i = 0) ∧
    (runPipeline (sampleEncoder.InitEncoder (sampleInitReply 1)).2
      [sampleEncode 0, sampleEncode 33]).DestroyResources.m_FrameQueue = [] ∧
    (runPipeline (sampleEncoder.InitEncoder (sampleInitReply 1)).2
      [sampleEncode 0, sampleEncode 33]).DestroyResources.m_HEncoder = 0 :=
  ⟨⟨by decide, by decide, by decide, by decide⟩,
    C21_teardown_total sampleEncoder (sampleInitReply 1) [sampleEncode 0, sampleEncode 33]
      (by decide) (by decide)⟩

/-! ## The two counters -/

/-- C22. When `EncodeFrame` reaches `nvEncEncodePicture` (the source is not
null, the copy succeeds, the slot is not encoding) and the driver fails, the
GOP counter has been incremented and the frame counter has not: the two
counters do not advance together. -/
theorem C22_failed_submission_advances_gop_only (e : NvEncoder) (frameSourceData timeStamp : Nat)
    (r : NvEncoder.EncodeReply) (hsrc : frameSourceData ≠ 0)
    (hcopy : (e.CopyBufferResources (e.m_FrameCount % k_BufferedFrameNum) frameSourceData
      r.deviceCopy).1 = true)
    (hslot : (e.m_BufferedFrames (e.m_FrameCount % k_BufferedFrameNum)).isEncoding = false)
    (hfail : r.encodePicture ≠ NV_ENC_SUCCESS) :
    (e.EncodeFrame frameSourceData timeStamp r).m_GOPCount = (e.m_GOPCount + 1) % 2 ^ 64 ∧
    (e.EncodeFrame frameSourceData timeStamp r).m_FrameCount = e.m_FrameCount := by
  obtain ⟨c, hc⟩ := CopyBufferResources_snd e (e.m_FrameCount % k_BufferedFrameNum)
    frameSourceData r.deviceCopy
  simp [NvEncoder.EncodeFrame, hsrc, hcopy, hc, hslot, hfail]

theorem C22_failed_submission_advances_gop_only_witness :
    (syncSession.m_GOPCount = 0 ∧ syncSession.m_FrameCount = 0) ∧
    (syncSession.EncodeFrame 77 0
      { deviceCopy := true, encodePicture := 8, process := sampleProcessReply 0 }).m_GOPCount =
        (syncSession.m_GOPCount + 1) % 2 ^ 64 ∧
    (syncSession.EncodeFrame 77 0
      { deviceCopy := true, encodePicture := 8, process := sampleProcessReply 0 }).m_FrameCount =
        syncSession.m_FrameCount :=
  ⟨⟨by decide, by decide⟩,
    C22_failed_submission_advances_gop_only syncSession 77 0
      { deviceCopy := true, encodePicture := 8, process := sampleProcessReply 0 } (by decide)
      (by decide) (by decide) (by decide)⟩

/-! ## Slot flags -/

theorem dispatch_two_parts (e : NvEncoder) (r : NvEncoder.DispatchReply) :
    e.ProcessEncodedFrameAsyncSingle r =
      match e.dispatchProcess r with
      | (none, e1) => e1
      | (some dataKey, e1) => e1.dispatchStore dataKey := by
  by_cases ha : e.m_IsAsync = true
  · cases hq : e.m_BufferToRead with
    | nil => simp [NvEncoder.ProcessEncodedFrameAsyncSingle, NvEncoder.dispatchProcess, ha, hq]
    | cons dataKey rest =>
      by_cases hw : (r.wait == NvEncoder.WAIT_FAILED) = true
      · simp [NvEncoder.ProcessEncodedFrameAsyncSingle, NvEncoder.dispatchProcess, ha, hq, hw]
      · simp [NvEncoder.ProcessEncodedFrameAsyncSingle, NvEncoder.dispatchProcess, ha, hq, hw,
          NvEncoder.dispatchStore]
  · simp [NvEncoder.ProcessEncodedFrameAsyncSingle, NvEncoder.dispatchProcess, ha]

/-- C23. In the asynchronous session with four frames submitted, the dispatcher
thread runs `ProcessEncodedFrame` for slot 0, the submission thread then has
`EncodeFrame` accepted into slot 0, and the dispatcher thread then stores
`isEncoded = true`: slot 0 has `isEncoding` and `isEncoded` both true. -/
theorem C23_slot_flags_both_true :
    (∀ i, i < k_BufferedFrameNum →
      (ringFullSession.m_BufferedFrames i).isEncoding = true ∧
      (ringFullSession.m_BufferedFrames i).isEncoded = false) ∧
    ((runThreads { encoder := ringFullSession, held := none }
        [ThreadStep.ProcessEncodedFrame { wait := 0, process := sampleProcessReply 0 }]).encoder.m_BufferedFrames
      0).isEncoding = false ∧
    (runThreads { encoder := ringFullSession, held := none }
        [ThreadStep.ProcessEncodedFrame { wait := 0, process := sampleProcessReply 0 }]).encoder.encodeAccepted
      77 { deviceCopy := true, encodePicture := 0, process := sampleProcessReply 132 } = true ∧
    ((runThreads { encoder := ringFullSession, held := none }
        [ThreadStep.ProcessEncodedFrame { wait := 0, process := sampleProcessReply 0 },
          ThreadStep.EncodeFrame 77 132
            { deviceCopy := true, encodePicture := 0, process := sampleProcessReply 132 },
          ThreadStep.storeIsEncoded]).encoder.m_BufferedFrames 0).isEncoding = true ∧
    ((runThreads { encoder := ringFullSession, held := none }
        [ThreadStep.ProcessEncodedFrame { wait := 0, process := sampleProcessReply 0 },
          ThreadStep.EncodeFrame 77 132
            { deviceCopy := true, encodePicture := 0, process := sampleProcessReply 132 },
          ThreadStep.storeIsEncoded]).encoder.m_BufferedFrames 0).isEncoded = true := by
  refine ⟨?_, by decide, by decide, by decide, by decide⟩
  intro i hi
  have hk : k_BufferedFrameNum = 4 := rfl
  rw [hk] at hi
  interval_cases i <;> decide

/-! ## A push while a frame is borrowed -/

/-- C27. With eight frames queued (timestamps 1 to 8), `BeginConsume` exposes
the frame with timestamp 1; a push of a ninth frame evicts that frame, so the
borrowed pointer no longer designates a frame of the queue, and `EndConsume`
then removes the frame with timestamp 2, which was never exposed. -/
theorem C27_push_evicts_borrowed_frame :
    (fullSession.IsInitialized = true ∧
      fullSession.m_FrameQueue.map (fun f => f.timestamp) = [1, 2, 3, 4, 5, 6, 7, 8]) ∧
    (BeginConsume (some 1) (pluginWith fullSession)).1 = true ∧
    GetTimeStamp (some 1) borrowedFullSession = Except.ok 1 ∧
    GetTimeStamp (some 1) (borrowedFullSession.AddEncodedFrame 1 0 9 false sampleSequenceParams) =
      Except.error Fault.invalid_pointer ∧
    (match EndConsume (some 1)
        (borrowedFullSession.AddEncodedFrame 1 0 9 false sampleSequenceParams) with
      | Except.ok (removed, st) =>
        (removed, (st.s_EncoderMap.GetInstance 1).map
          (fun encoder => encoder.m_FrameQueue.map (fun f => f.timestamp)))
      | Except.error _ => (false, none)) =
      (true, some [3, 4, 5, 6, 7, 8, 9]) :=
  ⟨⟨by decide, by decide⟩, by decide, rfl, rfl, rfl⟩

/-! ## Rate control -/

theorem SetEncoderParameters_frameRateNum (e : NvEncoder) (r : NvEncoder.SetParametersReply) :
    (e.SetEncoderParameters r).m_NvEncInitializeParams.frameRateNum =
      toUInt32 e.m_FrameData.frameRate := by
  simp only [NvEncoder.SetEncoderParameters]
  split_ifs <;>
    simp [InitEncoderResources_fields, NvEncoder.InitializeAsyncResources]

/-- C28. `SetEncoderParameters` stores `m_FrameData.frameRate` in
`m_NvEncInitializeParams.frameRateNum` and then divides by that member to
compute `vbvBufferSize`; the member is not written again, so its value after
`InitEncoder` is the divisor.  For settings with `frameRate = 0`, the
default-constructed value among them, the divisor is zero. -/
theorem C28_zero_frame_rate_divides_by_zero (other : NvencEncoderSessionData) (forceNv12 : Bool)
    (u : NvEncoder.Uninitialized) (r : NvEncoder.InitReply)
    (hl : r.loadCodec.loads = true) (hd : r.device ≠ 0)
    (ho : r.openSessionStatus = NV_ENC_SUCCESS) (hrate : other.frameRate = 0) :
    ((NvEncoder.new other forceNv12 u).InitEncoder r).2.m_NvEncInitializeParams.frameRateNum = 0 := by
  obtain ⟨e3, _, _, hf, _, _, heq⟩ :=
    InitEncoder_opened (NvEncoder.new other forceNv12 u) r rfl hl hd ho
  rw [heq]
  show (e3.SetEncoderParameters r.parameters).m_NvEncInitializeParams.frameRateNum = 0
  rw [SetEncoderParameters_frameRateNum, hf]
  show toUInt32 other.frameRate = 0
  rw [hrate]
  rfl

theorem C28_zero_frame_rate_divides_by_zero_witness :
    (NvencEncoderSessionData.defaultValue.frameRate = 0 ∧
      (sampleInitReply 0).loadCodec.loads = true ∧ (sampleInitReply 0).device ≠ 0 ∧
      (sampleInitReply 0).openSessionStatus = NV_ENC_SUCCESS) ∧
    ((NvEncoder.new NvencEncoderSessionData.defaultValue false zeroUninitialized).InitEncoder
      (sampleInitReply 0)).2.m_NvEncInitializeParams.frameRateNum = 0 :=
  ⟨⟨by decide, by decide, by decide, by decide⟩,
    C28_zero_frame_rate_divides_by_zero NvencEncoderSessionData.defaultValue false zeroUninitialized
      (sampleInitReply 0) (by decide) (by decide) (by decide) (by decide)⟩

end NvencPlugin

/-! # Parameter-set extraction of the Media Foundation encoder -/

namespace H264Encoder

theorem searchFrom_at_header (rest : List Nat) (i : Nat) :
    searchFrom naluHeader (naluHeader ++ rest) i = some i := by
  simp [searchFrom, naluHeader, List.isPrefixOf]

theorem not_isPrefixOf_before_header (a : Nat) (A B : List Nat)
    (hno : ¬ naluHeader <:+: a :: A) :
    naluHeader.isPrefixOf (a :: A ++ naluHeader ++ B) = false := by
  have hpre : ¬ naluHeader <+: a :: A := fun h => hno h.isInfix
  match A, hpre with
  | [], _ => simp [naluHeader, List.isPrefixOf]
  | [b], _ => simp [naluHeader, List.isPrefixOf]
  | [b, c], _ => simp [naluHeader, List.isPrefixOf]
  | b :: c :: d :: rest, hpre =>
    have h4 : ¬ (0 = a ∧ 0 = b ∧ 0 = c ∧ 1 = d) := by
      rintro ⟨rfl, rfl, rfl, rfl⟩
      exact hpre ⟨rest, rfl⟩
    simp only [naluHeader, List.cons_append, List.isPrefixOf, Bool.and_true, Bool.and_eq_false_iff,
      beq_eq_false_iff_ne, ne_eq]
    by_contra hc
    simp only [not_or, not_not] at hc
    exact h4 ⟨hc.1, hc.2.1, hc.2.2.1, hc.2.2.2⟩

theorem searchFrom_second_header (A B : List Nat) :
    ∀ i, ¬ naluHeader <:+: A →
      searchFrom naluHeader (A ++ naluHeader ++ B) i = some (i + A.length) := by
  induction A with
  | nil =>
    intro i _
    simpa using searchFrom_at_header B i
  | cons a A ih =>
    intro i hno
    have hnp := not_isPrefixOf_before_header a A B hno
    have htail : ¬ naluHeader <:+: A := fun h => hno (List.infix_cons h)
    have hstep : searchFrom naluHeader (a :: A ++ naluHeader ++ B) i =
        searchFrom naluHeader (A ++ naluHeader ++ B) (i + 1) := by
      simp only [List.cons_append] at hnp ⊢
      rw [searchFrom, hnp]
      simp
    rw [hstep, ih (i + 1) htail, List.length_cons]
    congr 1
    omega

theorem ParseSpsPps_two_units (self : H264Encoder) (a b : Nat) (A B : List Nat)
    (hno : ¬ naluHeader <:+: a :: A) :
    ParseSpsPps self
        { getBlobSizeResult := S_OK
          sequenceHeaderData := naluHeader ++ (a :: A) ++ naluHeader ++ (b :: B)
          getBlobResult := S_OK } =
      match storeNalu self (a &&& NALU_TYPE_MASK) (a :: A) with
      | none => some (false, self)
      | some self1 =>
        match storeNalu self1 (b &&& NALU_TYPE_MASK) (b :: B) with
        | none => some (false, self1)
        | some self2 =>
          if self2.m_Sps.isEmpty then some (false, self2)
          else if self2.m_Pps.isEmpty then some (false, self2)
          else some (true, self2) := by
  have hlen : (naluHeader ++ (a :: A) ++ naluHeader ++ (b :: B)).length =
      4 + (A.length + 1) + 4 + (B.length + 1) := by
    simp [naluHeader]
    omega
  have h5 : search (naluHeader ++ (a :: A) ++ naluHeader ++ (b :: B)) 0 naluHeader = some 0 := by
    rw [search, List.drop_zero, List.append_assoc, List.append_assoc]
    exact searchFrom_at_header _ 0
  have h7 : search (naluHeader ++ (a :: A) ++ naluHeader ++ (b :: B)) (0 + naluHeader.length)
      naluHeader = some (4 + (A.length + 1)) := by
    have hd : (naluHeader ++ (a :: A) ++ naluHeader ++ (b :: B)).drop (0 + naluHeader.length) =
        (a :: A) ++ naluHeader ++ (b :: B) := by
      rw [List.append_assoc, List.append_assoc, Nat.zero_add, List.drop_left, List.append_assoc]
    rw [search, hd]
    have := searchFrom_second_header (a :: A) (b :: B) (0 + naluHeader.length) hno
    simpa [naluHeader] using this
  have h9 : ((naluHeader ++ (a :: A) ++ naluHeader ++ (b :: B)).take (4 + (A.length + 1))).drop
      (0 + naluHeader.length) = a :: A := by
    have ht : (naluHeader ++ (a :: A) ++ naluHeader ++ (b :: B)).take (4 + (A.length + 1)) =
        naluHeader ++ (a :: A) := by
      rw [List.append_assoc (naluHeader ++ (a :: A))]
      exact List.take_left' (by simp [naluHeader]; omega)
    rw [ht, Nat.zero_add, List.drop_left]
  have h10 : (naluHeader ++ (a :: A) ++ naluHeader ++ (b :: B)).drop
      (4 + (A.length + 1) + naluHeader.length) = b :: B := by
    exact List.drop_left' (by simp [naluHeader]; omega)
  have hS : (S_OK != S_OK) = false := by decide
  have c2 : ((4 + (A.length + 1) + 4 + (B.length + 1)) == 0) = false := by
    simp
  have c4 : ¬ (4 + (A.length + 1) + 4 + (B.length + 1) < 8) := by omega
  have c6 : ¬ (4 + (A.length + 1) + 4 + (B.length + 1) - 0 ≤ naluHeader.length) := by
    simp [naluHeader]
    omega
  have c8 : ¬ (4 + (A.length + 1) + 4 + (B.length + 1) - (4 + (A.length + 1)) ≤ 4) := by omega
  simp only [ParseSpsPps, hS, Bool.false_eq_true, if_false, hlen, c2, c4, h5, c6, h7, c8, h9, h10,
    List.head?_cons]

/-- C12. For every blob `00 00 00 01 ++ A ++ 00 00 00 01 ++ B` whose units
`A = a :: A0` and `B = b :: B0` are non-empty, where `A` does not contain
`00 00 00 01` and the low five bits of `a` and `b` are 7 and 8 in one order or
the other, `ParseSpsPps` returns true and leaves `m_Sps` equal to the type-7
unit and `m_Pps` equal to the type-8 unit, whatever was cached before. -/
theorem C12_parameter_sets_in_either_order (self : H264Encoder) (a b : Nat) (A B : List Nat)
    (hno : ¬ naluHeader <:+: a :: A)
    (htypes : (a &&& NALU_TYPE_MASK = SPS_NALU_TYPE ∧ b &&& NALU_TYPE_MASK = PPS_NALU_TYPE) ∨
      (a &&& NALU_TYPE_MASK = PPS_NALU_TYPE ∧ b &&& NALU_TYPE_MASK = SPS_NALU_TYPE)) :
    ParseSpsPps self
        { getBlobSizeResult := S_OK
          sequenceHeaderData := naluHeader ++ (a :: A) ++ naluHeader ++ (b :: B)
          getBlobResult := S_OK } =
      some (true,
        if a &&& NALU_TYPE_MASK = SPS_NALU_TYPE then { m_Sps := a :: A, m_Pps := b :: B }
        else { m_Sps := b :: B, m_Pps := a :: A }) := by
  rw [ParseSpsPps_two_units self a b A B hno]
  rcases htypes with ⟨ha, hb⟩ | ⟨ha, hb⟩
  · simp [storeNalu, ha, hb, SPS_NALU_TYPE, PPS_NALU_TYPE]
  · simp [storeNalu, ha, hb, SPS_NALU_TYPE, PPS_NALU_TYPE]

theorem C12_parameter_sets_in_either_order_witness :
    ParseSpsPps { m_Sps := [0x27], m_Pps := [] }
        { getBlobSizeResult := S_OK
          sequenceHeaderData := naluHeader ++ (0x68 :: [0xCE]) ++ naluHeader ++ (0x67 :: [0x42, 0x00])
          getBlobResult := S_OK } =
      some (true,
        if 0x68 &&& NALU_TYPE_MASK = SPS_NALU_TYPE
          then { m_Sps := 0x68 :: [0xCE], m_Pps := 0x67 :: [0x42, 0x00] }
        else { m_Sps := 0x67 :: [0x42, 0x00], m_Pps := 0x68 :: [0xCE] }) :=
  C12_parameter_sets_in_either_order { m_Sps := [0x27], m_Pps := [] } 0x68 0x67 [0xCE] [0x42, 0x00]
    (by decide) (by decide)

/-- C13. A blob `00 00 00 01 00 00 00 01 ++ B` with `B = b :: B0` non-empty
passes every size check of `ParseSpsPps`, although its first unit is empty;
the method then subscripts the empty `firstNalu`, so it does not return false,
whatever the type of `b` is (for `B = 65` the type is 5, neither 7 nor 8). -/
theorem C13_empty_first_unit_not_rejected (self : H264Encoder) (b : Nat) (B : List Nat) :
    ParseSpsPps self
        { getBlobSizeResult := S_OK
          sequenceHeaderData := naluHeader ++ naluHeader ++ (b :: B)
          getBlobResult := S_OK } = none ∧
    ParseSpsPps self
        { getBlobSizeResult := S_OK
          sequenceHeaderData := [0x00, 0x00, 0x00, 0x01, 0x00, 0x00, 0x00, 0x01, 0x65]
          getBlobResult := S_OK } = none := by
  have hgen : ∀ (c : Nat) (C : List Nat), ParseSpsPps self
      { getBlobSizeResult := S_OK
        sequenceHeaderData := naluHeader ++ naluHeader ++ (c :: C)
        getBlobResult := S_OK } = none := by
    intro c C
    have hlen : (naluHeader ++ naluHeader ++ (c :: C)).length = 4 + 4 + (C.length + 1) := by
      simp [naluHeader]
      omega
    have h5 : search (naluHeader ++ naluHeader ++ (c :: C)) 0 naluHeader = some 0 := by
      rw [search, List.drop_zero, List.append_assoc]
      exact searchFrom_at_header _ 0
    have h7 : search (naluHeader ++ naluHeader ++ (c :: C)) (0 + naluHeader.length) naluHeader =
        some 4 := by
      have hd : (naluHeader ++ naluHeader ++ (c :: C)).drop (0 + naluHeader.length) =
          naluHeader ++ (c :: C) := by
        rw [List.append_assoc, Nat.zero_add, List.drop_left]
      rw [search, hd]
      have := searchFrom_at_header (c :: C) (0 + naluHeader.length)
      simpa [naluHeader] using this
    have h9 : ((naluHeader ++ naluHeader ++ (c :: C)).take 4).drop (0 + naluHeader.length) = [] := by
      simp [naluHeader]
    have hS : (S_OK != S_OK) = false := by decide
    have c2 : ((4 + 4 + (C.length + 1)) == 0) = false := by
      simp
    have c4 : ¬ (4 + 4 + (C.length + 1) < 8) := by omega
    have c6 : ¬ (4 + 4 + (C.length + 1) - 0 ≤ naluHeader.length) := by
      simp [naluHeader]
      omega
    have c8 : ¬ (4 + 4 + (C.length + 1) - 4 ≤ 4) := by omega
    simp only [ParseSpsPps, hS, Bool.false_eq_true, if_false, hlen, c2, c4, h5, c6, h7, c8, h9,
      List.head?_nil]
  exact ⟨hgen b B, hgen 0x65 []⟩

/-- C26. On the blob `00 00 00 01 00 00 00 01 67` both size checks of
`ParseSpsPps` pass, the first unit is empty, and the method reads
`firstNalu[0]` all the same: it subscripts an empty vector. -/
theorem C26_reads_first_byte_of_empty_unit (self : H264Encoder) :
    search [0x00, 0x00, 0x00, 0x01, 0x00, 0x00, 0x00, 0x01, 0x67] 0 naluHeader = some 0 ∧
    search [0x00, 0x00, 0x00, 0x01, 0x00, 0x00, 0x00, 0x01, 0x67] (0 + naluHeader.length)
      naluHeader = some 4 ∧
    (([0x00, 0x00, 0x00, 0x01, 0x00, 0x00, 0x00, 0x01, 0x67] : List Nat).take 4).drop
      (0 + naluHeader.length) = [] ∧
    ParseSpsPps self
        { getBlobSizeResult := S_OK
          sequenceHeaderData := [0x00, 0x00, 0x00, 0x01, 0x00, 0x00, 0x00, 0x01, 0x67]
          getBlobResult := S_OK } = none :=
  ⟨by decide, by decide, by decide, rfl⟩

end H264Encoder

namespace NvencPlugin

/-! ## The sequence parameters of the NVENC encoder -/

theorem loop_condition_of_not_start_code (d : Nat → Nat) (i : Nat)
    (h : ¬ (d i = 0 ∧ d (i + 1) = 0 ∧ d (i + 2) = 0 ∧ d (i + 3) = 1)) :
    (d i != 0x00 || d (i + 1) != 0x00 || d (i + 2) != 0x00 || d (i + 3) != 0x01) = true := by
  by_contra hc
  apply h
  simp only [Bool.or_eq_true, bne_iff_ne, ne_eq, not_or, not_not] at hc
  exact ⟨hc.1.1.1, hc.1.1.2, hc.1.2, hc.2⟩

theorem findStartCode_found (d : Nat → Nat) (size : Nat) :
    ∀ (k i fuel : Nat), k < fuel →
      (∀ j, i ≤ j → j < i + k → ¬ (d j = 0 ∧ d (j + 1) = 0 ∧ d (j + 2) = 0 ∧ d (j + 3) = 1)) →
      (d (i + k) = 0 ∧ d (i + k + 1) = 0 ∧ d (i + k + 2) = 0 ∧ d (i + k + 3) = 1) →
      i + k < size →
      NvEncoder.findStartCode d size fuel i = some (i + k) := by
  intro k
  induction k with
  | zero =>
    intro i fuel hf _ hsc _
    obtain ⟨f, rfl⟩ : ∃ f, fuel = f + 1 := ⟨fuel - 1, by omega⟩
    obtain ⟨h0, h1, h2, h3⟩ := hsc
    simp only [Nat.add_zero] at h0 h1 h2 h3
    simp [NvEncoder.findStartCode, h0, h1, h2, h3]
  | succ k ih =>
    intro i fuel hf hno hsc hlt
    obtain ⟨f, rfl⟩ : ∃ f, fuel = f + 1 := ⟨fuel - 1, by omega⟩
    have hi : ¬ (d i = 0 ∧ d (i + 1) = 0 ∧ d (i + 2) = 0 ∧ d (i + 3) = 1) :=
      hno i (le_refl i) (by omega)
    have hcond := loop_condition_of_not_start_code d i hi
    have hge : ¬ (i + 1 ≥ size) := by omega
    rw [NvEncoder.findStartCode, if_pos hcond, if_neg hge]
    have := ih (i + 1) f (by omega) (fun j h1 h2 => hno j (by omega) (by omega))
      (by
        have e1 : i + 1 + k = i + (k + 1) := by omega
        rw [e1]
        exact hsc)
      (by omega)
    rw [this]
    congr 1
    omega

theorem findStartCode_none (d : Nat → Nat) (size : Nat) :
    ∀ (fuel i : Nat),
      (∀ j, i ≤ j → (j < size ∨ j = i) →
        ¬ (d j = 0 ∧ d (j + 1) = 0 ∧ d (j + 2) = 0 ∧ d (j + 3) = 1)) →
      NvEncoder.findStartCode d size fuel i = none := by
  intro fuel
  induction fuel with
  | zero => intro i _; rfl
  | succ f ih =>
    intro i hno
    have hi := hno i (le_refl i) (Or.inr rfl)
    have hcond := loop_condition_of_not_start_code d i hi
    rw [NvEncoder.findStartCode, if_pos hcond]
    split_ifs with hge
    · rfl
    · exact ih (i + 1) (fun j h1 h2 => hno j (by omega) (by
        rcases h2 with h2 | h2
        · exact Or.inl h2
        · exact Or.inl (by omega)))

theorem byteRange_eq (p : Nat → Nat) (first last : Nat) (L : List Nat)
    (hlast : last = first + L.length) (hv : ∀ k, k < L.length → p (first + k) = L.getD k 0) :
    NvEncoder.byteRange p first last = L := by
  subst hlast
  unfold NvEncoder.byteRange
  apply List.ext_getElem
  · simp
  · intro k h1 h2
    simp only [List.getElem_map, List.getElem_range]
    rw [hv k h2, List.getD_eq_getElem _ _ h2]

theorem header_at_of_getD (L : List Nat) (j : Nat)
    (h : L.getD j 0 = 0 ∧ L.getD (j + 1) 0 = 0 ∧ L.getD (j + 2) 0 = 0 ∧ L.getD (j + 3) 0 = 1) :
    H264Encoder.naluHeader.isPrefixOf (L.drop j) = true := by
  obtain ⟨h0, h1, h2, h3⟩ := h
  have e : ∀ t, (L.drop j).getD t 0 = L.getD (j + t) 0 := by
    intro t
    simp [List.getD_eq_getElem?_getD, List.getElem?_drop]
  have h0 : (L.drop j).getD 0 0 = 0 := (e 0).trans h0
  have h1 : (L.drop j).getD 1 0 = 0 := (e 1).trans h1
  have h2 : (L.drop j).getD 2 0 = 0 := (e 2).trans h2
  have h3 : (L.drop j).getD 3 0 = 1 := (e 3).trans h3
  generalize L.drop j = M at h0 h1 h2 h3
  match M, h0, h1, h2, h3 with
  | [], _, _, _, h3 => simp at h3
  | [_], _, _, _, h3 => simp at h3
  | [_, _], _, _, _, h3 => simp at h3
  | [_, _, _], _, _, _, h3 => simp at h3
  | a :: b :: c :: e :: rest, h0, h1, h2, h3 =>
    simp at h0 h1 h2 h3
    subst h0 h1 h2 h3
    simp [H264Encoder.naluHeader, List.isPrefixOf]

theorem spsppsBuffer_payload (payload : List Nat) (beyond : Nat → Nat) (i : Nat)
    (h : i < NvEncoder.k_SpsPpsDataSize) :
    NvEncoder.spsppsBuffer payload beyond i = payload.getD i 0 := by
  simp [NvEncoder.spsppsBuffer, h]

theorem GetSequenceParams_split (pre A B : List Nat) (beyond : Nat → Nat)
    (hpre : pre.length = 4) (hA : ¬ H264Encoder.naluHeader <:+: A)
    (hn : (pre ++ A ++ H264Encoder.naluHeader ++ B).length ≤ NvEncoder.k_SpsPpsDataSize) :
    NvEncoder.GetSequenceParams
        { errorCode := NV_ENC_SUCCESS
          spsppsData := NvEncoder.spsppsBuffer (pre ++ A ++ H264Encoder.naluHeader ++ B) beyond
          spsppsSize := (pre ++ A ++ H264Encoder.naluHeader ++ B).length } = (A, B) := by
  have hk : NvEncoder.k_SpsPpsDataSize = 1024 := rfl
  have hlen : (pre ++ A ++ H264Encoder.naluHeader ++ B).length = 8 + A.length + B.length := by
    simp [hpre, H264Encoder.naluHeader]
    omega
  rw [hlen] at hn
  -- the bytes of the payload
  have hd : ∀ i, i < 8 + A.length + B.length →
      NvEncoder.spsppsBuffer (pre ++ A ++ H264Encoder.naluHeader ++ B) beyond i =
        (pre ++ A ++ H264Encoder.naluHeader ++ B).getD i 0 :=
    fun i hi => spsppsBuffer_payload _ _ i (by omega)
  have hPA : ∀ k, k < A.length →
      (pre ++ A ++ H264Encoder.naluHeader ++ B).getD (4 + k) 0 = A.getD k 0 := by
    intro k hk'
    rw [List.getD_append _ _ _ _ (by simp [hpre, H264Encoder.naluHeader]; omega),
      List.getD_append _ _ _ _ (by simp [hpre]; omega),
      List.getD_append_right _ _ _ _ (by omega), hpre]
    congr 1
    omega
  have hPH : ∀ o, o < 4 →
      (pre ++ A ++ H264Encoder.naluHeader ++ B).getD (4 + A.length + o) 0 =
        H264Encoder.naluHeader.getD o 0 := by
    intro o ho
    rw [List.getD_append _ _ _ _ (by simp [hpre, H264Encoder.naluHeader]; omega),
      List.getD_append_right _ _ _ _ (by simp [hpre])]
    congr 1
    simp [hpre]
  have hPB : ∀ k, k < B.length →
      (pre ++ A ++ H264Encoder.naluHeader ++ B).getD (4 + A.length + (4 + k)) 0 = B.getD k 0 := by
    intro k hk'
    rw [List.getD_append_right _ _ _ _ (by simp [hpre, H264Encoder.naluHeader]; omega)]
    congr 1
    simp [hpre, H264Encoder.naluHeader]
    omega
  -- no start code before the one that follows `A`
  have hno : ∀ j, 4 ≤ j → j < 4 + A.length →
      ¬ (NvEncoder.spsppsBuffer (pre ++ A ++ H264Encoder.naluHeader ++ B) beyond j = 0 ∧
        NvEncoder.spsppsBuffer (pre ++ A ++ H264Encoder.naluHeader ++ B) beyond (j + 1) = 0 ∧
        NvEncoder.spsppsBuffer (pre ++ A ++ H264Encoder.naluHeader ++ B) beyond (j + 2) = 0 ∧
        NvEncoder.spsppsBuffer (pre ++ A ++ H264Encoder.naluHeader ++ B) beyond (j + 3) = 1) := by
    intro j h4 hj hsc
    rw [hd j (by omega), hd (j + 1) (by omega), hd (j + 2) (by omega), hd (j + 3) (by omega)] at hsc
    have hp := header_at_of_getD _ j hsc
    have hdrop : (pre ++ A ++ H264Encoder.naluHeader ++ B).drop j =
        A.drop (j - 4) ++ H264Encoder.naluHeader ++ B := by
      rw [List.append_assoc, List.append_assoc, List.drop_append_eq_append_drop,
        List.drop_of_length_le (by omega), List.nil_append, hpre, List.drop_append_of_le_length
          (by omega), List.append_assoc]
    rw [hdrop] at hp
    cases hA' : A.drop (j - 4) with
    | nil =>
      have := congrArg List.length hA'
      simp at this
      omega
    | cons a A' =>
      rw [hA'] at hp
      have hinf : ¬ H264Encoder.naluHeader <:+: a :: A' := by
        intro hc
        apply hA
        have hsuf : a :: A' <:+ A := by
          rw [← hA']
          exact List.drop_suffix _ _
        exact hc.trans hsuf.isInfix
      have := H264Encoder.not_isPrefixOf_before_header a A' B hinf
      rw [this] at hp
      exact Bool.noConfusion hp
  have hsc : NvEncoder.spsppsBuffer (pre ++ A ++ H264Encoder.naluHeader ++ B) beyond (4 + A.length) = 0 ∧
      NvEncoder.spsppsBuffer (pre ++ A ++ H264Encoder.naluHeader ++ B) beyond (4 + A.length + 1) = 0 ∧
      NvEncoder.spsppsBuffer (pre ++ A ++ H264Encoder.naluHeader ++ B) beyond (4 + A.length + 2) = 0 ∧
      NvEncoder.spsppsBuffer (pre ++ A ++ H264Encoder.naluHeader ++ B) beyond (4 + A.length + 3) = 1 := by
    refine ⟨?_, ?_, ?_, ?_⟩
    · rw [hd _ (by omega)]
      exact hPH 0 (by omega)
    · rw [hd _ (by omega)]
      exact hPH 1 (by omega)
    · rw [hd _ (by omega)]
      exact hPH 2 (by omega)
    · rw [hd _ (by omega)]
      exact hPH 3 (by omega)
  have hfound := findStartCode_found
    (NvEncoder.spsppsBuffer (pre ++ A ++ H264Encoder.naluHeader ++ B) beyond)
    (8 + A.length + B.length) A.length 4 (8 + A.length + B.length + 1) (by omega) hno hsc (by omega)
  have hipps : (8 + A.length + B.length + 2 ^ 32 - (4 + A.length)) % 2 ^ 32 = 4 + B.length := by
    have e1 : 8 + A.length + B.length + 2 ^ 32 - (4 + A.length) = (4 + B.length) + 2 ^ 32 := by
      omega
    rw [e1, Nat.add_mod_right]
    exact Nat.mod_eq_of_lt (by omega)
  simp only [NvEncoder.GetSequenceParams, hlen, hfound, hipps, bne_self_eq_false,
    Bool.false_eq_true, if_false]
  congr 1
  · exact byteRange_eq _ 4 (4 + A.length) A rfl (fun k hk' => by rw [hd _ (by omega)]; exact hPA k hk')
  · exact byteRange_eq _ 4 (4 + B.length) B rfl
      (fun k hk' => by rw [hd _ (by omega)]; exact hPB k hk')

theorem GetSequenceParams_no_start_code (payload : List Nat) (beyond : Nat → Nat)
    (hm : payload.length ≤ NvEncoder.k_SpsPpsDataSize)
    (hnone : ∀ i, 4 ≤ i → i < payload.length →
      ¬ (NvEncoder.spsppsBuffer payload beyond i = 0 ∧
        NvEncoder.spsppsBuffer payload beyond (i + 1) = 0 ∧
        NvEncoder.spsppsBuffer payload beyond (i + 2) = 0 ∧
        NvEncoder.spsppsBuffer payload beyond (i + 3) = 1)) :
    NvEncoder.GetSequenceParams
        { errorCode := NV_ENC_SUCCESS
          spsppsData := NvEncoder.spsppsBuffer payload beyond
          spsppsSize := payload.length } = ([], []) := by
  have hk : NvEncoder.k_SpsPpsDataSize = 1024 := rfl
  have hfind := findStartCode_none (NvEncoder.spsppsBuffer payload beyond) payload.length
    (payload.length + 1) 4 (by
      intro j h4 hj
      by_cases hlt : j < payload.length
      · exact hnone j h4 hlt
      · have hj4 : j = 4 := by
          rcases hj with hj | hj
          · exact absurd hj hlt
          · exact hj
        subst hj4
        rintro ⟨_, _, _, h3⟩
        rw [spsppsBuffer_payload _ _ _ (by omega), List.getD_eq_default _ _ (by omega)] at h3
        exact absurd h3 (by decide))
  simp only [NvEncoder.GetSequenceParams, hfind, bne_self_eq_false, Bool.false_eq_true, if_false]

/-- C24. When the driver succeeds and reports a payload of at most 1024 bytes
made of 4 leading bytes, `A`, `00 00 00 01` and `B`, where `A` does not contain
`00 00 00 01`, `GetSequenceParams` returns `spsSequence = A` and
`ppsSequence = B`.  When no `00 00 00 01` stands at an index in `[4, n)` of the
array seen by the loop, it returns both sequences empty. -/
theorem C24_sequence_parameter_split (pre A B payload : List Nat) (beyond : Nat → Nat)
    (hpre : pre.length = 4) (hA : ¬ [0x00, 0x00, 0x00, 0x01] <:+: A)
    (hn : (pre ++ A ++ [0x00, 0x00, 0x00, 0x01] ++ B).length ≤ NvEncoder.k_SpsPpsDataSize)
    (hm : payload.length ≤ NvEncoder.k_SpsPpsDataSize)
    (hnone : ∀ i, 4 ≤ i → i < payload.length →
      ¬ (NvEncoder.spsppsBuffer payload beyond i = 0x00 ∧
        NvEncoder.spsppsBuffer payload beyond (i + 1) = 0x00 ∧
        NvEncoder.spsppsBuffer payload beyond (i + 2) = 0x00 ∧
        NvEncoder.spsppsBuffer payload beyond (i + 3) = 0x01)) :
    NvEncoder.GetSequenceParams
        { errorCode := NV_ENC_SUCCESS
          spsppsData := NvEncoder.spsppsBuffer (pre ++ A ++ [0x00, 0x00, 0x00, 0x01] ++ B) beyond
          spsppsSize := (pre ++ A ++ [0x00, 0x00, 0x00, 0x01] ++ B).length } = (A, B) ∧
    NvEncoder.GetSequenceParams
        { errorCode := NV_ENC_SUCCESS
          spsppsData := NvEncoder.spsppsBuffer payload beyond
          spsppsSize := payload.length } = ([], []) :=
  ⟨GetSequenceParams_split pre A B beyond hpre hA hn,
    GetSequenceParams_no_start_code payload beyond hm hnone⟩

theorem C24_sequence_parameter_split_witness :
    NvEncoder.GetSequenceParams
        { errorCode := NV_ENC_SUCCESS
          spsppsData :=
            NvEncoder.spsppsBuffer
              ([0, 0, 0, 1] ++ [0x67, 0x42, 0x00, 0x00] ++ [0x00, 0x00, 0x00, 0x01] ++ [0x68, 0xCE])
              (fun _ => 0x01)
          spsppsSize :=
            ([0, 0, 0, 1] ++ [0x67, 0x42, 0x00, 0x00] ++ [0x00, 0x00, 0x00, 0x01] ++
              [0x68, 0xCE]).length } = ([0x67, 0x42, 0x00, 0x00], [0x68, 0xCE]) ∧
    NvEncoder.GetSequenceParams
        { errorCode := NV_ENC_SUCCESS
          spsppsData := NvEncoder.spsppsBuffer [0, 0, 0, 1, 0x67, 0x42, 0x00, 0x00, 0x00] (fun _ => 0x01)
          spsppsSize := [0, 0, 0, 1, 0x67, 0x42, 0x00, 0x00, 0x00].length } = ([], []) :=
  C24_sequence_parameter_split [0, 0, 0, 1] [0x67, 0x42, 0x00, 0x00] [0x68, 0xCE]
    [0, 0, 0, 1, 0x67, 0x42, 0x00, 0x00, 0x00] (fun _ => 0x01) (by decide) (by decide) (by decide)
    (by decide) (by
      intro i h1 h2
      have h3 : i < 9 := h2
      interval_cases i <;> decide)

/-! ## The reads of the start-code search -/

theorem startCodeReads_reach (d : Nat → Nat) (size : Nat) :
    ∀ (k i fuel : Nat), k < fuel → (∀ j, i ≤ j → j < i + k → d j ≠ 0) → i + k < size →
      ∀ x, x ∈ NvEncoder.conditionReads d (i + k) → x ∈ NvEncoder.startCodeReads d size fuel i := by
  intro k
  induction k with
  | zero =>
    intro i fuel hf _ _ x hx
    obtain ⟨f, rfl⟩ : ∃ f, fuel = f + 1 := ⟨fuel - 1, by omega⟩
    rw [NvEncoder.startCodeReads]
    exact List.mem_append_left _ hx
  | succ k ih =>
    intro i fuel hf hnz hlt x hx
    obtain ⟨f, rfl⟩ : ∃ f, fuel = f + 1 := ⟨fuel - 1, by omega⟩
    have hi : d i ≠ 0 := hnz i (le_refl i) (by omega)
    have hcond : (d i != 0x00 || d (i + 1) != 0x00 || d (i + 2) != 0x00 || d (i + 3) != 0x01) =
        true := by
      simp [hi]
    have hge : ¬ (i + 1 ≥ size) := by omega
    rw [NvEncoder.startCodeReads, if_pos hcond, if_neg hge]
    apply List.mem_append_right
    have e1 : i + 1 + k = i + (k + 1) := by omega
    exact ih (i + 1) f (by omega) (fun j h1 h2 => hnz j (by omega) (by omega)) (by omega) x
      (by rw [e1]; exact hx)

/-- C25. For a reported size `n` of 1022, 1023 or 1024 whose payload has no
zero byte at the indices from 4 to `n - 2` and a zero byte at index `n - 1`,
the start-code search of `GetSequenceParams` reads index 1024 of the 1024-byte
array `spsppsData`. -/
theorem C25_start_code_search_reads_past_array (payload : List Nat) (beyond : Nat → Nat)
    (hn1 : 1022 ≤ payload.length) (hn2 : payload.length ≤ NvEncoder.k_SpsPpsDataSize)
    (hnz : ∀ j, 4 ≤ j → j + 1 < payload.length → payload.getD j 0 ≠ 0)
    (hz : payload.getD (payload.length - 1) 0 = 0) :
    NvEncoder.k_SpsPpsDataSize ∈
      NvEncoder.startCodeReads (NvEncoder.spsppsBuffer payload beyond) payload.length
        (payload.length + 1) 4 := by
  have hk : NvEncoder.k_SpsPpsDataSize = 1024 := rfl
  rw [hk] at hn2 ⊢
  have hreach := startCodeReads_reach (NvEncoder.spsppsBuffer payload beyond) payload.length
    (payload.length - 5) 4 (payload.length + 1) (by omega)
    (fun j h1 h2 => by
      rw [spsppsBuffer_payload _ _ _ (by rw [hk]; omega)]
      exact hnz j h1 (by omega))
    (by omega) 1024
  apply hreach
  have e1 : 4 + (payload.length - 5) = payload.length - 1 := by omega
  rw [e1]
  have h0 : NvEncoder.spsppsBuffer payload beyond (payload.length - 1) = 0 := by
    rw [spsppsBuffer_payload _ _ _ (by rw [hk]; omega)]
    exact hz
  have hfill : ∀ i, payload.length ≤ i → i < 1024 → NvEncoder.spsppsBuffer payload beyond i = 0 := by
    intro i h1 h2
    rw [spsppsBuffer_payload _ _ _ (by rw [hk]; omega), List.getD_eq_default _ _ h1]
  rcases (by omega : payload.length = 1022 ∨ payload.length = 1023 ∨ payload.length = 1024) with
    h | h | h
  · have a1 := hfill 1022 (by omega) (by omega)
    have a2 := hfill 1023 (by omega) (by omega)
    rw [h] at h0 ⊢
    simp only [Nat.reduceSub] at h0 ⊢
    simp [NvEncoder.conditionReads, h0, a1, a2]
  · have a1 := hfill 1023 (by omega) (by omega)
    rw [h] at h0 ⊢
    simp only [Nat.reduceSub] at h0 ⊢
    simp only [NvEncoder.conditionReads, h0, a1, bne_self_eq_false, Bool.false_eq_true, if_false]
    split_ifs <;> simp
  · rw [h] at h0 ⊢
    simp only [Nat.reduceSub] at h0 ⊢
    simp only [NvEncoder.conditionReads, h0, bne_self_eq_false, Bool.false_eq_true, if_false]
    split_ifs <;> simp

theorem replicate_zero_ended (n : Nat) :
    (List.replicate n 0xFF ++ [0x00]).length = n + 1 ∧
    (List.replicate n 0xFF ++ [0x00]).getD n 0 = 0 ∧
    ∀ j, j < n → (List.replicate n 0xFF ++ [0x00]).getD j 0 ≠ 0 := by
  refine ⟨by simp, ?_, ?_⟩
  · rw [List.getD_append_right _ _ _ _ (by simp)]
    simp
  · intro j hj
    have hj' : j < (List.replicate n 0xFF).length := by simpa using hj
    rw [List.getD_append _ _ _ _ hj', List.getD_eq_getElem _ _ hj']
    simp

theorem C25_start_code_search_reads_past_array_witness :
    (zeroEndedPayload.length = 1024 ∧ zeroEndedPayload.getD 1023 0 = 0) ∧
    NvEncoder.k_SpsPpsDataSize ∈
      NvEncoder.startCodeReads (NvEncoder.spsppsBuffer zeroEndedPayload (fun _ => 0))
        zeroEndedPayload.length (zeroEndedPayload.length + 1) 4 :=
  have hlen : zeroEndedPayload.length = 1024 := (replicate_zero_ended 1023).1
  ⟨⟨hlen, (replicate_zero_ended 1023).2.1⟩,
    C25_start_code_search_reads_past_array zeroEndedPayload (fun _ => 0)
      (by rw [hlen]; decide) (by rw [hlen]; decide)
      (fun j _ h2 => (replicate_zero_ended 1023).2.2 j (by rw [hlen] at h2; omega))
      (by rw [hlen]; exact (replicate_zero_ended 1023).2.1)⟩

end NvencPlugin

namespace NetworkListManager

/-! # Enumeration and refresh of the network list -/

theorem GetNext_buffered {α : Type} (Stride : Nat) (w : EnumeratorWrapper α)
    (hd : w.m_Done = false) (hlt : w.m_BufferIdx < w.m_NumFetched) :
    EnumeratorWrapper.GetNext Stride w =
      (w.m_Buffer.get? w.m_BufferIdx, { w with m_BufferIdx := w.m_BufferIdx + 1 }) := by
  simp [EnumeratorWrapper.GetNext, hd, Nat.not_le.2 hlt]

theorem GetNext_refill {α : Type} (Stride : Nat) (w : EnumeratorWrapper α) (hS : 0 < Stride)
    (hd : w.m_Done = false) (hge : w.m_NumFetched ≤ w.m_BufferIdx)
    (hfull : Stride ≤ w.m_Enumerator.length) :
    EnumeratorWrapper.GetNext Stride w =
      ((w.m_Enumerator.take Stride ++ w.m_Buffer.drop Stride).get? 0,
        { m_Enumerator := w.m_Enumerator.drop Stride
          m_Buffer := w.m_Enumerator.take Stride ++ w.m_Buffer.drop Stride
          m_NumFetched := Stride
          m_BufferIdx := 1
          m_Done := false
          released := w.released ++ w.m_Buffer.take w.m_NumFetched }) := by
  have hnext : Next w.m_Enumerator Stride =
      ({ hr := S_OK, fetched := w.m_Enumerator.take Stride }, w.m_Enumerator.drop Stride) := by
    simp [Next, hfull]
  have hlen : (w.m_Enumerator.take Stride).length = Stride := by
    simp [hfull]
  have hne : ¬ Stride = 0 := by omega
  simp [EnumeratorWrapper.GetNext, hd, hge, EnumeratorWrapper.Release, hnext, hlen, hne, hfull]

theorem GetNext_last {α : Type} (Stride : Nat) (w : EnumeratorWrapper α)
    (hd : w.m_Done = false) (hge : w.m_NumFetched ≤ w.m_BufferIdx)
    (hpart : w.m_Enumerator.length < Stride) :
    (EnumeratorWrapper.GetNext Stride w).1 = none := by
  have hnext : Next w.m_Enumerator Stride =
      ({ hr := S_FALSE, fetched := w.m_Enumerator }, []) := by
    simp [Next, Nat.not_le.2 hpart]
  simp [EnumeratorWrapper.GetNext, hd, hge, EnumeratorWrapper.Release, hnext, S_OK, S_FALSE]

theorem collect_eq {α : Type} (Stride : Nat) (hS : 0 < Stride) :
    ∀ (fuel : Nat) (w : EnumeratorWrapper α), w.m_Done = false →
      w.m_NumFetched ≤ w.m_Buffer.length →
      ((w.m_Buffer.take w.m_NumFetched).drop w.m_BufferIdx).length + w.m_Enumerator.length ≤ fuel →
      EnumeratorWrapper.collect Stride fuel w =
        (w.m_Buffer.take w.m_NumFetched).drop w.m_BufferIdx ++
          w.m_Enumerator.take (Stride * (w.m_Enumerator.length / Stride)) := by
  intro fuel
  induction fuel with
  | zero =>
    intro w _ _ hf
    have h1 : ((w.m_Buffer.take w.m_NumFetched).drop w.m_BufferIdx) = [] :=
      List.length_eq_zero.1 (by omega)
    have h2 : w.m_Enumerator = [] := List.length_eq_zero.1 (by omega)
    rw [h1, h2]
    simp [EnumeratorWrapper.collect]
  | succ fuel ih =>
    intro w hd hbuf hf
    by_cases hlt : w.m_BufferIdx < w.m_NumFetched
    · have hidx : w.m_BufferIdx < (w.m_Buffer.take w.m_NumFetched).length := by
        rw [List.length_take]
        omega
      have hdrop := List.drop_eq_getElem_cons hidx
      have hget : w.m_Buffer.get? w.m_BufferIdx =
          some ((w.m_Buffer.take w.m_NumFetched)[w.m_BufferIdx]) := by
        rw [List.get?_eq_getElem?, List.getElem_take, List.getElem?_eq_getElem]
      rw [EnumeratorWrapper.collect, GetNext_buffered Stride w hd hlt, hget]
      simp only []
      rw [hdrop] at hf ⊢
      have hf1 : ((w.m_Buffer.take w.m_NumFetched).drop (w.m_BufferIdx + 1)).length +
          w.m_Enumerator.length ≤ fuel := by
        simp only [List.length_cons] at hf
        omega
      rw [ih { w with m_BufferIdx := w.m_BufferIdx + 1 } hd hbuf hf1]
      rfl
    · have hge : w.m_NumFetched ≤ w.m_BufferIdx := Nat.not_lt.1 hlt
      have hpending : (w.m_Buffer.take w.m_NumFetched).drop w.m_BufferIdx = [] :=
        List.drop_of_length_le (by rw [List.length_take]; omega)
      rw [hpending, List.nil_append]
      by_cases hfull : Stride ≤ w.m_Enumerator.length
      · have hlen : (w.m_Enumerator.take Stride).length = Stride := by
          simp [hfull]
        have h0 : 0 < (w.m_Enumerator.take Stride).length := by omega
        have hget : (w.m_Enumerator.take Stride ++ w.m_Buffer.drop Stride).get? 0 =
            some ((w.m_Enumerator.take Stride)[0]) := by
          rw [List.get?_eq_getElem?, List.getElem?_append_left h0, List.getElem?_eq_getElem]
        rw [EnumeratorWrapper.collect, GetNext_refill Stride w hS hd hge hfull, hget]
        simp only []
        have hpend : ((w.m_Enumerator.take Stride ++ w.m_Buffer.drop Stride).take Stride).drop 1 =
            (w.m_Enumerator.take Stride).drop 1 := by
          rw [List.take_left' hlen]
        have hf1 : (((w.m_Enumerator.take Stride ++ w.m_Buffer.drop Stride).take Stride).drop
            1).length + (w.m_Enumerator.drop Stride).length ≤ fuel := by
          rw [hpend]
          simp only [List.length_drop, List.length_take, hpending, List.length_nil, Nat.zero_add]
            at hf ⊢
          omega
        have hb1 : Stride ≤ (w.m_Enumerator.take Stride ++ w.m_Buffer.drop Stride).length := by
          rw [List.length_append, hlen]
          omega
        rw [ih
          { m_Enumerator := w.m_Enumerator.drop Stride
            m_Buffer := w.m_Enumerator.take Stride ++ w.m_Buffer.drop Stride
            m_NumFetched := Stride
            m_BufferIdx := 1
            m_Done := false
            released := w.released ++ w.m_Buffer.take w.m_NumFetched } rfl hb1 hf1]
        simp only []
        rw [hpend, ← List.cons_append, ← List.drop_eq_getElem_cons h0, List.drop_zero]
        have hq : w.m_Enumerator.length / Stride =
            (w.m_Enumerator.drop Stride).length / Stride + 1 := by
          rw [List.length_drop]
          have := Nat.sub_add_cancel hfull
          conv_lhs => rw [← this]
          rw [Nat.add_div_right _ hS]
        rw [hq, Nat.mul_add, Nat.mul_one, Nat.add_comm (Stride * _) Stride, List.take_add]
      · have hpart : w.m_Enumerator.length < Stride := Nat.not_le.1 hfull
        have hnone := GetNext_last Stride w hd hge hpart
        have hq : w.m_Enumerator.length / Stride = 0 := Nat.div_eq_of_lt hpart
        rw [hq, Nat.mul_zero, List.take_zero, EnumeratorWrapper.collect]
        generalize EnumeratorWrapper.GetNext Stride w = res at hnone
        obtain ⟨item, w1⟩ := res
        simp only at hnone
        subst hnone
        rfl

/-- C29. On an underlying enumerator that follows the COM convention and holds
the list `L`, the items returned by successive `GetNext` calls before the first
`nullptr` are the first `Stride * (|L| / Stride)` items of `L`: the full
batches only.  When `|L|` is not a multiple of `Stride`, the items of the last
batch, which `Next` returns with `S_FALSE`, are never returned. -/
theorem C29_only_full_batches_returned {α : Type} (Stride : Nat) (L : List α) (n : Nat)
    (hS : 0 < Stride) (hn : L.length ≤ n) (hrem : L.length % Stride ≠ 0) :
    EnumeratorWrapper.collect Stride n (EnumeratorWrapper.new Stride L) =
      L.take (Stride * (L.length / Stride)) ∧
    (EnumeratorWrapper.collect Stride n (EnumeratorWrapper.new Stride L)).length < L.length ∧
    EnumeratorWrapper.collect Stride n (EnumeratorWrapper.new Stride L) ≠ L := by
  have h := collect_eq Stride hS n (EnumeratorWrapper.new Stride L) rfl (Nat.le_refl _)
    (by simpa [EnumeratorWrapper.new] using hn)
  have hc : EnumeratorWrapper.collect Stride n (EnumeratorWrapper.new Stride L) =
      L.take (Stride * (L.length / Stride)) := by
    rw [h]
    simp [EnumeratorWrapper.new]
  have hlen : (L.take (Stride * (L.length / Stride))).length < L.length := by
    rw [List.length_take]
    have h1 := Nat.div_add_mod L.length Stride
    have h2 : 0 < L.length % Stride := Nat.pos_of_ne_zero hrem
    omega
  refine ⟨hc, by rw [hc]; exact hlen, ?_⟩
  intro hL
  rw [hc] at hL
  rw [hL] at hlen
  exact Nat.lt_irrefl _ hlen

theorem C29_only_full_batches_returned_witness :
    ((0 : Nat) < 4 ∧ ([10, 20, 30, 40, 50] : List Nat).length % 4 ≠ 0 ∧
      EnumeratorWrapper.collect 4 6 (EnumeratorWrapper.new 4 [10, 20, 30, 40, 50]) =
        [10, 20, 30, 40] ∧
      EnumeratorWrapper.collect 4 6 (EnumeratorWrapper.new 4 [10, 20, 30]) = []) ∧
    EnumeratorWrapper.collect 4 6 (EnumeratorWrapper.new 4 [10, 20, 30, 40, 50]) =
      ([10, 20, 30, 40, 50] : List Nat).take (4 * (([10, 20, 30, 40, 50] : List Nat).length / 4)) ∧
    (EnumeratorWrapper.collect 4 6 (EnumeratorWrapper.new 4 [10, 20, 30, 40, 50])).length <
      ([10, 20, 30, 40, 50] : List Nat).length ∧
    EnumeratorWrapper.collect 4 6 (EnumeratorWrapper.new 4 [10, 20, 30, 40, 50]) ≠
      [10, 20, 30, 40, 50] :=
  ⟨⟨by decide, by decide, by decide, by decide⟩,
    C29_only_full_batches_returned 4 [10, 20, 30, 40, 50] 6 (by decide) (by decide) (by decide)⟩

/-- C30. Whenever `Update` performs a refresh (the `ForceRefresh` bit is set or
the state has changed), it calls `Refresh` once, with
`onlyConnectedNetworks = true` exactly when the `OnlyConnectedNetworks` bit of
the input flags is NOT set: the comparison is made with
`!= OnlyConnectedNetworks` where the line above has `!= None`. -/
theorem C30_only_connected_flag_inverted (self : NLMWrapper) (inputFlags : Nat)
    (hrefresh : (inputFlags &&& UpdateInputFlags.ForceRefresh) ≠ UpdateInputFlags.None ∨
      self.m_StateChanged = true) :
    (self.Update inputFlags).1 = UpdateOutputFlags.Refreshed ∧
    ∃ onlyConnectedNetworks : Bool,
      (self.Update inputFlags).2.refreshCalls = self.refreshCalls ++ [onlyConnectedNetworks] ∧
      (onlyConnectedNetworks = true ↔
        ¬ (inputFlags &&& UpdateInputFlags.OnlyConnectedNetworks =
          UpdateInputFlags.OnlyConnectedNetworks)) := by
  have hcond : ((inputFlags &&& UpdateInputFlags.ForceRefresh) != UpdateInputFlags.None ||
      self.m_StateChanged) = true := by
    rcases hrefresh with h | h
    · simp [h]
    · simp [h]
  refine ⟨by simp [NLMWrapper.Update, hcond, NLMWrapper.Refresh],
    (inputFlags &&& UpdateInputFlags.OnlyConnectedNetworks) != UpdateInputFlags.OnlyConnectedNetworks,
    ?_, ?_⟩
  · simp only [NLMWrapper.Update, hcond, if_true, NLMWrapper.Refresh]
  · simp

theorem C30_only_connected_flag_inverted_witness :
    ((3 &&& UpdateInputFlags.ForceRefresh) ≠ UpdateInputFlags.None ∧
      3 &&& UpdateInputFlags.OnlyConnectedNetworks = UpdateInputFlags.OnlyConnectedNetworks ∧
      (NLMWrapper.Update { m_StateChanged := false, refreshCalls := [] } 3).2.refreshCalls =
        [false] ∧
      (NLMWrapper.Update { m_StateChanged := false, refreshCalls := [] } 1).2.refreshCalls =
        [true]) ∧
    (NLMWrapper.Update { m_StateChanged := false, refreshCalls := [] } 3).1 =
      UpdateOutputFlags.Refreshed ∧
    ∃ onlyConnectedNetworks : Bool,
      (NLMWrapper.Update { m_StateChanged := false, refreshCalls := [] } 3).2.refreshCalls =
        ([] : List Bool) ++ [onlyConnectedNetworks] ∧
      (onlyConnectedNetworks = true ↔
        ¬ (3 &&& UpdateInputFlags.OnlyConnectedNetworks =
          UpdateInputFlags.OnlyConnectedNetworks)) :=
  ⟨⟨by decide, by decide, by decide, by decide⟩,
    C30_only_connected_flag_inverted { m_StateChanged := false, refreshCalls := [] } 3
      (Or.inl (by decide))⟩

end NetworkListManager
